import Mathlib

/-!
# kms-core: the agnostic bin (adaptive format router)

A shallow embedding of `src/kmsagnosticbin.c` (and of the part of `src/kmsloop.c`
it calls) together with theorems about it.

Conventions of the embedding

* `GstCaps` is a type parameter `Caps`.  The GStreamer caps predicates the
  code calls, the `KMS_AGNOSTIC_*` caps constants of `kmsagnosticcaps.h`, the
  element-factory registry and the caps a pad reports are fields of `Env`:
  they belong to the pipeline runtime, not to this repository's sources.
* Every function of the C file that reads or writes `self->priv` takes the
  state `KmsAgnosticBin2` and returns the new one.  A function definition is
  the function run from start to end; which parts of it run as one atomic step
  of the router (a critical section under `thread_mutex`) is fixed by `Step`.
* Objects are identified by a number: an element by its unique object name
  (`GST_OBJECT_NAME`), a ghost pad by `id`.
* A NULL pointer dereference of the C code is the result `Except.error`.
-/

namespace KmsCore

/-! ## Runtime data -/

/-- Direction of a pad template (`GstPadDirection`). -/
inductive GstPadDirection where
  | GST_PAD_SRC
  | GST_PAD_SINK
deriving DecidableEq, Repr

/-- What the code inspects of a `GstElementFactory`: its static pad templates
(direction and caps, in declaration order).  `name` identifies the factory. -/
structure GstElementFactory (Caps : Type) where
  name : Nat
  static_pad_templates : List (GstPadDirection × Caps)
deriving DecidableEq, Repr

/-- The element types the router instantiates: the fixed ones it makes by name
with `gst_element_factory_make`, and `created f` for an element made from a
registry factory with `gst_element_factory_create`. -/
inductive ElementKind (Caps : Type) where
  | queue
  | tee
  | fakesink
  | identity
  | audioconvert
  | videoconvert
  | audiorate
  | videorate
  | created (f : GstElementFactory Caps)
deriving DecidableEq, Repr

/-- A `GstElement`: its unique object name and its type. -/
structure GstElement (Caps : Type) where
  name : Nat
  kind : ElementKind Caps
deriving DecidableEq, Repr

/-- The peer pad of an output port: `query_caps` is the answer of
`gst_pad_query_caps (peer, NULL)`. -/
structure Peer (Caps : Type) where
  query_caps : Option Caps
deriving DecidableEq, Repr

/-- An output port: a `src_%u` ghost pad of the bin.  `id` is the object's
identity, `name` the number in `src_%u`, `peer` the linked downstream pad
(`gst_pad_get_peer`), `target` the name of the element whose src pad is the
ghost pad's target (`gst_ghost_pad_get_target`). -/
structure GhostPad (Caps : Type) where
  id : Nat
  name : Nat
  peer : Option (Peer Caps)
  target : Option Nat
deriving DecidableEq, Repr

/-- What the router uses of `KmsLoop` (`src/kmsloop.c`): whether its thread is
still there (`priv->thread != NULL`) and how many idle sources carrying
`kms_agnostic_bin2_process_pad_loop` have been attached to it so far (each
attached source is one scheduled worker step). -/
structure KmsLoop where
  thread : Bool
  sources : Nat
deriving DecidableEq, Repr

/-- Events seen by the pad probes, as far as the code tells them apart. -/
inductive GstEvent (Caps : Type) where
  | caps (c : Option Caps)
  | reconfigure
  | gap
  | other
deriving DecidableEq, Repr

/-- Return values of a pad probe (`GstPadProbeReturn`). -/
inductive GstPadProbeReturn where
  | GST_PAD_PROBE_DROP
  | GST_PAD_PROBE_OK
  | GST_PAD_PROBE_REMOVE
  | GST_PAD_PROBE_PASS
deriving DecidableEq, Repr

/-- The ways the C code can fail fatally. -/
inductive Fault where
  | null_dereference
deriving DecidableEq, Repr

/-- Observable record kept beside the state: the pads handed to
`kms_agnostic_bin2_process_pad` (`none` is a NULL pad) and the warnings posted
on the bus with `GST_ELEMENT_WARNING`, in order of occurrence. -/
inductive TraceEvent where
  | process_pad (pad : Option Nat)
  | element_warning
deriving DecidableEq, Repr

/-- The pipeline runtime and the constants the router is compiled against.

* `gst_caps_is_any`, `gst_caps_can_intersect`, `gst_caps_is_always_compatible`
  are the GStreamer caps predicates of these names;
* `KMS_AGNOSTIC_RAW_CAPS` and the four `static_*_caps` are the caps constants
  of `kmsagnosticcaps.h`;
* `decoder_list`, `encoder_list`, `parser_list` are the lists
  `gst_element_factory_list_get_elements` returns for decoders, encoders and
  parsers, in the registry's order;
* `gst_pad_get_current_caps n` and `gst_pad_get_allowed_caps n` are the caps the
  sink pad of the tee named `n` reports (NULL is `none`). -/
structure Env (Caps : Type) where
  gst_caps_is_any : Caps → Bool
  gst_caps_can_intersect : Caps → Caps → Bool
  gst_caps_is_always_compatible : Caps → Caps → Bool
  KMS_AGNOSTIC_RAW_CAPS : Caps
  static_audio_caps : Caps
  static_video_caps : Caps
  static_raw_audio_caps : Caps
  static_raw_video_caps : Caps
  decoder_list : List (GstElementFactory Caps)
  encoder_list : List (GstElementFactory Caps)
  parser_list : List (GstElementFactory Caps)
  gst_pad_get_current_caps : Nat → Option Caps
  gst_pad_get_allowed_caps : Nat → Option Caps

/-- The router: `struct _KmsAgnosticBin2Private` followed by the state of the
bin and of the runtime that the code reads and writes.

* `tees` is the hash table `priv->tees`, listed in the order
  `g_hash_table_get_values` returns its values;
* `pads_to_link` is the `GQueue`, head first, holding pad identities;
* `block_probe` is the probe id (`0` when no blocking probe is installed);
* `sink_probe_seq` counts the probes added to the sink pad so far;
* `children` are the elements added with `gst_bin_add`, `links` the element
  links `(upstream, downstream)`, `src_pads` the bin's src pads;
* `blocked_targets` are the elements whose src pad carries a `queue_block`
  probe;
* `input_caps_probes` are the input tees whose parser still carries the
  `set_input_caps` probe;
* `element_seq` and `pad_seq` are the next fresh element name and pad
  identity. -/
structure KmsAgnosticBin2 (Caps : Type) where
  tees : List (GstElement Caps)
  pads_to_link : List Nat
  block_probe : Nat
  main_tee : GstElement Caps
  current_tee : Option (GstElement Caps)
  current_caps : Option Caps
  last_caps : Option Caps
  pad_count : Nat
  started : Bool
  loop : Option KmsLoop
  sink_probe_seq : Nat
  children : List (GstElement Caps)
  links : List (Nat × Nat)
  src_pads : List (GhostPad Caps)
  blocked_targets : List Nat
  input_caps_probes : List Nat
  element_seq : Nat
  pad_seq : Nat
  trace : List TraceEvent
deriving DecidableEq, Repr

variable {Caps : Type}

/-! ## Runtime primitives -/

/-- Model of `gst_element_factory_make (type, NULL)` and
`gst_element_factory_create (factory, NULL)`: a new element with a fresh
unique name. -/
def gst_element_factory_make (self : KmsAgnosticBin2 Caps) (kind : ElementKind Caps) :
    GstElement Caps × KmsAgnosticBin2 Caps :=
  ({ name := self.element_seq, kind := kind },
   { self with element_seq := self.element_seq + 1 })

/-- Model of `gst_bin_add_many (GST_BIN (self), ...)`. -/
def gst_bin_add_many (self : KmsAgnosticBin2 Caps) (es : List (GstElement Caps)) :
    KmsAgnosticBin2 Caps :=
  { self with children := self.children ++ es }

/-- The links `gst_element_link_many` makes between consecutive elements. -/
def chain_links : List Nat → List (Nat × Nat)
  | a :: b :: rest => (a, b) :: chain_links (b :: rest)
  | _ => []

/-- Model of `gst_element_link_many (e1, e2, ..., NULL)`. -/
def gst_element_link_many (self : KmsAgnosticBin2 Caps) (es : List (GstElement Caps)) :
    KmsAgnosticBin2 Caps :=
  { self with links := self.links ++ chain_links (es.map (fun e => e.name)) }

/-- Model of `g_hash_table_insert (priv->tees, GST_OBJECT_NAME (tee), tee)`: the
value stored under an existing key is replaced, a new key is added.  GLib
leaves the iteration order of a hash table open; here a new key comes last. -/
def g_hash_table_insert (t : List (GstElement Caps)) (e : GstElement Caps) :
    List (GstElement Caps) :=
  if t.any (fun x => x.name == e.name) then
    t.map (fun x => if x.name == e.name then e else x)
  else t ++ [e]

/-- Model of `g_queue_index (queue, pad)`: the position of the first
occurrence, `-1` when there is none. -/
def g_queue_index (q : List Nat) (pad : Nat) : Int :=
  if pad ∈ q then (q.indexOf pad : Int) else -1

/-- Model of `g_queue_pop_head`: the head (NULL on an empty queue) and the rest. -/
def g_queue_pop_head (q : List Nat) : Option Nat × List Nat :=
  match q with
  | [] => (none, [])
  | p :: rest => (some p, rest)

/-- Model of `gst_pad_get_peer (pad)` for a ghost pad of the bin; a pad that is
no longer a pad of the bin has been unlinked by `gst_element_remove_pad`. -/
def gst_pad_get_peer (self : KmsAgnosticBin2 Caps) (pad : Nat) : Option (Peer Caps) :=
  match self.src_pads.find? (fun p => p.id == pad) with
  | some p => p.peer
  | none => none

/-- Model of `gst_ghost_pad_set_target (GST_GHOST_PAD (pad), target)`. -/
def gst_ghost_pad_set_target (self : KmsAgnosticBin2 Caps) (pad : Nat) (target : Option Nat) :
    KmsAgnosticBin2 Caps :=
  { self with
    src_pads :=
      self.src_pads.map (fun p => if p.id == pad then { p with target := target } else p) }

/-- Model of `gst_ghost_pad_get_target (GST_GHOST_PAD (pad))`. -/
def gst_ghost_pad_get_target (self : KmsAgnosticBin2 Caps) (pad : Nat) : Option Nat :=
  match self.src_pads.find? (fun p => p.id == pad) with
  | some p => p.target
  | none => none

/-! ## `kmsloop.c` -/

/-- Model of `kms_loop_attach`: nothing is attached once the loop's thread is
gone (the function returns 0), otherwise the source is attached. -/
def kms_loop_attach (self : KmsLoop) : KmsLoop :=
  if self.thread = false then self
  else { self with sources := self.sources + 1 }

/-- Model of `kms_loop_idle_add_full (loop, priority, function, data, notify)`:
`KMS_IS_LOOP (NULL)` is false, so a cleared loop schedules nothing. -/
def kms_loop_idle_add_full (loop : Option KmsLoop) : Option KmsLoop :=
  match loop with
  | none => none
  | some l => some (kms_loop_attach l)

/-! ## `kmsagnosticbin.c`: format classification -/

/-- Translation of `is_raw_caps`. -/
def is_raw_caps (env : Env Caps) (caps : Caps) : Bool :=
  env.gst_caps_is_always_compatible caps env.KMS_AGNOSTIC_RAW_CAPS

/-! ## The flow gate -/

/-- Translation of `sink_block`, the callback of the blocking probe.  `block`
says whether the probe info carries `GST_PAD_PROBE_TYPE_BLOCK` (it does
whenever GStreamer runs a probe installed with
`GST_PAD_PROBE_TYPE_BLOCK_DOWNSTREAM`), `buffer` whether it carries a buffer or
a buffer list.  The result is `none` while the callback waits on `probe_cond`
(the `while (self->priv->block_probe)` loop has not been left), and the
return value otherwise. -/
def sink_block (self : KmsAgnosticBin2 Caps) (block : Bool) (buffer : Bool) :
    Option GstPadProbeReturn :=
  if !block then some GstPadProbeReturn.GST_PAD_PROBE_OK
  else if buffer && self.block_probe != 0 then none
  else some GstPadProbeReturn.GST_PAD_PROBE_OK

/-- Translation of `kms_agnostic_bin2_remove_block_probe`. -/
def kms_agnostic_bin2_remove_block_probe (self : KmsAgnosticBin2 Caps) : KmsAgnosticBin2 Caps :=
  if self.block_probe != 0 then { self with block_probe := 0 }
  else self

/-- Translation of `kms_agnostic_bin2_set_block_probe`.  `gst_pad_add_probe`
hands out the next probe id of the sink pad; the ids of a pad start at 1 and
count up (the wrap-around of the `gulong` counter is out of reach), so the id
is never 0. -/
def kms_agnostic_bin2_set_block_probe (self : KmsAgnosticBin2 Caps) : KmsAgnosticBin2 Caps :=
  if self.block_probe == 0 then
    { self with block_probe := self.sink_probe_seq + 1, sink_probe_seq := self.sink_probe_seq + 1 }
  else self

/-! ## Branches and fan-out points -/

/-- Translation of `link_queue_to_tee`: a new src pad is requested from `tee` and
linked to the sink pad of `queue`.  A NULL `tee` yields no pad and no link. -/
def link_queue_to_tee (self : KmsAgnosticBin2 Caps) (tee : Option (GstElement Caps))
    (queue : GstElement Caps) : KmsAgnosticBin2 Caps :=
  { self with
    links := self.links ++
      (match tee with
       | some t => [(t.name, queue.name)]
       | none => []) }

/-- Translation of `create_convert_for_caps`. -/
def create_convert_for_caps (env : Env Caps) (self : KmsAgnosticBin2 Caps) (caps : Caps) :
    GstElement Caps × KmsAgnosticBin2 Caps :=
  gst_element_factory_make self
    (if env.gst_caps_can_intersect caps env.static_audio_caps then ElementKind.audioconvert
     else ElementKind.videoconvert)

/-- Translation of `create_rate_for_caps`. -/
def create_rate_for_caps (env : Env Caps) (self : KmsAgnosticBin2 Caps) (caps : Caps) :
    GstElement Caps × KmsAgnosticBin2 Caps :=
  gst_element_factory_make self
    (if env.gst_caps_can_intersect caps env.static_audio_caps then ElementKind.audiorate
     else ElementKind.videorate)

/-- Translation of `remove_target_pad`: when the ghost pad has a target, the
target gets a `queue_block` probe and the ghost pad loses its target. -/
def remove_target_pad (self : KmsAgnosticBin2 Caps) (pad : Nat) : KmsAgnosticBin2 Caps :=
  match gst_ghost_pad_get_target self pad with
  | some target =>
    gst_ghost_pad_set_target
      { self with blocked_targets := self.blocked_targets ++ [target] } pad none
  | none => self

/-- Translation of `kms_agnostic_bin2_link_to_tee`. -/
def kms_agnostic_bin2_link_to_tee (env : Env Caps) (self : KmsAgnosticBin2 Caps) (pad : Nat)
    (tee : GstElement Caps) (caps : Caps) : KmsAgnosticBin2 Caps :=
  let (queue, self) := gst_element_factory_make self ElementKind.queue
  let self := gst_bin_add_many self [queue]
  if !env.gst_caps_is_any caps && is_raw_caps env caps then
    let (convert, self) := create_convert_for_caps env self caps
    let (rate, self) := create_rate_for_caps env self caps
    let self := gst_bin_add_many self [convert, rate]
    let self := gst_element_link_many self [queue, rate, convert]
    let self := gst_ghost_pad_set_target self pad (some convert.name)
    link_queue_to_tee self (some tee) queue
  else
    let self := gst_ghost_pad_set_target self pad (some queue.name)
    link_queue_to_tee self (some tee) queue

/-- The caps `kms_agnostic_bin2_find_tee_for_caps` reads from the sink pad of a
tee: the current caps, or the allowed caps when there are none. -/
def tee_sink_caps (env : Env Caps) (tee : GstElement Caps) : Option Caps :=
  match env.gst_pad_get_current_caps tee.name with
  | some c => some c
  | none => env.gst_pad_get_allowed_caps tee.name

/-- The `for` loop of `kms_agnostic_bin2_find_tee_for_caps` over the values of
the hash table. -/
def find_tee_loop (env : Env Caps) (caps : Caps) :
    List (GstElement Caps) → Option (GstElement Caps)
  | [] => none
  | l :: rest =>
    match tee_sink_caps env l with
    | some current_caps =>
      if env.gst_caps_can_intersect caps current_caps then some l
      else find_tee_loop env caps rest
    | none => find_tee_loop env caps rest

/-- Translation of `kms_agnostic_bin2_find_tee_for_caps`. -/
def kms_agnostic_bin2_find_tee_for_caps (env : Env Caps) (self : KmsAgnosticBin2 Caps)
    (caps : Caps) : Option (GstElement Caps) :=
  if env.gst_caps_is_any caps then self.current_tee
  else find_tee_loop env caps self.tees

/-- Translation of `kms_agnostic_bin2_get_raw_caps`. -/
def kms_agnostic_bin2_get_raw_caps (env : Env Caps) (caps : Caps) : Option Caps :=
  if env.gst_caps_can_intersect caps env.static_audio_caps then some env.static_raw_audio_caps
  else if env.gst_caps_can_intersect caps env.static_video_caps then some env.static_raw_video_caps
  else none

/-! ## Conversion element discovery -/

/-- Model of `gst_element_factory_list_filter (list, caps, direction, FALSE)`:
the factories having a static pad template of the direction whose caps
intersect `caps`, in the order of `list`. -/
def gst_element_factory_list_filter (env : Env Caps) (list : List (GstElementFactory Caps))
    (caps : Caps) (direction : GstPadDirection) : List (GstElementFactory Caps) :=
  list.filter (fun f =>
    f.static_pad_templates.any (fun t => t.1 == direction && env.gst_caps_can_intersect caps t.2))

/-- Model of `gst_element_factory_get_num_pad_templates`. -/
def gst_element_factory_get_num_pad_templates (f : GstElementFactory Caps) : Nat :=
  f.static_pad_templates.length

/-- The selection loop shared by `create_decoder_for_caps`,
`create_parser_for_caps` and `create_encoder_for_caps`: the first factory of
the filtered list with exactly two pad templates. -/
def select_factory : List (GstElementFactory Caps) → Option (GstElementFactory Caps)
  | [] => none
  | f :: rest =>
    if gst_element_factory_get_num_pad_templates f != 2 then select_factory rest
    else some f

/-- The factory `create_decoder_for_caps` selects: the registry's decoders are
filtered by sink caps against `caps`, then by src caps against `raw_caps`, and
the loop takes the first one with two pad templates. -/
def decoder_factory_for_caps (env : Env Caps) (caps : Caps) (raw_caps : Caps) :
    Option (GstElementFactory Caps) :=
  let filtered_list :=
    gst_element_factory_list_filter env env.decoder_list caps GstPadDirection.GST_PAD_SINK
  let filtered_list :=
    gst_element_factory_list_filter env filtered_list raw_caps GstPadDirection.GST_PAD_SRC
  select_factory filtered_list

/-- Translation of `create_decoder_for_caps`. -/
def create_decoder_for_caps (env : Env Caps) (self : KmsAgnosticBin2 Caps) (caps : Caps)
    (raw_caps : Caps) : Option (GstElement Caps) × KmsAgnosticBin2 Caps :=
  match decoder_factory_for_caps env caps raw_caps with
  | some decoder_factory =>
    let (decoder, self) := gst_element_factory_make self (ElementKind.created decoder_factory)
    (some decoder, self)
  | none => (none, self)

/-- The factory `create_parser_for_caps` selects (the registry's parsers are
filtered by sink caps), if any. -/
def parser_factory_for_caps (env : Env Caps) (caps : Caps) : Option (GstElementFactory Caps) :=
  select_factory
    (gst_element_factory_list_filter env env.parser_list caps GstPadDirection.GST_PAD_SINK)

/-- Translation of `create_parser_for_caps`: an element of the selected factory,
or an `identity` element when there is none. -/
def create_parser_for_caps (env : Env Caps) (self : KmsAgnosticBin2 Caps) (caps : Caps) :
    GstElement Caps × KmsAgnosticBin2 Caps :=
  gst_element_factory_make self
    (match parser_factory_for_caps env caps with
     | some parser_factory => ElementKind.created parser_factory
     | none => ElementKind.identity)

/-- The factory `create_encoder_for_caps` selects (the registry's encoders are
filtered by src caps), if any. -/
def encoder_factory_for_caps (env : Env Caps) (caps : Caps) : Option (GstElementFactory Caps) :=
  select_factory
    (gst_element_factory_list_filter env env.encoder_list caps GstPadDirection.GST_PAD_SRC)

/-- Translation of `create_encoder_for_caps` (the properties `configure_encoder`
sets on the new element are not part of the state). -/
def create_encoder_for_caps (env : Env Caps) (self : KmsAgnosticBin2 Caps) (caps : Caps) :
    Option (GstElement Caps) × KmsAgnosticBin2 Caps :=
  match encoder_factory_for_caps env caps with
  | some encoder_factory =>
    let (encoder, self) := gst_element_factory_make self (ElementKind.created encoder_factory)
    (some encoder, self)
  | none => (none, self)

/-! ## The fan-out cache -/

/-- Translation of `kms_agnostic_bin2_create_raw_tee`. -/
def kms_agnostic_bin2_create_raw_tee (env : Env Caps) (self : KmsAgnosticBin2 Caps)
    (raw_caps : Caps) : Option (GstElement Caps) × KmsAgnosticBin2 Caps :=
  match self.current_caps with
  | none => (none, self)
  | some current_caps =>
    match create_decoder_for_caps env self current_caps raw_caps with
    | (none, self) => (none, self)
    | (some decoder, self) =>
      let (queue, self) := gst_element_factory_make self ElementKind.queue
      let (tee, self) := gst_element_factory_make self ElementKind.tee
      let (fakequeue, self) := gst_element_factory_make self ElementKind.queue
      let (fakesink, self) := gst_element_factory_make self ElementKind.fakesink
      let self := gst_bin_add_many self [queue, decoder, tee, fakequeue, fakesink]
      let self := gst_element_link_many self [queue, decoder, tee, fakequeue, fakesink]
      let self := link_queue_to_tee self self.current_tee queue
      (some tee, self)

/-- Translation of `kms_agnostic_bin2_get_or_create_raw_tee`.  When
`kms_agnostic_bin2_create_raw_tee` returns NULL the code still evaluates
`GST_OBJECT_NAME (raw_tee)`, which reads a field of the NULL object. -/
def kms_agnostic_bin2_get_or_create_raw_tee (env : Env Caps) (self : KmsAgnosticBin2 Caps)
    (caps : Caps) : Except Fault (Option (GstElement Caps) × KmsAgnosticBin2 Caps) :=
  match kms_agnostic_bin2_get_raw_caps env caps with
  | some raw_caps =>
    match kms_agnostic_bin2_find_tee_for_caps env self raw_caps with
    | some raw_tee => Except.ok (some raw_tee, self)
    | none =>
      match kms_agnostic_bin2_create_raw_tee env self raw_caps with
      | (some raw_tee, self) =>
        Except.ok (some raw_tee, { self with tees := g_hash_table_insert self.tees raw_tee })
      | (none, _) => Except.error Fault.null_dereference
  | none =>
    Except.ok (none, { self with trace := self.trace ++ [TraceEvent.element_warning] })

/-- Translation of `kms_agnostic_bin2_create_tee_for_caps`. -/
def kms_agnostic_bin2_create_tee_for_caps (env : Env Caps) (self : KmsAgnosticBin2 Caps)
    (caps : Caps) : Except Fault (Option (GstElement Caps) × KmsAgnosticBin2 Caps) :=
  match kms_agnostic_bin2_get_or_create_raw_tee env self caps with
  | Except.error e => Except.error e
  | Except.ok (none, self) => Except.ok (none, self)
  | Except.ok (some raw_tee, self) =>
    if is_raw_caps env caps then Except.ok (some raw_tee, self)
    else
      match create_encoder_for_caps env self caps with
      | (none, self) => Except.ok (none, self)
      | (some encoder, self) =>
        let (queue, self) := gst_element_factory_make self ElementKind.queue
        let (rate, self) := create_rate_for_caps env self caps
        let (convert, self) := create_convert_for_caps env self caps
        let (tee, self) := gst_element_factory_make self ElementKind.tee
        let (fakequeue, self) := gst_element_factory_make self ElementKind.queue
        let (fakesink, self) := gst_element_factory_make self ElementKind.fakesink
        let self := gst_bin_add_many self [queue, rate, convert, encoder, tee, fakequeue, fakesink]
        let self :=
          gst_element_link_many self [queue, rate, convert, encoder, tee, fakequeue, fakesink]
        let self := link_queue_to_tee self (some raw_tee) queue
        Except.ok (some tee, { self with tees := g_hash_table_insert self.tees tee })

/-! ## The worker and the mutation queue -/

/-- The fan-out resolution inside `kms_agnostic_bin2_link_pad`:
`kms_agnostic_bin2_find_tee_for_caps`, and on a miss
`kms_agnostic_bin2_create_tee_for_caps`. -/
def resolve_tee (env : Env Caps) (self : KmsAgnosticBin2 Caps) (caps : Caps) :
    Except Fault (Option (GstElement Caps) × KmsAgnosticBin2 Caps) :=
  match kms_agnostic_bin2_find_tee_for_caps env self caps with
  | some tee => Except.ok (some tee, self)
  | none => kms_agnostic_bin2_create_tee_for_caps env self caps

/-- Translation of `kms_agnostic_bin2_link_pad`. -/
def kms_agnostic_bin2_link_pad (env : Env Caps) (self : KmsAgnosticBin2 Caps) (pad : Nat)
    (peer : Peer Caps) : Except Fault (KmsAgnosticBin2 Caps) :=
  match peer.query_caps with
  | none => Except.ok self
  | some caps =>
    match resolve_tee env self caps with
    | Except.error e => Except.error e
    | Except.ok (some tee, self) => Except.ok (kms_agnostic_bin2_link_to_tee env self pad tee caps)
    | Except.ok (none, self) => Except.ok self

/-- Translation of `kms_agnostic_bin2_unlink_pad` (its body is a TODO). -/
def kms_agnostic_bin2_unlink_pad (self : KmsAgnosticBin2 Caps) (_pad : Nat) :
    KmsAgnosticBin2 Caps :=
  self

/-- Translation of `kms_agnostic_bin2_process_pad`. -/
def kms_agnostic_bin2_process_pad (env : Env Caps) (self : KmsAgnosticBin2 Caps)
    (pad : Option Nat) : Except Fault (KmsAgnosticBin2 Caps) :=
  let self := { self with trace := self.trace ++ [TraceEvent.process_pad pad] }
  match pad with
  | none => Except.ok self
  | some pad =>
    match gst_pad_get_peer self pad with
    | none => Except.ok (kms_agnostic_bin2_unlink_pad self pad)
    | some peer => kms_agnostic_bin2_link_pad env self pad peer

/-- Translation of `kms_agnostic_bin2_process_pad_loop`, the idle callback run
by the loop's thread. -/
def kms_agnostic_bin2_process_pad_loop (env : Env Caps) (self : KmsAgnosticBin2 Caps) :
    Except Fault (KmsAgnosticBin2 Caps) :=
  let popped := g_queue_pop_head self.pads_to_link
  match kms_agnostic_bin2_process_pad env { self with pads_to_link := popped.2 } popped.1 with
  | Except.error e => Except.error e
  | Except.ok self =>
    if self.pads_to_link.isEmpty then Except.ok (kms_agnostic_bin2_remove_block_probe self)
    else Except.ok self

/-- Translation of `kms_agnostic_bin2_add_pad_to_queue`. -/
def kms_agnostic_bin2_add_pad_to_queue (self : KmsAgnosticBin2 Caps) (pad : Nat) :
    KmsAgnosticBin2 Caps :=
  if !self.started then self
  else if g_queue_index self.pads_to_link pad == -1 then
    let self := kms_agnostic_bin2_set_block_probe self
    let self := remove_target_pad self pad
    let self := { self with pads_to_link := self.pads_to_link ++ [pad] }
    { self with loop := kms_loop_idle_add_full self.loop }
  else self

/-- Translation of `iterate_src_pads`: every src pad of the bin is handed to
`kms_agnostic_bin2_add_pad_to_queue`, in the order of the iterator. -/
def iterate_src_pads (self : KmsAgnosticBin2 Caps) : KmsAgnosticBin2 Caps :=
  (self.src_pads.map (fun p => p.id)).foldl kms_agnostic_bin2_add_pad_to_queue self

/-! ## Input reconfiguration -/

/-- The element linked upstream of element `n`. -/
def upstream_of (links : List (Nat × Nat)) (n : Nat) : Option Nat :=
  (links.find? (fun l => l.2 == n)).map (fun l => l.1)

/-- Translation of `kms_agnostic_bin2_disconnect_previous_input_tee`: from the
current tee the code walks upstream over the parser to the input queue and
unlinks that queue from the pad feeding it (`tee_src`, named here by its
element).  Where the walk does not find a peer the pointers are NULL, the
GStreamer calls on them return NULL, and `GST_OBJECT_PARENT (tee_src)` reads a
field of the NULL pad. -/
def kms_agnostic_bin2_disconnect_previous_input_tee (self : KmsAgnosticBin2 Caps) :
    Except Fault (KmsAgnosticBin2 Caps) :=
  match self.current_tee with
  | none => Except.ok self
  | some tee =>
    match upstream_of self.links tee.name with
    | none => Except.error Fault.null_dereference
    | some parser =>
      match upstream_of self.links parser with
      | none => Except.error Fault.null_dereference
      | some queue =>
        match upstream_of self.links queue with
        | none => Except.error Fault.null_dereference
        | some tee_src => Except.ok { self with links := self.links.erase (tee_src, queue) }

/-- The critical section of `set_input_caps`, the code between
`KMS_AGNOSTIC_BIN2_LOCK` and `KMS_AGNOSTIC_BIN2_UNLOCK`: the router is started,
the caps of the event become the current caps, and the tee the probe was
installed with is stored in the hash table. -/
def set_input_caps_locked (self : KmsAgnosticBin2 Caps) (current_caps : Option Caps)
    (tee : GstElement Caps) : KmsAgnosticBin2 Caps :=
  { self with
    started := true
    current_caps := current_caps
    tees := g_hash_table_insert self.tees tee }

/-- Translation of `set_input_caps`, the probe on the src pad of the parser of
the input subtree that ends in `tee` (the probe's user data), run from start to
end with nothing in between.  The mutex is released before `iterate_src_pads`,
so in a run of the router other operations can come between the critical
section and each of the enqueue requests of the loop: see `Step` and
`IterateSrcPads`. -/
def set_input_caps (self : KmsAgnosticBin2 Caps) (event : GstEvent Caps)
    (tee : GstElement Caps) : GstPadProbeReturn × KmsAgnosticBin2 Caps :=
  match event with
  | GstEvent.caps current_caps =>
    let self := set_input_caps_locked self current_caps tee
    let self := iterate_src_pads self
    (GstPadProbeReturn.GST_PAD_PROBE_REMOVE,
     { self with input_caps_probes := self.input_caps_probes.erase tee.name })
  | _ => (GstPadProbeReturn.GST_PAD_PROBE_OK, self)

/-- The part of `kms_agnostic_bin2_configure_input_tee` after the previous
input subtree has been disconnected: the new subtree is built, the cache is
emptied, the `set_input_caps` probe is installed and `started` is reset. -/
def build_input_tee (env : Env Caps) (self : KmsAgnosticBin2 Caps) (caps : Caps) :
    KmsAgnosticBin2 Caps :=
  let (input_queue, self) := gst_element_factory_make self ElementKind.queue
  let (parser, self) := create_parser_for_caps env self caps
  let (tee, self) := gst_element_factory_make self ElementKind.tee
  let self := { self with current_tee := some tee }
  let (queue, self) := gst_element_factory_make self ElementKind.queue
  let (fakesink, self) := gst_element_factory_make self ElementKind.fakesink
  let self := gst_bin_add_many self [input_queue, parser, tee, queue, fakesink]
  let self := { self with tees := [] }
  let self := { self with input_caps_probes := self.input_caps_probes ++ [tee.name] }
  let self := gst_element_link_many self [self.main_tee, input_queue, parser, tee, queue, fakesink]
  { self with started := false }

/-- Translation of `kms_agnostic_bin2_configure_input_tee`. -/
def kms_agnostic_bin2_configure_input_tee (env : Env Caps) (self : KmsAgnosticBin2 Caps)
    (caps : Caps) : Except Fault (KmsAgnosticBin2 Caps) :=
  match kms_agnostic_bin2_disconnect_previous_input_tee self with
  | Except.error e => Except.error e
  | Except.ok self => Except.ok (build_input_tee env self caps)

/-- The value a probe returns together with the state it leaves, when the call
`r` that produced the state returns. -/
def probe_return (ret : GstPadProbeReturn) (r : Except Fault (KmsAgnosticBin2 Caps)) :
    Except Fault (GstPadProbeReturn × KmsAgnosticBin2 Caps) :=
  match r with
  | Except.error e => Except.error e
  | Except.ok self => Except.ok (ret, self)

/-- Translation of `kms_agnostic_bin2_sink_caps_probe`. -/
def kms_agnostic_bin2_sink_caps_probe (env : Env Caps) (self : KmsAgnosticBin2 Caps)
    (event : GstEvent Caps) : Except Fault (GstPadProbeReturn × KmsAgnosticBin2 Caps) :=
  match event with
  | GstEvent.caps (some new_caps) =>
    let current_caps := self.last_caps
    let self := { self with last_caps := some new_caps }
    match current_caps with
    | some current_caps =>
      if !env.gst_caps_can_intersect new_caps current_caps &&
          !is_raw_caps env current_caps && !is_raw_caps env new_caps then
        probe_return GstPadProbeReturn.GST_PAD_PROBE_OK
          (kms_agnostic_bin2_configure_input_tee env self new_caps)
      else Except.ok (GstPadProbeReturn.GST_PAD_PROBE_OK, self)
    | none =>
      probe_return GstPadProbeReturn.GST_PAD_PROBE_OK
        (kms_agnostic_bin2_configure_input_tee env self new_caps)
  | _ => Except.ok (GstPadProbeReturn.GST_PAD_PROBE_OK, self)

/-! ## Output ports -/

/-- Translation of `kms_agnostic_bin2_src_reconfigure_probe` for an event on the
src pad `pad` of the bin; `block` says whether the probe info carries
`GST_PAD_PROBE_TYPE_BLOCK`.  (The reconfigure event the code pushes on the sink
pad leaves the state alone.) -/
def kms_agnostic_bin2_src_reconfigure_probe (self : KmsAgnosticBin2 Caps) (block : Bool)
    (event : GstEvent Caps) (pad : Nat) : GstPadProbeReturn × KmsAgnosticBin2 Caps :=
  if !block then (GstPadProbeReturn.GST_PAD_PROBE_OK, self)
  else
    match event with
    | GstEvent.reconfigure =>
      (GstPadProbeReturn.GST_PAD_PROBE_DROP, kms_agnostic_bin2_add_pad_to_queue self pad)
    | _ => (GstPadProbeReturn.GST_PAD_PROBE_PASS, self)

/-- Translation of `kms_agnostic_bin2_src_unlinked`, the handler of the
`unlinked` signal of a src pad. -/
def kms_agnostic_bin2_src_unlinked (self : KmsAgnosticBin2 Caps) (pad : Nat) :
    KmsAgnosticBin2 Caps :=
  remove_target_pad self pad

/-- A downstream pad is linked to the src pad `pad` (done by the application). -/
def gst_pad_link (self : KmsAgnosticBin2 Caps) (pad : Nat) (peer : Peer Caps) :
    KmsAgnosticBin2 Caps :=
  { self with
    src_pads :=
      self.src_pads.map (fun p => if p.id == pad then { p with peer := some peer } else p) }

/-- The src pad `pad` is unlinked from its peer: the pad loses its peer and the
`unlinked` signal runs `kms_agnostic_bin2_src_unlinked`. -/
def gst_pad_unlink (self : KmsAgnosticBin2 Caps) (pad : Nat) : KmsAgnosticBin2 Caps :=
  kms_agnostic_bin2_src_unlinked
    { self with
      src_pads := self.src_pads.map (fun p => if p.id == pad then { p with peer := none } else p) }
    pad

/-- Translation of `kms_agnostic_bin2_request_new_pad`.  `pad_count` is a
`guint`; `gst_element_add_pad` refuses a pad whose name is taken. -/
def kms_agnostic_bin2_request_new_pad (self : KmsAgnosticBin2 Caps) :
    Option Nat × KmsAgnosticBin2 Caps :=
  let pad_name := self.pad_count
  let self := { self with pad_count := (self.pad_count + 1) % 4294967296 }
  let pad : GhostPad Caps := { id := self.pad_seq, name := pad_name, peer := none, target := none }
  let self := { self with pad_seq := self.pad_seq + 1 }
  if self.src_pads.any (fun p => p.name == pad_name) then (none, self)
  else (some pad.id, { self with src_pads := self.src_pads ++ [pad] })

/-- Translation of `kms_agnostic_bin2_release_pad`: `gst_element_remove_pad`
unlinks the pad when it is linked and removes it from the element. -/
def kms_agnostic_bin2_release_pad (self : KmsAgnosticBin2 Caps) (pad : Nat) :
    KmsAgnosticBin2 Caps :=
  let self :=
    match gst_pad_get_peer self pad with
    | some _ => gst_pad_unlink self pad
    | none => self
  { self with src_pads := self.src_pads.filter (fun p => p.id != pad) }

/-! ## Life cycle -/

/-- Translation of `kms_agnostic_bin2_dispose`: the loop and the recorded caps
are cleared, then the function chains up to the `dispose` of the parent
classes.  That of `GstBin` removes the children from the bin, which unlinks
them; that of `GstElement` removes the pads of the element, so no output port
stays attached. -/
def kms_agnostic_bin2_dispose (self : KmsAgnosticBin2 Caps) : KmsAgnosticBin2 Caps :=
  let self := { self with loop := none, current_caps := none, last_caps := none }
  { self with children := [], links := [], src_pads := [] }

/-- Translation of `kms_agnostic_bin2_init`: the main tee with its queue and
fakesink, the sink pad with the two event probes `gap_detection_probe` and
`kms_agnostic_bin2_sink_caps_probe`, a running loop, an empty table and an
empty queue. -/
def kms_agnostic_bin2_init : KmsAgnosticBin2 Caps :=
  { tees := []
    pads_to_link := []
    block_probe := 0
    main_tee := { name := 0, kind := ElementKind.tee }
    current_tee := none
    current_caps := none
    last_caps := none
    pad_count := 0
    started := false
    loop := some { thread := true, sources := 0 }
    sink_probe_seq := 2
    children :=
      [{ name := 0, kind := ElementKind.tee }, { name := 1, kind := ElementKind.queue },
       { name := 2, kind := ElementKind.fakesink }]
    links := [(0, 1), (1, 2)]
    src_pads := []
    blocked_targets := []
    input_caps_probes := []
    element_seq := 3
    pad_seq := 0
    trace := [] }

/-! ## The probe on the src pads of the tees -/

/-- What a pad probe callback is handed in its `GstPadProbeInfo`, beside the
`GST_PAD_PROBE_TYPE_BLOCK` flag: a buffer, a buffer list, or an event (the
`GST_PAD_PROBE_TYPE_EVENT_BOTH` bits are set exactly for an event). -/
inductive GstPadProbeData (Caps : Type) where
  | buffer
  | buffer_list
  | event (e : GstEvent Caps)
deriving DecidableEq, Repr

/-- What the code reads of a `GstPad`: its direction, and the answers of
`gst_pad_get_current_caps` and `gst_pad_get_allowed_caps` (NULL is `none`). -/
structure GstPad (Caps : Type) where
  direction : GstPadDirection
  current_caps : Option Caps
  allowed_caps : Option Caps
deriving DecidableEq, Repr

/-- How `send_force_key_unit_event` hands the `GstForceKeyUnit` event to the pad:
with `gst_pad_send_event` on a src pad, with `gst_pad_push_event` otherwise. -/
inductive ForceKeyUnit where
  | gst_pad_send_event
  | gst_pad_push_event
deriving DecidableEq, Repr

/-- Translation of `send_force_key_unit_event`: the event requested on the pad,
if any.  Nothing is requested when the pad has neither current nor allowed
caps, and nothing when its caps are raw. -/
def send_force_key_unit_event (env : Env Caps) (pad : GstPad Caps) : Option ForceKeyUnit :=
  let caps :=
    match pad.current_caps with
    | some c => some c
    | none => pad.allowed_caps
  match caps with
  | none => none
  | some caps =>
    if is_raw_caps env caps then none
    else if pad.direction == GstPadDirection.GST_PAD_SRC then
      some ForceKeyUnit.gst_pad_send_event
    else some ForceKeyUnit.gst_pad_push_event

/-- Translation of `tee_src_probe`, the probe `link_queue_to_tee` installs on the
src pad it requests from a tee: the return value and the key unit request made
on the pad, if any.  `block` says whether the probe info carries
`GST_PAD_PROBE_TYPE_BLOCK`. -/
def tee_src_probe (env : Env Caps) (pad : GstPad Caps) (block : Bool)
    (info : GstPadProbeData Caps) : GstPadProbeReturn × Option ForceKeyUnit :=
  if !block then (GstPadProbeReturn.GST_PAD_PROBE_OK, none)
  else
    match info with
    | GstPadProbeData.event GstEvent.reconfigure =>
      (GstPadProbeReturn.GST_PAD_PROBE_DROP, send_force_key_unit_event env pad)
    | _ => (GstPadProbeReturn.GST_PAD_PROBE_PASS, none)

/-! ## Reachable states -/

/-- One atomic operation of the live router: a call the application or the
pipeline runtime makes that returns, one run of the worker callback that
returns, or one critical section of a probe.

* `set_input_caps` is the critical section of the probe of the same name for a
  caps event.  The probe is bound to the tee it was installed with, an element
  of the bin, and stays installed until it has seen a caps event: it may run
  for the current input subtree or, late, for one that has been replaced since.
  The callback registers its tee once and is then removed (it returns
  `GST_PAD_PROBE_REMOVE`), so the removal is recorded with the critical
  section.  The enqueue requests `iterate_src_pads` makes after the mutex is
  released are `add_pad_to_queue` steps of their own, between which other
  steps can run: see `IterateSrcPads`.
* `kms_agnostic_bin2_src_reconfigure_probe` runs for an event on a src pad of
  the bin.
* Disposal is not a step: it ends the life of the router (see
  `kms_agnostic_bin2_dispose` and `kms_agnostic_bin2_finalize`). -/
inductive Step (env : Env Caps) : KmsAgnosticBin2 Caps → KmsAgnosticBin2 Caps → Prop where
  | add_pad_to_queue (s : KmsAgnosticBin2 Caps) (pad : Nat) :
      Step env s (kms_agnostic_bin2_add_pad_to_queue s pad)
  | src_reconfigure_probe (s : KmsAgnosticBin2 Caps) (block : Bool) (event : GstEvent Caps)
      (pad : Nat) (hpad : pad ∈ s.src_pads.map (fun p => p.id)) :
      Step env s (kms_agnostic_bin2_src_reconfigure_probe s block event pad).2
  | process_pad_loop (s s' : KmsAgnosticBin2 Caps)
      (h : kms_agnostic_bin2_process_pad_loop env s = Except.ok s') : Step env s s'
  | sink_caps_probe (s s' : KmsAgnosticBin2 Caps) (event : GstEvent Caps)
      (ret : GstPadProbeReturn)
      (h : kms_agnostic_bin2_sink_caps_probe env s event = Except.ok (ret, s')) : Step env s s'
  | set_input_caps (s : KmsAgnosticBin2 Caps) (current_caps : Option Caps)
      (tee : GstElement Caps) (htee : tee ∈ s.children)
      (hprobe : tee.name ∈ s.input_caps_probes) :
      Step env s
        { set_input_caps_locked s current_caps tee with
          input_caps_probes := s.input_caps_probes.erase tee.name }
  | request_new_pad (s : KmsAgnosticBin2 Caps) :
      Step env s (kms_agnostic_bin2_request_new_pad s).2
  | release_pad (s : KmsAgnosticBin2 Caps) (pad : Nat) :
      Step env s (kms_agnostic_bin2_release_pad s pad)
  | pad_link (s : KmsAgnosticBin2 Caps) (pad : Nat) (peer : Peer Caps) :
      Step env s (gst_pad_link s pad peer)
  | pad_unlink (s : KmsAgnosticBin2 Caps) (pad : Nat) :
      Step env s (gst_pad_unlink s pad)

/-- The states the router reaches from `kms_agnostic_bin2_init`. -/
inductive Reachable (env : Env Caps) : KmsAgnosticBin2 Caps → Prop where
  | init : Reachable env kms_agnostic_bin2_init
  | step (s s' : KmsAgnosticBin2 Caps) (hs : Reachable env s) (h : Step env s s') :
      Reachable env s'

/-- The enum `MediaType`.  Its declaration is in the generated header
`MediaType.hpp`, which is not among the sources; the code compares a value with
`MediaType::AUDIO` and with `MediaType::VIDEO` only, so every further value of
the enum is `other`. -/
inductive MediaType where
  | AUDIO
  | VIDEO
  | other (value : Nat)
deriving DecidableEq, Repr

/-- A `MediaSourceImpl` or `MediaSinkImpl` object as the element creates it: its
identity in the media set, its media type and its description. -/
structure MediaPadImpl where
  id : Nat
  mediaType : MediaType
  mediaDescription : String
deriving DecidableEq, Repr

/-- The state of a `MediaElementImpl` that the pad queries read and write: the
four weak pointers (`none` when `lock ()` yields no object: never set, or the
object is gone) and the next identity the media set hands out. -/
structure MediaElementImpl where
  audioMediaSrc : Option MediaPadImpl
  videoMediaSrc : Option MediaPadImpl
  audioMediaSink : Option MediaPadImpl
  videoMediaSink : Option MediaPadImpl
  next_id : Nat
deriving DecidableEq, Repr

namespace MediaElementImpl

/-- Translation of `MediaElementImpl::getOrCreateAudioMediaSrc`. -/
def getOrCreateAudioMediaSrc (self : MediaElementImpl) : MediaPadImpl × MediaElementImpl :=
  match self.audioMediaSrc with
  | some locked => (locked, self)
  | none =>
    let source : MediaPadImpl :=
      { id := self.next_id, mediaType := MediaType.AUDIO, mediaDescription := "" }
    (source, { self with audioMediaSrc := some source, next_id := self.next_id + 1 })

/-- Translation of `MediaElementImpl::getOrCreateVideoMediaSrc`. -/
def getOrCreateVideoMediaSrc (self : MediaElementImpl) : MediaPadImpl × MediaElementImpl :=
  match self.videoMediaSrc with
  | some locked => (locked, self)
  | none =>
    let source : MediaPadImpl :=
      { id := self.next_id, mediaType := MediaType.VIDEO, mediaDescription := "" }
    (source, { self with videoMediaSrc := some source, next_id := self.next_id + 1 })

/-- Translation of `MediaElementImpl::getOrCreateAudioMediaSink`. -/
def getOrCreateAudioMediaSink (self : MediaElementImpl) : MediaPadImpl × MediaElementImpl :=
  match self.audioMediaSink with
  | some locked => (locked, self)
  | none =>
    let sink : MediaPadImpl :=
      { id := self.next_id, mediaType := MediaType.AUDIO, mediaDescription := "" }
    (sink, { self with audioMediaSink := some sink, next_id := self.next_id + 1 })

/-- Translation of `MediaElementImpl::getOrCreateVideoMediaSink`. -/
def getOrCreateVideoMediaSink (self : MediaElementImpl) : MediaPadImpl × MediaElementImpl :=
  match self.videoMediaSink with
  | some locked => (locked, self)
  | none =>
    let sink : MediaPadImpl :=
      { id := self.next_id, mediaType := MediaType.VIDEO, mediaDescription := "" }
    (sink, { self with videoMediaSink := some sink, next_id := self.next_id + 1 })

/-- Translation of `MediaElementImpl::getMediaSrcs ()`. -/
def getMediaSrcs (self : MediaElementImpl) : List MediaPadImpl × MediaElementImpl :=
  let (audio, self) := getOrCreateAudioMediaSrc self
  let (video, self) := getOrCreateVideoMediaSrc self
  ([audio, video], self)

/-- Translation of `MediaElementImpl::getMediaSrcs (mediaType)`. -/
def getMediaSrcs_mediaType (self : MediaElementImpl) (mediaType : MediaType) :
    List MediaPadImpl × MediaElementImpl :=
  if mediaType = MediaType.AUDIO then
    let (audio, self) := getOrCreateAudioMediaSrc self
    ([audio], self)
  else if mediaType = MediaType.VIDEO then
    let (video, self) := getOrCreateVideoMediaSrc self
    ([video], self)
  else ([], self)

/-- Translation of `MediaElementImpl::getMediaSrcs (mediaType, description)`. -/
def getMediaSrcs_mediaType_description (self : MediaElementImpl) (mediaType : MediaType)
    (description : String) : List MediaPadImpl × MediaElementImpl :=
  if description == "" then getMediaSrcs_mediaType self mediaType
  else ([], self)

/-- Translation of `MediaElementImpl::getMediaSinks ()`. -/
def getMediaSinks (self : MediaElementImpl) : List MediaPadImpl × MediaElementImpl :=
  let (audio, self) := getOrCreateAudioMediaSink self
  let (video, self) := getOrCreateVideoMediaSink self
  ([audio, video], self)

/-- Translation of `MediaElementImpl::getMediaSinks (mediaType)`. -/
def getMediaSinks_mediaType (self : MediaElementImpl) (mediaType : MediaType) :
    List MediaPadImpl × MediaElementImpl :=
  if mediaType = MediaType.AUDIO then
    let (audio, self) := getOrCreateAudioMediaSink self
    ([audio], self)
  else if mediaType = MediaType.VIDEO then
    let (video, self) := getOrCreateVideoMediaSink self
    ([video], self)
  else ([], self)

/-- Translation of `MediaElementImpl::getMediaSinks (mediaType, description)`. -/
def getMediaSinks_mediaType_description (self : MediaElementImpl) (mediaType : MediaType)
    (description : String) : List MediaPadImpl × MediaElementImpl :=
  if description == "" then getMediaSinks_mediaType self mediaType
  else ([], self)

end MediaElementImpl

/-! ## `MediaSourceImpl.cpp`: connecting a source to a sink -/

/-- The exception codes `MediaSourceImpl::connect` throws (`KurentoException`,
the message left out). -/
inductive KurentoException where
  | CONNECT_ERROR
deriving DecidableEq, Repr

/-- The state of a `MediaSourceImpl` that `connect` reads and writes, followed by
what it does to the GStreamer element: `connectedSinks` are the weak pointers
to the sinks (by identity), `agnosticbin_added` the sinks whose connection
waits in a handler of the signal `agnosticbin-added`, and `released_pads` the
request pads given back with `gst_element_release_request_pad`, in order. -/
structure MediaSourceImpl where
  connectedSinks : List Nat
  agnosticbin_added : List Nat
  released_pads : List Nat
deriving DecidableEq, Repr

namespace MediaSourceImpl

/-- Translation of `MediaSourceImpl::connect (sink)`: the exception thrown, if
any, and the state the call leaves.  `pad` is the answer of
`gst_element_get_request_pad (getGstreamerElement (), getPadName ())` (NULL is
`none`) and `linkPad` the answer of the sink's `linkPad (this, pad)`; both come
from code outside this file. -/
def connect (self : MediaSourceImpl) (sink : Nat) (pad : Option Nat) (linkPad : Bool) :
    Option KurentoException × MediaSourceImpl :=
  match pad with
  | none => (none, { self with agnosticbin_added := self.agnosticbin_added ++ [sink] })
  | some pad =>
    let ret := linkPad
    let self :=
      if ret then { self with connectedSinks := self.connectedSinks ++ [sink] }
      else { self with released_pads := self.released_pads ++ [pad] }
    if !ret then (some KurentoException.CONNECT_ERROR, self)
    else (none, self)

end MediaSourceImpl

/-! ## Derived notions used by the statements -/

/-- The test of the loop body of `kms_agnostic_bin2_find_tee_for_caps`: the
tee reports caps and they intersect `caps`. -/
def tee_matches (env : Env Caps) (caps : Caps) (tee : GstElement Caps) : Bool :=
  match tee_sink_caps env tee with
  | some current_caps => env.gst_caps_can_intersect caps current_caps
  | none => false

/-- Whether an element is a tee. -/
def is_tee (e : GstElement Caps) : Bool :=
  match e.kind with
  | ElementKind.tee => true
  | _ => false

/-- The number of fan-out points (tee elements) in the bin. -/
def tee_count (self : KmsAgnosticBin2 Caps) : Nat :=
  (self.children.filter is_tee).length

/-- A sequence of fan-out resolutions, one after the other, with the results
in order. -/
def resolve_all (env : Env Caps) (self : KmsAgnosticBin2 Caps) :
    List Caps → Except Fault (List (Option (GstElement Caps)) × KmsAgnosticBin2 Caps)
  | [] => Except.ok ([], self)
  | caps :: rest =>
    match resolve_tee env self caps with
    | Except.error e => Except.error e
    | Except.ok (tee, self) =>
      match resolve_all env self rest with
      | Except.error e => Except.error e
      | Except.ok (tees, self) => Except.ok (tee :: tees, self)

/-- The pads handed to `kms_agnostic_bin2_process_pad`, in order, NULL pads
left out. -/
def processed_pads : List TraceEvent → List Nat
  | [] => []
  | TraceEvent.process_pad (some pad) :: rest => pad :: processed_pads rest
  | _ :: rest => processed_pads rest

/-- The state `s'` differs from `s` at most in the element graph (children,
links, fresh names), the fan-out cache, the targets of the output ports and
the warnings of the trace: the queue, the gate, the loop, the recorded formats,
the input side and the pads recorded as processed are the same. -/
structure GraphChange (s s' : KmsAgnosticBin2 Caps) : Prop where
  pads_to_link : s'.pads_to_link = s.pads_to_link
  block_probe : s'.block_probe = s.block_probe
  sink_probe_seq : s'.sink_probe_seq = s.sink_probe_seq
  main_tee : s'.main_tee = s.main_tee
  current_tee : s'.current_tee = s.current_tee
  current_caps : s'.current_caps = s.current_caps
  last_caps : s'.last_caps = s.last_caps
  pad_count : s'.pad_count = s.pad_count
  started : s'.started = s.started
  loop : s'.loop = s.loop
  blocked_targets : s'.blocked_targets = s.blocked_targets
  input_caps_probes : s'.input_caps_probes = s.input_caps_probes
  pad_seq : s'.pad_seq = s.pad_seq
  element_seq : s.element_seq ≤ s'.element_seq
  trace : processed_pads s'.trace = processed_pads s.trace

/-- Finite runs of the router. -/
inductive Steps (env : Env Caps) : KmsAgnosticBin2 Caps → KmsAgnosticBin2 Caps → Prop where
  | refl (s : KmsAgnosticBin2 Caps) : Steps env s s
  | tail (s s' s'' : KmsAgnosticBin2 Caps) (h : Steps env s s') (h' : Step env s' s'') :
      Steps env s s''

/-- The buffers at the sink pad: `waiting` are the buffers the streaming thread
has still to push through the gate, oldest first (the pad's stream lock lets
one buffer at a time reach the probe); `passed` are the buffers the gate has
let through, in the order they passed. -/
structure DataPath where
  waiting : List Nat
  passed : List Nat
deriving DecidableEq, Repr

/-- The streaming thread runs the blocking probe `sink_block` on its oldest
buffer: the buffer passes when the callback returns and stays where it is
while the callback waits. -/
def push_buffer (self : KmsAgnosticBin2 Caps) (d : DataPath) : DataPath :=
  match d.waiting with
  | [] => d
  | b :: rest =>
    match sink_block self true true with
    | some _ => { waiting := rest, passed := d.passed ++ [b] }
    | none => d

/-- The streaming thread runs `n` times. -/
def push_buffers (self : KmsAgnosticBin2 Caps) : Nat → DataPath → DataPath
  | 0, d => d
  | n + 1, d => push_buffers self n (push_buffer self d)

/-- The effect on the queue, the gate and the trace of an operation that is not
a worker step: the pads it accepts (`accepted`) are appended, they are new to
the queue and pairwise different, nothing is recorded as processed, the gate
is armed when a pad was accepted and keeps its state otherwise. -/
structure Enqueues (s s' : KmsAgnosticBin2 Caps) (accepted : List Nat) : Prop where
  pads_to_link : s'.pads_to_link = s.pads_to_link ++ accepted
  nodup : accepted.Nodup
  fresh : ∀ p ∈ accepted, p ∉ s.pads_to_link
  trace : processed_pads s'.trace = processed_pads s.trace
  armed : accepted ≠ [] → s'.block_probe ≠ 0
  same : accepted = [] → s'.block_probe = s.block_probe

/-- The links of `s'` are those of `s` followed by new ones between elements
whose names have been handed out. -/
def LinksGrow (s s' : KmsAgnosticBin2 Caps) : Prop :=
  ∃ new : List (Nat × Nat), s'.links = s.links ++ new
    ∧ ∀ l ∈ new, l.1 < s'.element_seq ∧ l.2 < s'.element_seq

/-- The graph of a state is well formed: the names of the main tee, of the
cached tees, of the current input tee and of both ends of every link have been
handed out, and the current input tee is fed over a parser and a queue that
some element feeds (the shape `kms_agnostic_bin2_disconnect_previous_input_tee`
walks over). -/
structure GraphWf (s : KmsAgnosticBin2 Caps) : Prop where
  main_tee : s.main_tee.name < s.element_seq
  tees : ∀ t ∈ s.tees, t.name < s.element_seq
  current_tee : ∀ t, s.current_tee = some t → t.name < s.element_seq
  links : ∀ l ∈ s.links, l.1 < s.element_seq ∧ l.2 < s.element_seq
  input : ∀ t, s.current_tee = some t →
    ∃ parser queue tee_src, upstream_of s.links t.name = some parser
      ∧ upstream_of s.links parser = some queue ∧ upstream_of s.links queue = some tee_src

/-- What the statements call a qualifying parser factory for `caps`: a factory
with a static sink pad template whose caps intersect `caps` and with exactly
two pad templates. -/
def parser_qualifies (env : Env Caps) (caps : Caps) (f : GstElementFactory Caps) : Bool :=
  f.static_pad_templates.any
      (fun t => t.1 == GstPadDirection.GST_PAD_SINK && env.gst_caps_can_intersect caps t.2)
    && gst_element_factory_get_num_pad_templates f == 2

/-- The operation from `s` to `s'` has left the element graph alone: the
elements, the links and the cache are the same, and no output port has got a
target (a port of `s'` has no target, or the target the same port had in `s`). -/
structure PortsCleared (s s' : KmsAgnosticBin2 Caps) : Prop where
  children : s'.children = s.children
  links : s'.links = s.links
  tees : s'.tees = s.tees
  targets : ∀ p ∈ s'.src_pads,
    p.target = none ∨ ∃ q ∈ s.src_pads, q.id = p.id ∧ q.target = p.target

/-- What the statements call a qualifying decoder factory for the source format
`caps` and the raw target `raw_caps`: a factory with a static sink pad template
whose caps intersect `caps`, a static src pad template whose caps intersect
`raw_caps`, and exactly two pad templates. -/
def decoder_qualifies (env : Env Caps) (caps raw_caps : Caps) (f : GstElementFactory Caps) :
    Bool :=
  f.static_pad_templates.any
      (fun t => t.1 == GstPadDirection.GST_PAD_SINK && env.gst_caps_can_intersect caps t.2)
    && f.static_pad_templates.any
      (fun t => t.1 == GstPadDirection.GST_PAD_SRC && env.gst_caps_can_intersect raw_caps t.2)
    && gst_element_factory_get_num_pad_templates f == 2

/-- The number of input terminals of a factory: its static sink pad templates. -/
def sink_templates (f : GstElementFactory Caps) : Nat :=
  (f.static_pad_templates.filter (fun t => t.1 == GstPadDirection.GST_PAD_SINK)).length

/-- The number of output terminals of a factory: its static src pad templates. -/
def src_templates (f : GstElementFactory Caps) : Nat :=
  (f.static_pad_templates.filter (fun t => t.1 == GstPadDirection.GST_PAD_SRC)).length

/-! ## Example runtime

A small runtime for the concrete examples: a caps value is ANY or a finite
set of formats. -/

/-- The formats of the example runtime. -/
inductive Format where
  | raw_audio
  | raw_video
  | opus
  | vp8
  | h264
  | theora
deriving DecidableEq, Repr

/-- Caps of the example runtime: ANY, or the listed formats. -/
inductive SimpleCaps where
  | any
  | formats (l : List Format)
deriving DecidableEq, Repr

/-- Intersection test of the example runtime (`gst_caps_can_intersect`). -/
def SimpleCaps.can_intersect : SimpleCaps → SimpleCaps → Bool
  | SimpleCaps.any, SimpleCaps.any => true
  | SimpleCaps.any, SimpleCaps.formats l => !l.isEmpty
  | SimpleCaps.formats l, SimpleCaps.any => !l.isEmpty
  | SimpleCaps.formats l, SimpleCaps.formats m => l.any (fun f => m.contains f)

/-- Subset test of the example runtime (`gst_caps_is_always_compatible`). -/
def SimpleCaps.is_always_compatible : SimpleCaps → SimpleCaps → Bool
  | _, SimpleCaps.any => true
  | SimpleCaps.any, SimpleCaps.formats _ => false
  | SimpleCaps.formats l, SimpleCaps.formats m => l.all (fun f => m.contains f)

/-- Wildcard test of the example runtime (`gst_caps_is_any`). -/
def SimpleCaps.is_any : SimpleCaps → Bool
  | SimpleCaps.any => true
  | SimpleCaps.formats _ => false

/-- A decoder from VP8 to raw video. -/
def vp8dec : GstElementFactory SimpleCaps :=
  { name := 1
    static_pad_templates :=
      [(GstPadDirection.GST_PAD_SINK, SimpleCaps.formats [Format.vp8]),
       (GstPadDirection.GST_PAD_SRC, SimpleCaps.formats [Format.raw_video])] }

/-- An encoder from raw video to Theora. -/
def theoraenc : GstElementFactory SimpleCaps :=
  { name := 2
    static_pad_templates :=
      [(GstPadDirection.GST_PAD_SINK, SimpleCaps.formats [Format.raw_video]),
       (GstPadDirection.GST_PAD_SRC, SimpleCaps.formats [Format.theora])] }

/-- An encoder from raw video to H.264. -/
def x264enc : GstElementFactory SimpleCaps :=
  { name := 3
    static_pad_templates :=
      [(GstPadDirection.GST_PAD_SINK, SimpleCaps.formats [Format.raw_video]),
       (GstPadDirection.GST_PAD_SRC, SimpleCaps.formats [Format.h264])] }

/-- The example runtime.  `pad_caps` gives the caps each tee reports on its sink
pad (as its allowed caps; no tee has current caps). -/
def example_env (decoders encoders : List (GstElementFactory SimpleCaps))
    (pad_caps : Nat → Option SimpleCaps) : Env SimpleCaps :=
  { gst_caps_is_any := SimpleCaps.is_any
    gst_caps_can_intersect := SimpleCaps.can_intersect
    gst_caps_is_always_compatible := SimpleCaps.is_always_compatible
    KMS_AGNOSTIC_RAW_CAPS := SimpleCaps.formats [Format.raw_audio, Format.raw_video]
    static_audio_caps := SimpleCaps.formats [Format.raw_audio, Format.opus]
    static_video_caps :=
      SimpleCaps.formats [Format.raw_video, Format.vp8, Format.h264, Format.theora]
    static_raw_audio_caps := SimpleCaps.formats [Format.raw_audio]
    static_raw_video_caps := SimpleCaps.formats [Format.raw_video]
    decoder_list := decoders
    encoder_list := encoders
    parser_list := []
    gst_pad_get_current_caps := fun _ => none
    gst_pad_get_allowed_caps := pad_caps }

/-- The state after the sink pad has seen the caps event for `caps`, as computed
by `kms_agnostic_bin2_sink_caps_probe` (the fallback is not taken in the
examples). -/
def after_caps_event (env : Env SimpleCaps) (s : KmsAgnosticBin2 SimpleCaps)
    (caps : SimpleCaps) : KmsAgnosticBin2 SimpleCaps :=
  match kms_agnostic_bin2_sink_caps_probe env s (GstEvent.caps (some caps)) with
  | Except.ok (_, s') => s'
  | Except.error _ => s

/-- The router after its first input format, VP8: the sink pad has seen the caps
event (`kms_agnostic_bin2_sink_caps_probe`) and so has the parser of the new
input subtree (`set_input_caps` on the new input tee, element 5). -/
def vp8_input (env : Env SimpleCaps) : KmsAgnosticBin2 SimpleCaps :=
  let vp8 := SimpleCaps.formats [Format.vp8]
  let s := after_caps_event env kms_agnostic_bin2_init vp8
  (set_input_caps s (GstEvent.caps (some vp8)) { name := 5, kind := ElementKind.tee }).2

/-- A decoder from H.264 to raw video. -/
def h264dec : GstElementFactory SimpleCaps :=
  { name := 4
    static_pad_templates :=
      [(GstPadDirection.GST_PAD_SINK, SimpleCaps.formats [Format.h264]),
       (GstPadDirection.GST_PAD_SRC, SimpleCaps.formats [Format.raw_video])] }

/-- The caps of the tees of the examples.  With the VP8 input: the input tee
(element 5) carries VP8, the raw tee (element 10) raw video, the tee of the
first encoder (element 17) Theora and that of the second (element 24) H.264.
After the reconfiguration for H.264: the new input tee (element 23) carries
H.264, the new raw tee (element 28) raw video and the new encoder's tee
(element 35) Theora. -/
def example_pad_caps (n : Nat) : Option SimpleCaps :=
  if n = 5 then some (SimpleCaps.formats [Format.vp8])
  else if n = 10 then some (SimpleCaps.formats [Format.raw_video])
  else if n = 17 then some (SimpleCaps.formats [Format.theora])
  else if n = 24 then some (SimpleCaps.formats [Format.h264])
  else if n = 23 then some (SimpleCaps.formats [Format.h264])
  else if n = 28 then some (SimpleCaps.formats [Format.raw_video])
  else if n = 35 then some (SimpleCaps.formats [Format.theora])
  else none

/-- The runtime of the examples: decoders for VP8 and H.264, encoders for
Theora and H.264. -/
def video_env : Env SimpleCaps :=
  example_env [vp8dec, h264dec] [theoraenc, x264enc] example_pad_caps

/-- The router with a VP8 input and one output port (pad 0), not linked. -/
def one_port : KmsAgnosticBin2 SimpleCaps :=
  (kms_agnostic_bin2_request_new_pad (vp8_input video_env)).2

/-- A downstream pad that accepts H.264 and Theora. -/
def example_peer : Peer SimpleCaps :=
  { query_caps := some (SimpleCaps.formats [Format.h264, Format.theora]) }

/-- The output port is linked to `example_peer`. -/
def one_port_linked : KmsAgnosticBin2 SimpleCaps :=
  gst_pad_link one_port 0 example_peer

/-- The output port has been handed to `kms_agnostic_bin2_add_pad_to_queue`. -/
def one_port_queued : KmsAgnosticBin2 SimpleCaps :=
  kms_agnostic_bin2_add_pad_to_queue one_port_linked 0

/-- The state after the worker step that processes the queued port, as computed
by `kms_agnostic_bin2_process_pad_loop` (the fallback is not taken). -/
def one_port_processed : KmsAgnosticBin2 SimpleCaps :=
  match kms_agnostic_bin2_process_pad_loop video_env one_port_queued with
  | Except.ok s => s
  | Except.error _ => one_port_queued

/-- The target of the first resolution of the examples: H.264 or Theora. -/
def h264_or_theora : SimpleCaps :=
  SimpleCaps.formats [Format.h264, Format.theora]

/-- The state after the fan-out resolution of `h264_or_theora` on the router
with the VP8 input, as computed by `resolve_tee` (the fallback is not taken). -/
def first_resolved : KmsAgnosticBin2 SimpleCaps :=
  match resolve_tee video_env (vp8_input video_env) h264_or_theora with
  | Except.ok (_, s) => s
  | Except.error _ => vp8_input video_env

/-- The router of `one_port_processed` after the input format has changed from
VP8 to H.264: the sink pad has seen the new caps event, which reconfigures the
input. -/
def h264_reconfigured : KmsAgnosticBin2 SimpleCaps :=
  after_caps_event video_env one_port_processed (SimpleCaps.formats [Format.h264])

/-- A runtime whose registry has no decoder and no encoder; the input tee
(element 5) carries Opus. -/
def opus_env : Env SimpleCaps :=
  example_env [] [] (fun n => if n = 5 then some (SimpleCaps.formats [Format.opus]) else none)

/-- The router after its first input format, Opus. -/
def opus_input : KmsAgnosticBin2 SimpleCaps :=
  let opus := SimpleCaps.formats [Format.opus]
  let s := after_caps_event opus_env kms_agnostic_bin2_init opus
  (set_input_caps s (GstEvent.caps (some opus)) { name := 5, kind := ElementKind.tee }).2

/-- The router with the Opus input and one output port (pad 0), linked to a
peer that accepts raw audio and handed to `kms_agnostic_bin2_add_pad_to_queue`. -/
def opus_port_queued : KmsAgnosticBin2 SimpleCaps :=
  kms_agnostic_bin2_add_pad_to_queue
    (gst_pad_link (kms_agnostic_bin2_request_new_pad opus_input).2 0
      { query_caps := some (SimpleCaps.formats [Format.raw_audio]) })
    0

/-- A router without input format and with one output port (pad 0). -/
def unstarted_port : KmsAgnosticBin2 SimpleCaps :=
  (kms_agnostic_bin2_request_new_pad kms_agnostic_bin2_init).2

/-- A runtime with the decoders of `video_env` and the Theora encoder only: no
encoder qualifies for H.264 or for VP8. -/
def theora_only_env : Env SimpleCaps :=
  example_env [vp8dec, h264dec] [theoraenc] example_pad_caps

/-- A downstream pad that accepts H.264 only. -/
def h264_peer : Peer SimpleCaps :=
  { query_caps := some (SimpleCaps.formats [Format.h264]) }

/-- A downstream pad that accepts VP8 only. -/
def vp8_peer : Peer SimpleCaps :=
  { query_caps := some (SimpleCaps.formats [Format.vp8]) }

/-- The router with a VP8 input in `theora_only_env` and one output port (pad 0)
linked to `peer`. -/
def theora_only_port (peer : Peer SimpleCaps) : KmsAgnosticBin2 SimpleCaps :=
  gst_pad_link (kms_agnostic_bin2_request_new_pad (vp8_input theora_only_env)).2 0 peer

/-- The state after `kms_agnostic_bin2_link_pad` has run in `theora_only_env` for
pad 0 linked to `peer`, as computed by the function (the fallback is not taken
in the examples). -/
def theora_only_linked (peer : Peer SimpleCaps) : KmsAgnosticBin2 SimpleCaps :=
  match kms_agnostic_bin2_link_pad theora_only_env (theora_only_port peer) 0 peer with
  | Except.ok s => s
  | Except.error _ => theora_only_port peer

/-- A downstream pad whose caps are empty: neither audio nor video. -/
def empty_peer : Peer SimpleCaps :=
  { query_caps := some (SimpleCaps.formats []) }

/-- The router with the VP8 input whose output port (pad 0) has no peer and has
been handed to `kms_agnostic_bin2_add_pad_to_queue`. -/
def unlinked_port_queued : KmsAgnosticBin2 SimpleCaps :=
  kms_agnostic_bin2_add_pad_to_queue one_port 0

/-- A factory registered as encoder with two src pad templates for Theora and
no sink pad template. -/
def two_src_encoder : GstElementFactory SimpleCaps :=
  { name := 5
    static_pad_templates :=
      [(GstPadDirection.GST_PAD_SRC, SimpleCaps.formats [Format.theora]),
       (GstPadDirection.GST_PAD_SRC, SimpleCaps.formats [Format.theora])] }

/-- A factory registered as parser with two sink pad templates for VP8 and no
src pad template. -/
def parser_with_two_sinks : GstElementFactory SimpleCaps :=
  { name := 6
    static_pad_templates :=
      [(GstPadDirection.GST_PAD_SINK, SimpleCaps.formats [Format.vp8]),
       (GstPadDirection.GST_PAD_SINK, SimpleCaps.formats [Format.vp8])] }

/-- The runtime of `video_env` with `two_src_encoder` first among the encoders
and `parser_with_two_sinks` as the only parser. -/
def odd_factories_env : Env SimpleCaps :=
  { example_env [vp8dec, h264dec] [two_src_encoder, theoraenc, x264enc] example_pad_caps with
    parser_list := [parser_with_two_sinks] }

/-- A downstream pad that accepts raw video only. -/
def raw_video_peer : Peer SimpleCaps :=
  { query_caps := some (SimpleCaps.formats [Format.raw_video]) }

/-- The router with the VP8 input and one output port (pad 0) linked to
`raw_video_peer`. -/
def raw_port : KmsAgnosticBin2 SimpleCaps :=
  gst_pad_link one_port 0 raw_video_peer

/-- The state after `kms_agnostic_bin2_link_pad` has run for the port of
`raw_port`, as computed by the function (the fallback is not taken). -/
def raw_port_linked : KmsAgnosticBin2 SimpleCaps :=
  match kms_agnostic_bin2_link_pad video_env raw_port 0 raw_video_peer with
  | Except.ok s => s
  | Except.error _ => raw_port

/-- A src pad of the raw tee of the examples: its current caps are raw video. -/
def raw_tee_src_pad : GstPad SimpleCaps :=
  { direction := GstPadDirection.GST_PAD_SRC
    current_caps := some (SimpleCaps.formats [Format.raw_video])
    allowed_caps := some (SimpleCaps.formats [Format.raw_video]) }

/-- A src pad of the Theora tee of the examples: no current caps yet, its
allowed caps are Theora. -/
def theora_tee_src_pad : GstPad SimpleCaps :=
  { direction := GstPadDirection.GST_PAD_SRC
    current_caps := none
    allowed_caps := some (SimpleCaps.formats [Format.theora]) }

/-- The new router after the caps event for VP8 on its sink pad. -/
def vp8_notified : KmsAgnosticBin2 SimpleCaps :=
  after_caps_event video_env kms_agnostic_bin2_init (SimpleCaps.formats [Format.vp8])

/-- The router of `vp8_notified` after the caps event for raw video. -/
def vp8_raw_notified : KmsAgnosticBin2 SimpleCaps :=
  after_caps_event video_env vp8_notified (SimpleCaps.formats [Format.raw_video])

/-- The router of `vp8_raw_notified` after the caps event for H.264. -/
def vp8_raw_h264_notified : KmsAgnosticBin2 SimpleCaps :=
  after_caps_event video_env vp8_raw_notified (SimpleCaps.formats [Format.h264])

/-- A media element none of whose pads has been created yet. -/
def new_media_element : MediaElementImpl :=
  { audioMediaSrc := none, videoMediaSrc := none, audioMediaSink := none, videoMediaSink := none,
    next_id := 0 }

/-- A media source with one connected sink (sink 1). -/
def one_sink_source : MediaSourceImpl :=
  { connectedSinks := [1], agnosticbin_added := [], released_pads := [] }

/-- The router with the VP8 input and two output ports (pads 0 and 1), not
linked yet. -/
def two_ports_requested : KmsAgnosticBin2 SimpleCaps :=
  (kms_agnostic_bin2_request_new_pad
    (kms_agnostic_bin2_request_new_pad (vp8_input video_env)).2).2

/-- Pad 1 is linked to `example_peer` and handed to
`kms_agnostic_bin2_add_pad_to_queue`, as
`kms_agnostic_bin2_src_reconfigure_probe` does for the reconfigure event of the
new link. -/
def two_ports_one_queued : KmsAgnosticBin2 SimpleCaps :=
  kms_agnostic_bin2_add_pad_to_queue (gst_pad_link two_ports_requested 1 example_peer) 1

/-- Pad 0 is linked to `example_peer` after pad 1, and handed to
`kms_agnostic_bin2_add_pad_to_queue` in its turn. -/
def two_ports_queued : KmsAgnosticBin2 SimpleCaps :=
  kms_agnostic_bin2_add_pad_to_queue (gst_pad_link two_ports_one_queued 0 example_peer) 0

/-- The state after the first worker step on `two_ports_queued`, as computed by
`kms_agnostic_bin2_process_pad_loop` (the fallback is not taken). -/
def two_ports_head_served : KmsAgnosticBin2 SimpleCaps :=
  match kms_agnostic_bin2_process_pad_loop video_env two_ports_queued with
  | Except.ok s => s
  | Except.error _ => two_ports_queued

/-- The state after the second worker step, as computed by
`kms_agnostic_bin2_process_pad_loop` (the fallback is not taken). -/
def two_ports_drained : KmsAgnosticBin2 SimpleCaps :=
  match kms_agnostic_bin2_process_pad_loop video_env two_ports_head_served with
  | Except.ok s => s
  | Except.error _ => two_ports_head_served

/-- The runtime of the run with a late format notification: the input tee of
the VP8 subtree (element 5) carries VP8, that of the H.264 subtree (element 10)
H.264. -/
def late_probe_env : Env SimpleCaps :=
  example_env [vp8dec, h264dec] [theoraenc, x264enc]
    (fun n =>
      if n = 5 then some (SimpleCaps.formats [Format.vp8])
      else if n = 10 then some (SimpleCaps.formats [Format.h264])
      else none)

/-- The sink pad of a new router sees the caps event for VP8 and then the one
for H.264, before the parser of the VP8 subtree has seen its caps event: the
input has been configured twice, the current input tee is element 10, and the
format probes of both input tees (elements 5 and 10) are pending. -/
def twice_configured : KmsAgnosticBin2 SimpleCaps :=
  after_caps_event late_probe_env
    (after_caps_event late_probe_env kms_agnostic_bin2_init (SimpleCaps.formats [Format.vp8]))
    (SimpleCaps.formats [Format.h264])

/-- The VP8 caps event, which was waiting in the queue of the replaced subtree,
reaches its parser: the critical section of `set_input_caps` runs for the tee
that probe was installed with (element 5), and the probe is removed. -/
def late_registered : KmsAgnosticBin2 SimpleCaps :=
  { set_input_caps_locked twice_configured (some (SimpleCaps.formats [Format.vp8]))
      { name := 5, kind := ElementKind.tee } with
    input_caps_probes := twice_configured.input_caps_probes.erase 5 }

/-! ## Theorems -/

/-! ### The flow gate -/

theorem set_block_probe_armed (s : KmsAgnosticBin2 Caps) :
    (kms_agnostic_bin2_set_block_probe s).block_probe ≠ 0 := by
  unfold kms_agnostic_bin2_set_block_probe
  split
  · simp
  · rename_i h
    simpa using h

theorem set_block_probe_of_armed (s : KmsAgnosticBin2 Caps) (h : s.block_probe ≠ 0) :
    kms_agnostic_bin2_set_block_probe s = s := by
  unfold kms_agnostic_bin2_set_block_probe
  simp [h]

theorem remove_block_probe_disarmed (s : KmsAgnosticBin2 Caps) :
    (kms_agnostic_bin2_remove_block_probe s).block_probe = 0 := by
  unfold kms_agnostic_bin2_remove_block_probe
  split
  · rfl
  · rename_i h
    simpa using h

theorem remove_block_probe_of_disarmed (s : KmsAgnosticBin2 Caps) (h : s.block_probe = 0) :
    kms_agnostic_bin2_remove_block_probe s = s := by
  unfold kms_agnostic_bin2_remove_block_probe
  simp [h]

/-- C9. Arming and disarming the flow gate are idempotent: arming twice is
arming once (an installed blocking probe is kept and no second probe id is
handed out), disarming twice is disarming once; arming always ends armed
(`block_probe ≠ 0`) and disarming always ends disarmed (`block_probe = 0`). -/
theorem gate_operations_idempotent (s : KmsAgnosticBin2 Caps) :
    kms_agnostic_bin2_set_block_probe (kms_agnostic_bin2_set_block_probe s)
        = kms_agnostic_bin2_set_block_probe s
      ∧ kms_agnostic_bin2_remove_block_probe (kms_agnostic_bin2_remove_block_probe s)
        = kms_agnostic_bin2_remove_block_probe s
      ∧ (s.block_probe ≠ 0 → kms_agnostic_bin2_set_block_probe s = s)
      ∧ (kms_agnostic_bin2_set_block_probe s).block_probe ≠ 0
      ∧ (kms_agnostic_bin2_remove_block_probe s).block_probe = 0 :=
  ⟨set_block_probe_of_armed _ (set_block_probe_armed s),
   remove_block_probe_of_disarmed _ (remove_block_probe_disarmed s),
   set_block_probe_of_armed s,
   set_block_probe_armed s,
   remove_block_probe_disarmed s⟩

/-! ### Frame lemmas: what each operation leaves alone -/

@[simp] theorem set_block_probe_pads_to_link (s : KmsAgnosticBin2 Caps) :
    (kms_agnostic_bin2_set_block_probe s).pads_to_link = s.pads_to_link := by
  unfold kms_agnostic_bin2_set_block_probe
  split <;> rfl

@[simp] theorem set_block_probe_trace (s : KmsAgnosticBin2 Caps) :
    (kms_agnostic_bin2_set_block_probe s).trace = s.trace := by
  unfold kms_agnostic_bin2_set_block_probe
  split <;> rfl

@[simp] theorem set_block_probe_started (s : KmsAgnosticBin2 Caps) :
    (kms_agnostic_bin2_set_block_probe s).started = s.started := by
  unfold kms_agnostic_bin2_set_block_probe
  split <;> rfl

@[simp] theorem remove_target_pad_started (s : KmsAgnosticBin2 Caps) (pad : Nat) :
    (remove_target_pad s pad).started = s.started := by
  unfold remove_target_pad
  split <;> rfl

@[simp] theorem remove_block_probe_pads_to_link (s : KmsAgnosticBin2 Caps) :
    (kms_agnostic_bin2_remove_block_probe s).pads_to_link = s.pads_to_link := by
  unfold kms_agnostic_bin2_remove_block_probe
  split <;> rfl

@[simp] theorem remove_block_probe_trace (s : KmsAgnosticBin2 Caps) :
    (kms_agnostic_bin2_remove_block_probe s).trace = s.trace := by
  unfold kms_agnostic_bin2_remove_block_probe
  split <;> rfl

@[simp] theorem remove_target_pad_pads_to_link (s : KmsAgnosticBin2 Caps) (pad : Nat) :
    (remove_target_pad s pad).pads_to_link = s.pads_to_link := by
  unfold remove_target_pad
  split <;> rfl

@[simp] theorem remove_target_pad_block_probe (s : KmsAgnosticBin2 Caps) (pad : Nat) :
    (remove_target_pad s pad).block_probe = s.block_probe := by
  unfold remove_target_pad
  split <;> rfl

@[simp] theorem remove_target_pad_trace (s : KmsAgnosticBin2 Caps) (pad : Nat) :
    (remove_target_pad s pad).trace = s.trace := by
  unfold remove_target_pad
  split <;> rfl

theorem g_queue_index_eq_neg_one (q : List Nat) (pad : Nat) :
    g_queue_index q pad = -1 ↔ pad ∉ q := by
  unfold g_queue_index
  split
  · rename_i h
    simp only [h, not_true_eq_false, iff_false]
    omega
  · rename_i h
    simp [h]

/-- The effect of an accepted enqueue request, step by step as in the source. -/
theorem add_pad_to_queue_accepted (s : KmsAgnosticBin2 Caps) (pad : Nat)
    (hstarted : s.started = true) (hnew : pad ∉ s.pads_to_link) :
    kms_agnostic_bin2_add_pad_to_queue s pad =
      { (remove_target_pad (kms_agnostic_bin2_set_block_probe s) pad) with
        pads_to_link := s.pads_to_link ++ [pad]
        loop := kms_loop_idle_add_full
          (remove_target_pad (kms_agnostic_bin2_set_block_probe s) pad).loop } := by
  unfold kms_agnostic_bin2_add_pad_to_queue
  have h := (g_queue_index_eq_neg_one s.pads_to_link pad).mpr hnew
  simp [hstarted, h]

theorem add_pad_to_queue_not_started (s : KmsAgnosticBin2 Caps) (pad : Nat)
    (h : s.started = false) : kms_agnostic_bin2_add_pad_to_queue s pad = s := by
  unfold kms_agnostic_bin2_add_pad_to_queue
  simp [h]

theorem add_pad_to_queue_queued (s : KmsAgnosticBin2 Caps) (pad : Nat)
    (h : pad ∈ s.pads_to_link) : kms_agnostic_bin2_add_pad_to_queue s pad = s := by
  unfold kms_agnostic_bin2_add_pad_to_queue
  have h' : ¬ g_queue_index s.pads_to_link pad = -1 := by
    rw [g_queue_index_eq_neg_one]
    simpa using h
  split
  · rfl
  · simp [h']

/-- The three cases of `kms_agnostic_bin2_add_pad_to_queue`. -/
theorem add_pad_to_queue_cases (s : KmsAgnosticBin2 Caps) (pad : Nat) :
    kms_agnostic_bin2_add_pad_to_queue s pad = s ∨
      (s.started = true ∧ pad ∉ s.pads_to_link ∧
        (kms_agnostic_bin2_add_pad_to_queue s pad).pads_to_link = s.pads_to_link ++ [pad] ∧
        (kms_agnostic_bin2_add_pad_to_queue s pad).block_probe ≠ 0 ∧
        (kms_agnostic_bin2_add_pad_to_queue s pad).trace = s.trace) := by
  by_cases hst : s.started = true
  · by_cases hq : pad ∈ s.pads_to_link
    · exact Or.inl (add_pad_to_queue_queued s pad hq)
    · right
      rw [add_pad_to_queue_accepted s pad hst hq]
      refine ⟨hst, hq, rfl, ?_, ?_⟩
      · simpa using set_block_probe_armed s
      · simp
  · left
    exact add_pad_to_queue_not_started s pad (by simpa using hst)

/-! ### Resolution and linking change the graph only -/

theorem processed_pads_append (a b : List TraceEvent) :
    processed_pads (a ++ b) = processed_pads a ++ processed_pads b := by
  induction a with
  | nil => rfl
  | cons e rest ih =>
    cases e with
    | process_pad pad =>
      cases pad with
      | none => simpa [processed_pads] using ih
      | some p => simp [processed_pads, ih]
    | element_warning => simpa [processed_pads] using ih

theorem graph_change_refl (s : KmsAgnosticBin2 Caps) : GraphChange s s :=
  ⟨rfl, rfl, rfl, rfl, rfl, rfl, rfl, rfl, rfl, rfl, rfl, rfl, rfl, Nat.le_refl _, rfl⟩

theorem graph_change_trans {s s' s'' : KmsAgnosticBin2 Caps} (h : GraphChange s s')
    (h' : GraphChange s' s'') : GraphChange s s'' :=
  ⟨h'.pads_to_link.trans h.pads_to_link, h'.block_probe.trans h.block_probe,
   h'.sink_probe_seq.trans h.sink_probe_seq, h'.main_tee.trans h.main_tee,
   h'.current_tee.trans h.current_tee, h'.current_caps.trans h.current_caps,
   h'.last_caps.trans h.last_caps, h'.pad_count.trans h.pad_count,
   h'.started.trans h.started, h'.loop.trans h.loop,
   h'.blocked_targets.trans h.blocked_targets,
   h'.input_caps_probes.trans h.input_caps_probes, h'.pad_seq.trans h.pad_seq,
   Nat.le_trans h.element_seq h'.element_seq, h'.trace.trans h.trace⟩

theorem create_decoder_for_caps_graph (env : Env Caps) (s : KmsAgnosticBin2 Caps)
    (caps raw_caps : Caps) : GraphChange s (create_decoder_for_caps env s caps raw_caps).2 := by
  unfold create_decoder_for_caps
  split
  · constructor <;> simp [gst_element_factory_make]
  · exact graph_change_refl s

theorem create_encoder_for_caps_graph (env : Env Caps) (s : KmsAgnosticBin2 Caps)
    (caps : Caps) : GraphChange s (create_encoder_for_caps env s caps).2 := by
  unfold create_encoder_for_caps
  split
  · constructor <;> simp [gst_element_factory_make]
  · exact graph_change_refl s

theorem create_raw_tee_graph (env : Env Caps) (s : KmsAgnosticBin2 Caps) (raw_caps : Caps) :
    GraphChange s (kms_agnostic_bin2_create_raw_tee env s raw_caps).2 := by
  unfold kms_agnostic_bin2_create_raw_tee
  split
  · exact graph_change_refl s
  · rename_i current_caps _
    have h := create_decoder_for_caps_graph env s current_caps raw_caps
    split
    · rename_i s1 heq
      rw [heq] at h
      exact h
    · rename_i decoder s1 heq
      rw [heq] at h
      refine graph_change_trans h ?_
      constructor <;>
        simp [gst_element_factory_make, gst_bin_add_many, gst_element_link_many,
          link_queue_to_tee]
      omega

theorem get_or_create_raw_tee_graph (env : Env Caps) (s s' : KmsAgnosticBin2 Caps) (caps : Caps)
    (r : Option (GstElement Caps))
    (h : kms_agnostic_bin2_get_or_create_raw_tee env s caps = Except.ok (r, s')) :
    GraphChange s s' := by
  unfold kms_agnostic_bin2_get_or_create_raw_tee at h
  split at h
  · rename_i raw_caps _
    split at h
    · simp only [Except.ok.injEq, Prod.mk.injEq] at h
      obtain ⟨_, rfl⟩ := h
      exact graph_change_refl s
    · have hg := create_raw_tee_graph env s raw_caps
      split at h
      · rename_i raw_tee s1 heq
        rw [heq] at hg
        simp only [Except.ok.injEq, Prod.mk.injEq] at h
        obtain ⟨_, rfl⟩ := h
        refine graph_change_trans hg ?_
        constructor <;> simp
      · cases h
  · simp only [Except.ok.injEq, Prod.mk.injEq] at h
    obtain ⟨_, rfl⟩ := h
    constructor <;> simp [processed_pads_append, processed_pads]

theorem create_tee_for_caps_graph (env : Env Caps) (s s' : KmsAgnosticBin2 Caps) (caps : Caps)
    (r : Option (GstElement Caps))
    (h : kms_agnostic_bin2_create_tee_for_caps env s caps = Except.ok (r, s')) :
    GraphChange s s' := by
  unfold kms_agnostic_bin2_create_tee_for_caps at h
  split at h
  · cases h
  · rename_i s1 heq
    simp only [Except.ok.injEq, Prod.mk.injEq] at h
    obtain ⟨_, rfl⟩ := h
    exact get_or_create_raw_tee_graph env s _ caps _ heq
  · rename_i raw_tee s1 heq
    have h1 := get_or_create_raw_tee_graph env s _ caps _ heq
    split at h
    · simp only [Except.ok.injEq, Prod.mk.injEq] at h
      obtain ⟨_, rfl⟩ := h
      exact h1
    · have h2 := create_encoder_for_caps_graph env s1 caps
      split at h
      · rename_i s2 heq2
        rw [heq2] at h2
        simp only [Except.ok.injEq, Prod.mk.injEq] at h
        obtain ⟨_, rfl⟩ := h
        exact graph_change_trans h1 h2
      · rename_i encoder s2 heq2
        rw [heq2] at h2
        refine graph_change_trans h1 (graph_change_trans h2 ?_)
        simp only [gst_element_factory_make, create_rate_for_caps, create_convert_for_caps,
          gst_bin_add_many, gst_element_link_many, link_queue_to_tee, Except.ok.injEq,
          Prod.mk.injEq] at h
        obtain ⟨_, rfl⟩ := h
        constructor <;> simp
        omega

theorem resolve_tee_graph (env : Env Caps) (s s' : KmsAgnosticBin2 Caps) (caps : Caps)
    (r : Option (GstElement Caps)) (h : resolve_tee env s caps = Except.ok (r, s')) :
    GraphChange s s' := by
  unfold resolve_tee at h
  split at h
  · simp only [Except.ok.injEq, Prod.mk.injEq] at h
    obtain ⟨_, rfl⟩ := h
    exact graph_change_refl s
  · exact create_tee_for_caps_graph env s s' caps r h

theorem link_to_tee_graph (env : Env Caps) (s : KmsAgnosticBin2 Caps) (pad : Nat)
    (tee : GstElement Caps) (caps : Caps) :
    GraphChange s (kms_agnostic_bin2_link_to_tee env s pad tee caps) := by
  unfold kms_agnostic_bin2_link_to_tee
  dsimp only
  split
  · constructor <;>
      simp [gst_element_factory_make, create_rate_for_caps, create_convert_for_caps,
        gst_bin_add_many, gst_element_link_many, link_queue_to_tee, gst_ghost_pad_set_target]
    omega
  · constructor <;>
      simp [gst_element_factory_make, gst_bin_add_many, link_queue_to_tee,
        gst_ghost_pad_set_target]

theorem link_pad_graph (env : Env Caps) (s s' : KmsAgnosticBin2 Caps) (pad : Nat)
    (peer : Peer Caps) (h : kms_agnostic_bin2_link_pad env s pad peer = Except.ok s') :
    GraphChange s s' := by
  unfold kms_agnostic_bin2_link_pad at h
  split at h
  · simp only [Except.ok.injEq] at h
    subst h
    exact graph_change_refl s
  · rename_i caps _
    split at h
    · cases h
    · rename_i tee s1 heq
      simp only [Except.ok.injEq] at h
      subst h
      exact graph_change_trans (resolve_tee_graph env s s1 caps _ heq)
        (link_to_tee_graph env s1 pad tee caps)
    · rename_i s1 heq
      simp only [Except.ok.injEq] at h
      subst h
      exact resolve_tee_graph env s _ caps _ heq

/-- What `kms_agnostic_bin2_process_pad` does: it records the pad and then
changes the graph only. -/
theorem process_pad_graph (env : Env Caps) (s s' : KmsAgnosticBin2 Caps) (pad : Option Nat)
    (h : kms_agnostic_bin2_process_pad env s pad = Except.ok s') :
    GraphChange { s with trace := s.trace ++ [TraceEvent.process_pad pad] } s' := by
  unfold kms_agnostic_bin2_process_pad at h
  dsimp only at h
  split at h
  · simp only [Except.ok.injEq] at h
    subst h
    exact graph_change_refl _
  · split at h
    · simp only [Except.ok.injEq, kms_agnostic_bin2_unlink_pad] at h
      subst h
      exact graph_change_refl _
    · exact link_pad_graph env _ s' _ _ h

/-! ### The worker step -/

/-- What one worker step that returns does to the queue, the gate and the trace. -/
theorem process_pad_loop_effect (env : Env Caps) (s s' : KmsAgnosticBin2 Caps)
    (h : kms_agnostic_bin2_process_pad_loop env s = Except.ok s') :
    s'.pads_to_link = s.pads_to_link.tail
      ∧ processed_pads s'.trace = processed_pads s.trace ++ s.pads_to_link.head?.toList
      ∧ (s.pads_to_link.tail = [] → s'.block_probe = 0)
      ∧ (s.pads_to_link.tail ≠ [] → s'.block_probe = s.block_probe) := by
  unfold kms_agnostic_bin2_process_pad_loop at h
  dsimp only at h
  split at h
  · cases h
  · rename_i s1 heq
    have hg := process_pad_graph env _ _ _ heq
    have hq : s1.pads_to_link = s.pads_to_link.tail := by
      rw [hg.pads_to_link]
      cases s.pads_to_link <;> rfl
    have hb : s1.block_probe = s.block_probe := hg.block_probe
    have ht : processed_pads s1.trace
        = processed_pads s.trace ++ s.pads_to_link.head?.toList := by
      rw [hg.trace]
      cases s.pads_to_link <;> simp [processed_pads_append, processed_pads, g_queue_pop_head]
    split at h
    · rename_i hempty
      simp only [Except.ok.injEq] at h
      subst h
      have he : s.pads_to_link.tail = [] := by
        rw [← hq]
        simpa using hempty
      refine ⟨by simp [hq], by simpa using ht, fun _ => remove_block_probe_disarmed s1, ?_⟩
      intro hne
      exact absurd he hne
    · rename_i hne
      simp only [Except.ok.injEq] at h
      subst h
      refine ⟨hq, ht, ?_, fun _ => hb⟩
      intro he
      rw [← hq] at he
      simp [he] at hne

/-! ### Every operation's effect on the queue, the gate and the trace -/

theorem enqueues_of_frame (s s' : KmsAgnosticBin2 Caps)
    (hq : s'.pads_to_link = s.pads_to_link) (hb : s'.block_probe = s.block_probe)
    (ht : s'.trace = s.trace) : Enqueues s s' [] :=
  ⟨by simp [hq], List.nodup_nil, fun _ h => absurd h (List.not_mem_nil _), by rw [ht],
   fun h => absurd rfl h, fun _ => hb⟩

theorem add_pad_to_queue_enqueues (s : KmsAgnosticBin2 Caps) (pad : Nat) :
    ∃ accepted, Enqueues s (kms_agnostic_bin2_add_pad_to_queue s pad) accepted := by
  rcases add_pad_to_queue_cases s pad with h | ⟨_, hnew, hq, hb, ht⟩
  · rw [h]
    exact ⟨[], enqueues_of_frame s s rfl rfl rfl⟩
  · refine ⟨[pad], hq, List.nodup_singleton pad, ?_, by rw [ht], fun _ => hb, ?_⟩
    · intro p hp
      rw [List.mem_singleton] at hp
      rw [hp]
      exact hnew
    · intro h
      cases h

theorem enqueues_trans {s s' s'' : KmsAgnosticBin2 Caps} {a b : List Nat}
    (h : Enqueues s s' a) (h' : Enqueues s' s'' b) : Enqueues s s'' (a ++ b) := by
  refine ⟨?_, ?_, ?_, h'.trace.trans h.trace, ?_, ?_⟩
  · rw [h'.pads_to_link, h.pads_to_link, List.append_assoc]
  · rw [List.nodup_append]
    refine ⟨h.nodup, h'.nodup, ?_⟩
    intro p hp hp'
    apply h'.fresh p hp'
    rw [h.pads_to_link]
    exact List.mem_append_right _ hp
  · intro p hp
    rcases List.mem_append.mp hp with hp | hp
    · exact h.fresh p hp
    · intro hmem
      apply h'.fresh p hp
      rw [h.pads_to_link]
      exact List.mem_append_left _ hmem
  · intro hne
    by_cases hb : b = []
    · rw [h'.same hb]
      apply h.armed
      intro ha
      apply hne
      simp [ha, hb]
    · exact h'.armed hb
  · intro he
    have ha : a = [] := (List.append_eq_nil.mp he).1
    have hb : b = [] := (List.append_eq_nil.mp he).2
    rw [h'.same hb, h.same ha]

theorem foldl_add_pad_to_queue_enqueues (pads : List Nat) (s : KmsAgnosticBin2 Caps) :
    ∃ accepted, Enqueues s (pads.foldl kms_agnostic_bin2_add_pad_to_queue s) accepted := by
  induction pads generalizing s with
  | nil => exact ⟨[], enqueues_of_frame s s rfl rfl rfl⟩
  | cons pad rest ih =>
    obtain ⟨a, ha⟩ := add_pad_to_queue_enqueues s pad
    obtain ⟨b, hb⟩ := ih (kms_agnostic_bin2_add_pad_to_queue s pad)
    exact ⟨a ++ b, enqueues_trans ha hb⟩

theorem iterate_src_pads_enqueues (s : KmsAgnosticBin2 Caps) :
    ∃ accepted, Enqueues s (iterate_src_pads s) accepted := by
  unfold iterate_src_pads
  obtain ⟨a, ha⟩ := foldl_add_pad_to_queue_enqueues (s.src_pads.map (fun p => p.id)) s
  exact ⟨a, ha⟩

/-- `kms_agnostic_bin2_disconnect_previous_input_tee` changes links only. -/
theorem disconnect_previous_input_tee_eq (s s' : KmsAgnosticBin2 Caps)
    (h : kms_agnostic_bin2_disconnect_previous_input_tee s = Except.ok s') :
    ∃ links, s' = { s with links := links } := by
  unfold kms_agnostic_bin2_disconnect_previous_input_tee at h
  repeat' split at h
  all_goals
    cases h
    try exact ⟨_, rfl⟩

/-- A reconfiguration that returns has built the new input subtree on the state
with the previous subtree unlinked. -/
theorem configure_input_tee_ok (env : Env Caps) (s s' : KmsAgnosticBin2 Caps) (caps : Caps)
    (h : kms_agnostic_bin2_configure_input_tee env s caps = Except.ok s') :
    ∃ links, s' = build_input_tee env { s with links := links } caps := by
  unfold kms_agnostic_bin2_configure_input_tee at h
  split at h
  · cases h
  · rename_i s1 hd
    obtain ⟨l, hl⟩ := disconnect_previous_input_tee_eq s s1 hd
    simp only [Except.ok.injEq] at h
    exact ⟨l, by rw [← h, hl]⟩

theorem build_input_tee_frame (env : Env Caps) (s : KmsAgnosticBin2 Caps) (caps : Caps) :
    (build_input_tee env s caps).pads_to_link = s.pads_to_link
      ∧ (build_input_tee env s caps).block_probe = s.block_probe
      ∧ (build_input_tee env s caps).trace = s.trace := by
  simp [build_input_tee, gst_element_factory_make, create_parser_for_caps, gst_bin_add_many,
    gst_element_link_many]

theorem configure_input_tee_frame (env : Env Caps) (s s' : KmsAgnosticBin2 Caps) (caps : Caps)
    (h : kms_agnostic_bin2_configure_input_tee env s caps = Except.ok s') :
    s'.pads_to_link = s.pads_to_link ∧ s'.block_probe = s.block_probe ∧ s'.trace = s.trace := by
  obtain ⟨l, rfl⟩ := configure_input_tee_ok env s s' caps h
  exact build_input_tee_frame env _ caps

/-- What a call of `kms_agnostic_bin2_sink_caps_probe` that returns has done:
nothing, or it has recorded the new caps and possibly reconfigured. -/
theorem sink_caps_probe_ok (env : Env Caps) (s s' : KmsAgnosticBin2 Caps)
    (event : GstEvent Caps) (ret : GstPadProbeReturn)
    (h : kms_agnostic_bin2_sink_caps_probe env s event = Except.ok (ret, s')) :
    s' = s ∨ ∃ new_caps, s' = { s with last_caps := some new_caps }
      ∨ kms_agnostic_bin2_configure_input_tee env { s with last_caps := some new_caps } new_caps
          = Except.ok s' := by
  unfold kms_agnostic_bin2_sink_caps_probe at h
  split at h
  · rename_i new_caps
    right
    refine ⟨new_caps, ?_⟩
    dsimp only at h
    split at h
    · split at h
      · unfold probe_return at h
        split at h
        · cases h
        · rename_i hc
          simp only [Except.ok.injEq, Prod.mk.injEq] at h
          rw [← h.2]
          exact Or.inr hc
      · simp only [Except.ok.injEq, Prod.mk.injEq] at h
        exact Or.inl h.2.symm
    · unfold probe_return at h
      split at h
      · cases h
      · rename_i hc
        simp only [Except.ok.injEq, Prod.mk.injEq] at h
        rw [← h.2]
        exact Or.inr hc
  · simp only [Except.ok.injEq, Prod.mk.injEq] at h
    exact Or.inl h.2.symm

/-- Every operation other than a worker step only appends to the queue. -/
theorem step_enqueues (env : Env Caps) (s s' : KmsAgnosticBin2 Caps) (h : Step env s s') :
    (∃ accepted, Enqueues s s' accepted)
      ∨ kms_agnostic_bin2_process_pad_loop env s = Except.ok s' := by
  cases h with
  | add_pad_to_queue pad => exact Or.inl (add_pad_to_queue_enqueues s pad)
  | src_reconfigure_probe block event pad _ =>
    left
    unfold kms_agnostic_bin2_src_reconfigure_probe
    split
    · exact ⟨[], enqueues_of_frame s s rfl rfl rfl⟩
    · split
      · exact add_pad_to_queue_enqueues s pad
      · exact ⟨[], enqueues_of_frame s s rfl rfl rfl⟩
  | process_pad_loop _ hl => exact Or.inr hl
  | sink_caps_probe _ event ret hp =>
    left
    refine ⟨[], ?_⟩
    rcases sink_caps_probe_ok env s s' event ret hp with rfl | ⟨new_caps, rfl | hc⟩
    · exact enqueues_of_frame _ _ rfl rfl rfl
    · exact enqueues_of_frame _ _ rfl rfl rfl
    · have h := configure_input_tee_frame env _ s' new_caps hc
      exact enqueues_of_frame _ _ h.1 h.2.1 h.2.2
  | set_input_caps current_caps tee _ _ =>
    exact Or.inl ⟨[], enqueues_of_frame _ _ rfl rfl rfl⟩
  | request_new_pad =>
    left
    refine ⟨[], ?_⟩
    unfold kms_agnostic_bin2_request_new_pad
    dsimp only
    split <;> exact enqueues_of_frame _ _ rfl rfl rfl
  | release_pad pad =>
    left
    refine ⟨[], ?_⟩
    unfold kms_agnostic_bin2_release_pad
    dsimp only
    split
    · exact enqueues_of_frame _ _ (by simp [gst_pad_unlink, kms_agnostic_bin2_src_unlinked])
        (by simp [gst_pad_unlink, kms_agnostic_bin2_src_unlinked])
        (by simp [gst_pad_unlink, kms_agnostic_bin2_src_unlinked])
    · exact enqueues_of_frame _ _ rfl rfl rfl
  | pad_link pad peer => exact Or.inl ⟨[], enqueues_of_frame _ _ rfl rfl rfl⟩
  | pad_unlink pad =>
    left
    exact ⟨[], enqueues_of_frame _ _ (by simp [gst_pad_unlink, kms_agnostic_bin2_src_unlinked])
        (by simp [gst_pad_unlink, kms_agnostic_bin2_src_unlinked])
        (by simp [gst_pad_unlink, kms_agnostic_bin2_src_unlinked])⟩

/-! ### Invariants of the queue -/

theorem reachable_queue_nodup (env : Env Caps) (s : KmsAgnosticBin2 Caps)
    (h : Reachable env s) : s.pads_to_link.Nodup := by
  induction h with
  | init => exact List.nodup_nil
  | step s s' _ hstep ih =>
    rcases step_enqueues env s s' hstep with ⟨a, ha⟩ | hw
    · rw [ha.pads_to_link, List.nodup_append]
      exact ⟨ih, ha.nodup, fun p hp hp' => ha.fresh p hp' hp⟩
    · rw [(process_pad_loop_effect env s s' hw).1]
      exact ih.sublist (List.tail_sublist _)

theorem reachable_queue_armed (env : Env Caps) (s : KmsAgnosticBin2 Caps)
    (h : Reachable env s) : s.pads_to_link ≠ [] → s.block_probe ≠ 0 := by
  induction h with
  | init =>
    intro h
    exact absurd rfl h
  | step s s' _ hstep ih =>
    rcases step_enqueues env s s' hstep with ⟨a, ha⟩ | hw
    · intro hne
      by_cases hacc : a = []
      · rw [ha.same hacc]
        apply ih
        rw [ha.pads_to_link, hacc, List.append_nil] at hne
        exact hne
      · exact ha.armed hacc
    · obtain ⟨hq, _, _, hb⟩ := process_pad_loop_effect env s s' hw
      intro hne
      rw [hq] at hne
      rw [hb hne]
      apply ih
      intro he
      rw [he] at hne
      exact hne rfl

theorem vp8_input_reachable : Reachable video_env (vp8_input video_env) :=
  Reachable.step (after_caps_event video_env kms_agnostic_bin2_init (SimpleCaps.formats [Format.vp8]))
    _
    (Reachable.step kms_agnostic_bin2_init _ Reachable.init
      (Step.sink_caps_probe _ _ (GstEvent.caps (some (SimpleCaps.formats [Format.vp8])))
        GstPadProbeReturn.GST_PAD_PROBE_OK rfl))
    (Step.set_input_caps _ (some (SimpleCaps.formats [Format.vp8]))
      { name := 5, kind := ElementKind.tee } (by decide) (by decide))

theorem one_port_linked_reachable : Reachable video_env one_port_linked :=
  Reachable.step _ _
    (Reachable.step _ _ vp8_input_reachable (Step.request_new_pad _))
    (Step.pad_link _ 0 example_peer)

theorem one_port_queued_reachable : Reachable video_env one_port_queued :=
  Reachable.step _ _ one_port_linked_reachable (Step.add_pad_to_queue _ 0)

/-- C5. Idempotent enqueue: in every router state, a request for a port that is
already in the mutation queue leaves the whole state unchanged (the queue is
the same and no worker step is scheduled); hence in every reachable state the
queue holds no port twice. -/
theorem idempotent_enqueue (env : Env Caps) :
    (∀ (s : KmsAgnosticBin2 Caps) (pad : Nat), pad ∈ s.pads_to_link →
        kms_agnostic_bin2_add_pad_to_queue s pad = s)
      ∧ (∀ s : KmsAgnosticBin2 Caps, Reachable env s → s.pads_to_link.Nodup) :=
  ⟨add_pad_to_queue_queued, reachable_queue_nodup env⟩

/-- C5 at a concrete state: port 0 is queued; asking again changes nothing. -/
theorem idempotent_enqueue_witness :
    0 ∈ one_port_queued.pads_to_link
      ∧ kms_agnostic_bin2_add_pad_to_queue one_port_queued 0 = one_port_queued
      ∧ one_port_queued.pads_to_link.Nodup :=
  ⟨by decide, (idempotent_enqueue video_env).1 one_port_queued 0 (by decide),
   (idempotent_enqueue video_env).2 one_port_queued one_port_queued_reachable⟩

/-! ### First in, first out -/

theorem head_toList_append_tail (l : List Nat) : l.head?.toList ++ l.tail = l := by
  cases l <;> rfl

theorem steps_fifo (env : Env Caps) (s s' : KmsAgnosticBin2 Caps) (h : Steps env s s') :
    ∃ done accepted : List Nat,
      processed_pads s'.trace = processed_pads s.trace ++ done
        ∧ done ++ s'.pads_to_link = s.pads_to_link ++ accepted := by
  induction h with
  | refl => exact ⟨[], [], by simp, by simp⟩
  | tail s' s'' _ hstep ih =>
    obtain ⟨done, accepted, ht, hq⟩ := ih
    rcases step_enqueues env s' s'' hstep with ⟨a, ha⟩ | hw
    · refine ⟨done, accepted ++ a, by rw [ha.trace, ht], ?_⟩
      rw [ha.pads_to_link, ← List.append_assoc, hq, List.append_assoc]
    · obtain ⟨hq', ht', _, _⟩ := process_pad_loop_effect env s' s'' hw
      refine ⟨done ++ s'.pads_to_link.head?.toList, accepted, ?_, ?_⟩
      · rw [ht', ht, List.append_assoc]
      · rw [hq', List.append_assoc, head_toList_append_tail, hq]

theorem one_port_processed_eq :
    kms_agnostic_bin2_process_pad_loop video_env one_port_queued
      = Except.ok one_port_processed := by
  rfl

/-- C6. Mutation requests are processed first in, first out: an accepted request
is appended at the tail of the queue; a worker step that returns removes the
head of the queue and that head is the pad it hands to
`kms_agnostic_bin2_process_pad`; so along every run of the router the pads
processed during the run (`done`), followed by the pads still queued, are the
pads queued at the start followed by the pads accepted during the run, in
that order: of two queued ports the one nearer the head is processed first. -/
theorem mutation_requests_fifo (env : Env Caps) :
    (∀ (s : KmsAgnosticBin2 Caps) (pad : Nat), s.started = true → pad ∉ s.pads_to_link →
        (kms_agnostic_bin2_add_pad_to_queue s pad).pads_to_link = s.pads_to_link ++ [pad])
      ∧ (∀ s s' : KmsAgnosticBin2 Caps,
          kms_agnostic_bin2_process_pad_loop env s = Except.ok s' →
          s'.pads_to_link = s.pads_to_link.tail
            ∧ processed_pads s'.trace = processed_pads s.trace ++ s.pads_to_link.head?.toList)
      ∧ (∀ s s' : KmsAgnosticBin2 Caps, Steps env s s' →
          ∃ done accepted : List Nat,
            processed_pads s'.trace = processed_pads s.trace ++ done
              ∧ done ++ s'.pads_to_link = s.pads_to_link ++ accepted) := by
  refine ⟨?_, ?_, steps_fifo env⟩
  · intro s pad hstarted hnew
    rw [add_pad_to_queue_accepted s pad hstarted hnew]
  · intro s s' h
    exact ⟨(process_pad_loop_effect env s s' h).1, (process_pad_loop_effect env s s' h).2.1⟩

theorem two_ports_head_served_eq :
    kms_agnostic_bin2_process_pad_loop video_env two_ports_queued
      = Except.ok two_ports_head_served := by
  rfl

theorem two_ports_drained_eq :
    kms_agnostic_bin2_process_pad_loop video_env two_ports_head_served
      = Except.ok two_ports_drained := by
  rfl

/-- The run from `two_ports_requested` to `two_ports_drained`: pad 1 is linked
and queued, pad 0 is linked and queued, and the worker runs twice. -/
theorem two_ports_fifo_run : Steps video_env two_ports_requested two_ports_drained :=
  Steps.tail _ _ _
    (Steps.tail _ _ _
      (Steps.tail _ _ _
        (Steps.tail _ _ _
          (Steps.tail _ _ _
            (Steps.tail _ _ _ (Steps.refl _) (Step.pad_link _ 1 example_peer))
            (Step.add_pad_to_queue _ 1))
          (Step.pad_link _ 0 example_peer))
        (Step.add_pad_to_queue _ 0))
      (Step.process_pad_loop two_ports_queued _ two_ports_head_served_eq))
    (Step.process_pad_loop _ _ two_ports_drained_eq)

/-- C6 at a concrete run with two ports: pad 1 is accepted into the empty queue
and pad 0 after it, so the queue is `[1, 0]`; the first worker step processes
pad 1 and leaves `[0]`, the second processes pad 0: the ports are processed in
the order of their arrival, which is not the order of their numbers.  Over
the whole run the processed pads followed by the queue are the pads accepted. -/
theorem mutation_requests_fifo_witness :
    two_ports_requested.pads_to_link = []
      ∧ two_ports_one_queued.pads_to_link = [1]
      ∧ two_ports_queued.pads_to_link = [1, 0]
      ∧ (two_ports_head_served.pads_to_link = [0]
          ∧ processed_pads two_ports_head_served.trace = [1])
      ∧ (two_ports_drained.pads_to_link = []
          ∧ processed_pads two_ports_drained.trace = [1, 0])
      ∧ ∃ done accepted : List Nat,
          processed_pads two_ports_drained.trace
              = processed_pads two_ports_requested.trace ++ done
            ∧ done ++ two_ports_drained.pads_to_link
                = two_ports_requested.pads_to_link ++ accepted :=
  ⟨by decide,
   (mutation_requests_fifo video_env).1 (gst_pad_link two_ports_requested 1 example_peer) 1
     (by decide) (by decide),
   (mutation_requests_fifo video_env).1 (gst_pad_link two_ports_one_queued 0 example_peer) 0
     (by decide) (by decide),
   (mutation_requests_fifo video_env).2.1 two_ports_queued two_ports_head_served
     two_ports_head_served_eq,
   (mutation_requests_fifo video_env).2.1 two_ports_head_served two_ports_drained
     two_ports_drained_eq,
   (mutation_requests_fifo video_env).2.2 two_ports_requested two_ports_drained
     two_ports_fifo_run⟩

/-! ### The gate and the worker -/

/-- C7. After a worker step that leaves the mutation queue empty the flow gate
is disarmed (`block_probe = 0`); a worker step that leaves the queue non-empty
leaves `block_probe` as it was. -/
theorem worker_step_gate (env : Env Caps) (s s' : KmsAgnosticBin2 Caps)
    (h : kms_agnostic_bin2_process_pad_loop env s = Except.ok s') :
    (s'.pads_to_link = [] → s'.block_probe = 0)
      ∧ (s'.pads_to_link ≠ [] → s'.block_probe = s.block_probe) := by
  obtain ⟨hq, _, he, hne⟩ := process_pad_loop_effect env s s' h
  rw [hq]
  exact ⟨he, hne⟩

/-- C7 at a concrete step: the worker processes the only queued port and the
gate, armed before, is disarmed after. -/
theorem worker_step_gate_witness :
    one_port_queued.block_probe = 3
      ∧ one_port_processed.pads_to_link = []
      ∧ one_port_processed.block_probe = 0 :=
  ⟨by decide, by decide,
   (worker_step_gate video_env one_port_queued one_port_processed one_port_processed_eq).1
     (by decide)⟩

/-- C8 as stated fails: a router that has not seen an input format ignores the
enqueue request, so the gate is not armed after the call. -/
theorem enqueue_arms_gate_counterexample :
    unstarted_port.src_pads.map (fun p => p.id) = [0]
      ∧ (kms_agnostic_bin2_add_pad_to_queue unstarted_port 0).block_probe = 0
      ∧ (kms_agnostic_bin2_add_pad_to_queue unstarted_port 0).pads_to_link = [] := by
  decide

/-- C8, amended. In every reachable state in which the input subtree has seen
its format (`started`), the flow gate is armed after
`kms_agnostic_bin2_add_pad_to_queue`; when the port was not queued already,
`kms_agnostic_bin2_set_block_probe` has armed the gate in a state in which the
port is not yet in the queue, and the port is placed at the tail afterwards.
While `started` is false the call changes nothing. -/
theorem enqueue_arms_gate (env : Env Caps) (s : KmsAgnosticBin2 Caps) (pad : Nat)
    (hs : Reachable env s) :
    (s.started = false → kms_agnostic_bin2_add_pad_to_queue s pad = s)
      ∧ (s.started = true →
          (kms_agnostic_bin2_add_pad_to_queue s pad).block_probe ≠ 0
            ∧ (pad ∉ s.pads_to_link →
                (kms_agnostic_bin2_set_block_probe s).block_probe ≠ 0
                  ∧ pad ∉ (kms_agnostic_bin2_set_block_probe s).pads_to_link
                  ∧ kms_agnostic_bin2_add_pad_to_queue s pad =
                    { (remove_target_pad (kms_agnostic_bin2_set_block_probe s) pad) with
                      pads_to_link := s.pads_to_link ++ [pad]
                      loop := kms_loop_idle_add_full
                        (remove_target_pad (kms_agnostic_bin2_set_block_probe s) pad).loop })) := by
  refine ⟨add_pad_to_queue_not_started s pad, ?_⟩
  intro hstarted
  constructor
  · by_cases hq : pad ∈ s.pads_to_link
    · rw [add_pad_to_queue_queued s pad hq]
      exact reachable_queue_armed env s hs (List.ne_nil_of_mem hq)
    · rw [add_pad_to_queue_accepted s pad hstarted hq]
      simpa using set_block_probe_armed s
  · intro hq
    exact ⟨set_block_probe_armed s, by simpa using hq,
      add_pad_to_queue_accepted s pad hstarted hq⟩

/-- C8, amended, at a concrete state: the started router with its linked port. -/
theorem enqueue_arms_gate_witness :
    one_port_linked.block_probe = 0
      ∧ (kms_agnostic_bin2_add_pad_to_queue one_port_linked 0).block_probe ≠ 0 :=
  ⟨by decide,
   ((enqueue_arms_gate video_env one_port_linked 0 one_port_linked_reachable).2
      (by decide)).1⟩

/-! ### Input reconfiguration -/

/-- Building the new input subtree empties the cache, makes a newly named tee
the current input tee and hands out five names. -/
theorem build_input_tee_cache (env : Env Caps) (s : KmsAgnosticBin2 Caps) (caps : Caps) :
    (build_input_tee env s caps).tees = []
      ∧ (build_input_tee env s caps).current_tee
          = some { name := s.element_seq + 2, kind := ElementKind.tee }
      ∧ (build_input_tee env s caps).element_seq = s.element_seq + 5 := by
  simp [build_input_tee, gst_element_factory_make, create_parser_for_caps, gst_bin_add_many,
    gst_element_link_many]

/-- A reconfiguration that returns has emptied the cache and made a newly named
tee the current input tee. -/
theorem configure_input_tee_cache (env : Env Caps) (s s' : KmsAgnosticBin2 Caps) (caps : Caps)
    (h : kms_agnostic_bin2_configure_input_tee env s caps = Except.ok s') :
    s'.tees = []
      ∧ s'.current_tee = some { name := s.element_seq + 2, kind := ElementKind.tee }
      ∧ s'.element_seq = s.element_seq + 5 := by
  obtain ⟨l, rfl⟩ := configure_input_tee_ok env s s' caps h
  exact build_input_tee_cache env _ caps

/-- A reconfiguration never returns the state it was called on. -/
theorem configure_input_tee_ne (env : Env Caps) (s : KmsAgnosticBin2 Caps) (caps : Caps)
    (ret : GstPadProbeReturn) :
    probe_return ret (kms_agnostic_bin2_configure_input_tee env s caps) ≠ Except.ok (ret, s) := by
  intro h
  unfold probe_return at h
  split at h
  · cases h
  · rename_i s' hc
    simp only [Except.ok.injEq, Prod.mk.injEq, true_and] at h
    have := (configure_input_tee_cache env s s' caps hc).2.2
    rw [h] at this
    omega

/-- C2. For a format-change notification with a non-null descriptor,
`kms_agnostic_bin2_sink_caps_probe` runs `kms_agnostic_bin2_configure_input_tee`
(on the state in which `last_caps` is already the new descriptor) if and only
if no format was recorded before, or the recorded one does not intersect the
new one and neither of the two is raw; when it does not, only `last_caps`
changes. -/
theorem sink_caps_probe_reconfigures (env : Env Caps) (s : KmsAgnosticBin2 Caps)
    (new_caps : Caps) :
    (kms_agnostic_bin2_sink_caps_probe env s (GstEvent.caps (some new_caps))
        = probe_return GstPadProbeReturn.GST_PAD_PROBE_OK
            (kms_agnostic_bin2_configure_input_tee env { s with last_caps := some new_caps }
              new_caps)
      ↔ (s.last_caps = none
          ∨ ∃ old_caps, s.last_caps = some old_caps
              ∧ env.gst_caps_can_intersect new_caps old_caps = false
              ∧ is_raw_caps env old_caps = false ∧ is_raw_caps env new_caps = false))
      ∧ (kms_agnostic_bin2_sink_caps_probe env s (GstEvent.caps (some new_caps))
            ≠ probe_return GstPadProbeReturn.GST_PAD_PROBE_OK
                (kms_agnostic_bin2_configure_input_tee env { s with last_caps := some new_caps }
                  new_caps) →
          kms_agnostic_bin2_sink_caps_probe env s (GstEvent.caps (some new_caps))
            = Except.ok (GstPadProbeReturn.GST_PAD_PROBE_OK,
                { s with last_caps := some new_caps })) := by
  unfold kms_agnostic_bin2_sink_caps_probe
  dsimp only
  cases hlast : s.last_caps with
  | none => simp
  | some old_caps =>
    dsimp only
    by_cases hcond : (!env.gst_caps_can_intersect new_caps old_caps &&
        !is_raw_caps env old_caps && !is_raw_caps env new_caps) = true
    · rw [if_pos hcond]
      simp only [Bool.and_eq_true, Bool.not_eq_true'] at hcond
      simp [hcond.1.1, hcond.1.2, hcond.2]
    · rw [if_neg hcond]
      have hne := configure_input_tee_ne env { s with last_caps := some new_caps } new_caps
        GstPadProbeReturn.GST_PAD_PROBE_OK
      simp only [Bool.and_eq_true, Bool.not_eq_true'] at hcond
      constructor
      · constructor
        · intro h
          exact absurd h.symm hne
        · intro h
          rcases h with h | ⟨old, ho, h1, h2, h3⟩
          · cases h
          · cases ho
            exact absurd ⟨⟨h1, h2⟩, h3⟩ hcond
      · intro _
        rfl

/-! ### The fan-out cache -/

theorem mem_g_hash_table_insert (l : List (GstElement Caps)) (e t : GstElement Caps)
    (h : t ∈ g_hash_table_insert l e) : t ∈ l ∨ t = e := by
  unfold g_hash_table_insert at h
  split at h
  · rw [List.mem_map] at h
    obtain ⟨x, hx, hxe⟩ := h
    split at hxe
    · exact Or.inr hxe.symm
    · rw [← hxe]
      exact Or.inl hx
  · rcases List.mem_append.mp h with h | h
    · exact Or.inl h
    · exact Or.inr (List.mem_singleton.mp h)

theorem g_hash_table_insert_mem (l : List (GstElement Caps)) (e : GstElement Caps) :
    e ∈ g_hash_table_insert l e := by
  unfold g_hash_table_insert
  split
  · rename_i h
    rw [List.any_eq_true] at h
    obtain ⟨x, hx, hxe⟩ := h
    rw [List.mem_map]
    exact ⟨x, hx, by simp [hxe]⟩
  · simp

theorem find_tee_loop_mem (env : Env Caps) (caps : Caps) (l : List (GstElement Caps))
    (t : GstElement Caps) (h : find_tee_loop env caps l = some t) :
    t ∈ l ∧ tee_matches env caps t = true := by
  induction l with
  | nil => cases h
  | cons x rest ih =>
    unfold find_tee_loop at h
    split at h
    · rename_i cur hcur
      split at h
      · rename_i hint
        cases h
        exact ⟨List.mem_cons_self _ _, by simp [tee_matches, hcur, hint]⟩
      · exact ⟨List.mem_cons_of_mem _ (ih h).1, (ih h).2⟩
    · exact ⟨List.mem_cons_of_mem _ (ih h).1, (ih h).2⟩

theorem find_tee_loop_none (env : Env Caps) (caps : Caps) (l : List (GstElement Caps))
    (h : find_tee_loop env caps l = none) : ∀ t ∈ l, tee_matches env caps t = false := by
  induction l with
  | nil =>
    intro t ht
    cases ht
  | cons x rest ih =>
    unfold find_tee_loop at h
    intro t ht
    split at h
    · rename_i cur hcur
      split at h
      · cases h
      · rename_i hint
        rcases List.mem_cons.mp ht with rfl | ht
        · simpa [tee_matches, hcur] using hint
        · exact ih h t ht
    · rename_i hcur
      rcases List.mem_cons.mp ht with rfl | ht
      · simp [tee_matches, hcur]
      · exact ih h t ht

/-- The lookup returns `t` when `t` is cached, matches and is the only cached
tee that matches. -/
theorem find_tee_loop_unique (env : Env Caps) (caps : Caps) (l : List (GstElement Caps))
    (t : GstElement Caps) (hmem : t ∈ l) (hmatch : tee_matches env caps t = true)
    (honly : ∀ u ∈ l, tee_matches env caps u = true → u = t) :
    find_tee_loop env caps l = some t := by
  cases h : find_tee_loop env caps l with
  | none =>
    have := find_tee_loop_none env caps l h t hmem
    rw [hmatch] at this
    cases this
  | some u =>
    obtain ⟨hu, hum⟩ := find_tee_loop_mem env caps l u h
    rw [honly u hu hum]

theorem find_tee_for_caps_result (env : Env Caps) (s : KmsAgnosticBin2 Caps) (caps : Caps)
    (t : GstElement Caps) (h : kms_agnostic_bin2_find_tee_for_caps env s caps = some t) :
    (env.gst_caps_is_any caps = true ∧ s.current_tee = some t)
      ∨ (env.gst_caps_is_any caps = false ∧ t ∈ s.tees) := by
  unfold kms_agnostic_bin2_find_tee_for_caps at h
  split at h
  · rename_i hany
    exact Or.inl ⟨hany, h⟩
  · rename_i hany
    exact Or.inr ⟨by simpa using hany, (find_tee_loop_mem env caps s.tees t h).1⟩

/-- What `kms_agnostic_bin2_create_raw_tee` does: without a recorded input
format or without a decoder it returns NULL and leaves the state alone;
otherwise it adds the decode branch and returns its tee. -/
theorem create_raw_tee_eq (env : Env Caps) (s : KmsAgnosticBin2 Caps) (raw_caps : Caps) :
    (kms_agnostic_bin2_create_raw_tee env s raw_caps = (none, s)
        ∧ (s.current_caps = none
            ∨ ∃ c, s.current_caps = some c ∧ decoder_factory_for_caps env c raw_caps = none))
      ∨ ∃ c f s', s.current_caps = some c ∧ decoder_factory_for_caps env c raw_caps = some f
          ∧ kms_agnostic_bin2_create_raw_tee env s raw_caps
              = (some { name := s.element_seq + 2, kind := ElementKind.tee }, s')
          ∧ s'.tees = s.tees ∧ s'.element_seq = s.element_seq + 5
          ∧ tee_count s' = tee_count s + 1 := by
  unfold kms_agnostic_bin2_create_raw_tee
  cases hc : s.current_caps with
  | none => exact Or.inl ⟨rfl, Or.inl rfl⟩
  | some c =>
    dsimp only
    unfold create_decoder_for_caps
    cases hf : decoder_factory_for_caps env c raw_caps with
    | none => exact Or.inl ⟨rfl, Or.inr ⟨c, rfl, hf⟩⟩
    | some f =>
      right
      refine ⟨c, f, _, rfl, hf, rfl, ?_, ?_, ?_⟩
      · simp [gst_element_factory_make, gst_bin_add_many, gst_element_link_many,
          link_queue_to_tee]
      · simp [gst_element_factory_make, gst_bin_add_many, gst_element_link_many,
          link_queue_to_tee]
      · simp [gst_element_factory_make, gst_bin_add_many, gst_element_link_many,
          link_queue_to_tee, tee_count, is_tee, List.filter_append, List.filter_cons]

/-- What `kms_agnostic_bin2_get_or_create_raw_tee` does when it returns: it
either leaves the cache and the elements alone (returning a tee found by the
lookup, or NULL with a warning), or it adds one decode branch and registers
its tee. -/
theorem get_or_create_raw_tee_effect (env : Env Caps) (s s' : KmsAgnosticBin2 Caps)
    (caps : Caps) (r : Option (GstElement Caps))
    (h : kms_agnostic_bin2_get_or_create_raw_tee env s caps = Except.ok (r, s')) :
    (s'.tees = s.tees ∧ s'.element_seq = s.element_seq ∧ tee_count s' = tee_count s
        ∧ ∀ t, r = some t →
            ∃ raw_caps, kms_agnostic_bin2_get_raw_caps env caps = some raw_caps
              ∧ kms_agnostic_bin2_find_tee_for_caps env s raw_caps = some t)
      ∨ (r = some { name := s.element_seq + 2, kind := ElementKind.tee }
          ∧ s'.tees = g_hash_table_insert s.tees
              { name := s.element_seq + 2, kind := ElementKind.tee }
          ∧ s'.element_seq = s.element_seq + 5 ∧ tee_count s' = tee_count s + 1) := by
  unfold kms_agnostic_bin2_get_or_create_raw_tee at h
  cases hraw : kms_agnostic_bin2_get_raw_caps env caps with
  | none =>
    simp only [hraw, Except.ok.injEq, Prod.mk.injEq] at h
    obtain ⟨rfl, rfl⟩ := h
    left
    refine ⟨rfl, rfl, rfl, ?_⟩
    intro t ht
    cases ht
  | some raw_caps =>
    simp only [hraw] at h
    cases hfind : kms_agnostic_bin2_find_tee_for_caps env s raw_caps with
    | some t =>
      simp only [hfind, Except.ok.injEq, Prod.mk.injEq] at h
      obtain ⟨rfl, rfl⟩ := h
      left
      refine ⟨rfl, rfl, rfl, ?_⟩
      intro t' ht'
      cases ht'
      exact ⟨raw_caps, rfl, hfind⟩
    | none =>
      simp only [hfind] at h
      rcases create_raw_tee_eq env s raw_caps with
        ⟨hnone, _⟩ | ⟨c, f, s1, _, _, hsome, ht, hseq, hcount⟩
      · rw [hnone] at h
        cases h
      · rw [hsome] at h
        simp only [Except.ok.injEq, Prod.mk.injEq] at h
        obtain ⟨rfl, rfl⟩ := h
        right
        refine ⟨rfl, ?_, hseq, ?_⟩
        · simp [ht]
        · simpa [tee_count] using hcount

/-- What `kms_agnostic_bin2_create_tee_for_caps` does when it returns: after the
raw stage it either stops (raw target, no raw tee, or no encoder) or adds one
encode branch and registers its tee. -/
theorem create_tee_for_caps_effect (env : Env Caps) (s s' : KmsAgnosticBin2 Caps)
    (caps : Caps) (r : Option (GstElement Caps))
    (h : kms_agnostic_bin2_create_tee_for_caps env s caps = Except.ok (r, s')) :
    ∃ r1 s1, kms_agnostic_bin2_get_or_create_raw_tee env s caps = Except.ok (r1, s1)
      ∧ ((s' = s1 ∧ (r = r1 ∨ r = none))
          ∨ (r = some { name := s1.element_seq + 4, kind := ElementKind.tee }
              ∧ s'.tees = g_hash_table_insert s1.tees
                  { name := s1.element_seq + 4, kind := ElementKind.tee }
              ∧ s'.element_seq = s1.element_seq + 7 ∧ tee_count s' = tee_count s1 + 1
              ∧ is_raw_caps env caps = false
              ∧ ∃ f, encoder_factory_for_caps env caps = some f)) := by
  unfold kms_agnostic_bin2_create_tee_for_caps at h
  cases hraw : kms_agnostic_bin2_get_or_create_raw_tee env s caps with
  | error e =>
    rw [hraw] at h
    cases h
  | ok p =>
    obtain ⟨r1, s1⟩ := p
    refine ⟨r1, s1, rfl, ?_⟩
    rw [hraw] at h
    cases r1 with
    | none =>
      simp only [Except.ok.injEq, Prod.mk.injEq] at h
      obtain ⟨rfl, rfl⟩ := h
      exact Or.inl ⟨rfl, Or.inl rfl⟩
    | some raw_tee =>
      dsimp only at h
      by_cases hr : is_raw_caps env caps = true
      · rw [if_pos hr] at h
        simp only [Except.ok.injEq, Prod.mk.injEq] at h
        obtain ⟨rfl, rfl⟩ := h
        exact Or.inl ⟨rfl, Or.inl rfl⟩
      · rw [if_neg hr] at h
        unfold create_encoder_for_caps at h
        cases hf : encoder_factory_for_caps env caps with
        | none =>
          simp only [hf, Except.ok.injEq, Prod.mk.injEq] at h
          obtain ⟨rfl, rfl⟩ := h
          exact Or.inl ⟨rfl, Or.inr rfl⟩
        | some f =>
          simp only [hf, gst_element_factory_make, create_rate_for_caps,
            create_convert_for_caps, gst_bin_add_many, gst_element_link_many,
            link_queue_to_tee, Except.ok.injEq, Prod.mk.injEq] at h
          obtain ⟨rfl, rfl⟩ := h
          right
          refine ⟨rfl, rfl, rfl, ?_, by simpa using hr, f, rfl⟩
          by_cases ha : env.gst_caps_can_intersect caps env.static_audio_caps = true <;>
            simp [tee_count, is_tee, List.filter_append, List.filter_cons, ha]

/-! ### Fan-out resolution -/

theorem resolve_tee_hit (env : Env Caps) (s : KmsAgnosticBin2 Caps) (caps : Caps)
    (t : GstElement Caps) (h : kms_agnostic_bin2_find_tee_for_caps env s caps = some t) :
    resolve_tee env s caps = Except.ok (some t, s) := by
  unfold resolve_tee
  rw [h]

theorem get_raw_caps_result (env : Env Caps) (caps raw_caps : Caps)
    (h : kms_agnostic_bin2_get_raw_caps env caps = some raw_caps) :
    raw_caps = env.static_raw_audio_caps ∨ raw_caps = env.static_raw_video_caps := by
  unfold kms_agnostic_bin2_get_raw_caps at h
  split at h
  · cases h
    exact Or.inl rfl
  · split at h
    · cases h
      exact Or.inr rfl
    · cases h

/-- A fan-out resolution adds at most two tees to the bin. -/
theorem resolve_tee_count (env : Env Caps) (s s' : KmsAgnosticBin2 Caps) (caps : Caps)
    (r : Option (GstElement Caps)) (h : resolve_tee env s caps = Except.ok (r, s')) :
    tee_count s' ≤ tee_count s + 2 := by
  unfold resolve_tee at h
  split at h
  · simp only [Except.ok.injEq, Prod.mk.injEq] at h
    obtain ⟨_, rfl⟩ := h
    omega
  · obtain ⟨r1, s1, h1, h2⟩ := create_tee_for_caps_effect env s s' caps r h
    have hraw := get_or_create_raw_tee_effect env s s1 caps r1 h1
    rcases h2 with ⟨rfl, _⟩ | ⟨_, _, _, hc, _⟩
    · rcases hraw with ⟨_, _, hc1, _⟩ | ⟨_, _, _, hc1⟩ <;> omega
    · rcases hraw with ⟨_, _, hc1, _⟩ | ⟨_, _, _, hc1⟩ <;> omega

/-- The tee a fan-out resolution returns for a target that is not the wildcard
is registered in the cache. -/
theorem resolve_tee_cached (env : Env Caps) (s s' : KmsAgnosticBin2 Caps) (caps : Caps)
    (t : GstElement Caps)
    (hraw_audio : env.gst_caps_is_any env.static_raw_audio_caps = false)
    (hraw_video : env.gst_caps_is_any env.static_raw_video_caps = false)
    (hcaps : env.gst_caps_is_any caps = false)
    (h : resolve_tee env s caps = Except.ok (some t, s')) : t ∈ s'.tees := by
  unfold resolve_tee at h
  split at h
  · rename_i t' hfind
    simp only [Except.ok.injEq, Prod.mk.injEq, Option.some.injEq] at h
    obtain ⟨rfl, rfl⟩ := h
    rcases find_tee_for_caps_result env s caps t' hfind with ⟨hany, _⟩ | ⟨_, hmem⟩
    · rw [hcaps] at hany
      cases hany
    · exact hmem
  · obtain ⟨r1, s1, h1, h2⟩ := create_tee_for_caps_effect env s s' caps _ h
    have hraw := get_or_create_raw_tee_effect env s s1 caps r1 h1
    rcases h2 with ⟨rfl, hr⟩ | ⟨hr, ht, _⟩
    · rcases hr with hr | hr
      · rcases hraw with ⟨hts, _, _, hfound⟩ | ⟨hr1, hts, _⟩
        · obtain ⟨raw_caps, hget, hfind⟩ := hfound t hr.symm
          rw [hts]
          rcases find_tee_for_caps_result env s raw_caps t hfind with ⟨hany, _⟩ | ⟨_, hmem⟩
          · rcases get_raw_caps_result env caps raw_caps hget with rfl | rfl
            · rw [hraw_audio] at hany
              cases hany
            · rw [hraw_video] at hany
              cases hany
          · exact hmem
        · rw [hts]
          rw [← hr] at hr1
          cases hr1
          exact g_hash_table_insert_mem _ _
      · cases hr
    · rw [ht]
      cases hr
      exact g_hash_table_insert_mem _ _

/-- Repeated resolutions that all hit the same cached tee return it and leave
the state alone. -/
theorem resolve_all_hits (env : Env Caps) (s : KmsAgnosticBin2 Caps) (t : GstElement Caps)
    (cs : List Caps)
    (h : ∀ c ∈ cs, kms_agnostic_bin2_find_tee_for_caps env s c = some t) :
    resolve_all env s cs = Except.ok (cs.map (fun _ => some t), s) := by
  induction cs with
  | nil => rfl
  | cons c rest ih =>
    unfold resolve_all
    rw [resolve_tee_hit env s c t (h c (List.mem_cons_self _ _))]
    dsimp only
    rw [ih (fun c' hc' => h c' (List.mem_cons_of_mem _ hc'))]
    rfl

/-- C1 as stated fails: on the router with a VP8 input, the resolutions of the
two intersecting targets "H.264 or Theora" and "H.264" return two different
fan-out points (the tee of the Theora encoder, then the tee of the H.264
encoder) and three fan-out points are created in all (the raw tee and the
two encoders' tees). -/
theorem dedup_counterexample :
    SimpleCaps.can_intersect h264_or_theora (SimpleCaps.formats [Format.h264]) = true
      ∧ ∃ s', resolve_all video_env (vp8_input video_env)
            [h264_or_theora, SimpleCaps.formats [Format.h264]]
          = Except.ok ([some { name := 17, kind := ElementKind.tee },
                        some { name := 24, kind := ElementKind.tee }], s')
        ∧ tee_count s' = tee_count (vp8_input video_env) + 3 :=
  ⟨by decide, _, rfl, by decide⟩

/-- C1, amended. For targets that are not the wildcard and with no input
reconfiguration in between: the first fan-out resolution creates at most two
fan-out points, and none when the lookup hits; every later resolution whose
target intersects the caps of the returned fan-out point, and of no other
cached one, creates nothing, changes nothing and returns the same fan-out
point. -/
theorem dedup_by_cached_caps (env : Env Caps) (s s1 : KmsAgnosticBin2 Caps) (c : Caps)
    (t : GstElement Caps) (cs : List Caps)
    (hraw_audio : env.gst_caps_is_any env.static_raw_audio_caps = false)
    (hraw_video : env.gst_caps_is_any env.static_raw_video_caps = false)
    (hc : env.gst_caps_is_any c = false)
    (h1 : resolve_tee env s c = Except.ok (some t, s1))
    (hcs : ∀ c' ∈ cs, env.gst_caps_is_any c' = false ∧ tee_matches env c' t = true
      ∧ ∀ u ∈ s1.tees, tee_matches env c' u = true → u = t) :
    tee_count s1 ≤ tee_count s + 2
      ∧ (kms_agnostic_bin2_find_tee_for_caps env s c ≠ none → s1 = s)
      ∧ resolve_all env s1 cs = Except.ok (cs.map (fun _ => some t), s1) := by
  refine ⟨resolve_tee_count env s s1 c _ h1, ?_, ?_⟩
  · intro hfind
    unfold resolve_tee at h1
    split at h1
    · simp only [Except.ok.injEq, Prod.mk.injEq] at h1
      exact h1.2.symm
    · rename_i hnone
      exact absurd hnone hfind
  · apply resolve_all_hits
    intro c' hc'
    obtain ⟨hany, hmatch, honly⟩ := hcs c' hc'
    unfold kms_agnostic_bin2_find_tee_for_caps
    rw [hany]
    exact find_tee_loop_unique env c' s1.tees t
      (resolve_tee_cached env s s1 c t hraw_audio hraw_video hc h1) hmatch honly

theorem first_resolved_eq :
    resolve_tee video_env (vp8_input video_env) h264_or_theora
      = Except.ok (some { name := 17, kind := ElementKind.tee }, first_resolved) := by
  rfl

/-- C1, amended, at a concrete run: after the resolution of "H.264 or Theora"
has created the raw tee and the Theora encoder's tee, the resolutions of
"Theora" and again of "H.264 or Theora" return that same tee. -/
theorem dedup_by_cached_caps_witness :
    tee_count first_resolved ≤ tee_count (vp8_input video_env) + 2
      ∧ resolve_all video_env first_resolved [SimpleCaps.formats [Format.theora], h264_or_theora]
          = Except.ok ([some { name := 17, kind := ElementKind.tee },
                        some { name := 17, kind := ElementKind.tee }], first_resolved) :=
  ⟨(dedup_by_cached_caps video_env (vp8_input video_env) first_resolved h264_or_theora
      { name := 17, kind := ElementKind.tee } [SimpleCaps.formats [Format.theora], h264_or_theora]
      rfl rfl rfl first_resolved_eq (by decide)).1,
   (dedup_by_cached_caps video_env (vp8_input video_env) first_resolved h264_or_theora
      { name := 17, kind := ElementKind.tee } [SimpleCaps.formats [Format.theora], h264_or_theora]
      rfl rfl rfl first_resolved_eq (by decide)).2.2⟩

/-! ### Names of the cached fan-out points -/

theorem add_pad_to_queue_cache (s : KmsAgnosticBin2 Caps) (pad : Nat) :
    (kms_agnostic_bin2_add_pad_to_queue s pad).tees = s.tees
      ∧ (kms_agnostic_bin2_add_pad_to_queue s pad).current_tee = s.current_tee
      ∧ (kms_agnostic_bin2_add_pad_to_queue s pad).element_seq = s.element_seq := by
  unfold kms_agnostic_bin2_add_pad_to_queue
  split
  · exact ⟨rfl, rfl, rfl⟩
  · split
    · unfold remove_target_pad kms_agnostic_bin2_set_block_probe gst_ghost_pad_get_target
      dsimp only
      repeat' split
      all_goals exact ⟨rfl, rfl, rfl⟩
    · exact ⟨rfl, rfl, rfl⟩

theorem foldl_add_pad_to_queue_cache (pads : List Nat) (s : KmsAgnosticBin2 Caps) :
    (pads.foldl kms_agnostic_bin2_add_pad_to_queue s).tees = s.tees
      ∧ (pads.foldl kms_agnostic_bin2_add_pad_to_queue s).current_tee = s.current_tee
      ∧ (pads.foldl kms_agnostic_bin2_add_pad_to_queue s).element_seq = s.element_seq := by
  induction pads generalizing s with
  | nil => exact ⟨rfl, rfl, rfl⟩
  | cons pad rest ih =>
    obtain ⟨h1, h2, h3⟩ := ih (kms_agnostic_bin2_add_pad_to_queue s pad)
    obtain ⟨h4, h5, h6⟩ := add_pad_to_queue_cache s pad
    exact ⟨h1.trans h4, h2.trans h5, h3.trans h6⟩

theorem remove_target_pad_cache (s : KmsAgnosticBin2 Caps) (pad : Nat) :
    (remove_target_pad s pad).tees = s.tees
      ∧ (remove_target_pad s pad).current_tee = s.current_tee
      ∧ (remove_target_pad s pad).element_seq = s.element_seq := by
  unfold remove_target_pad
  split <;> exact ⟨rfl, rfl, rfl⟩

theorem gst_pad_unlink_cache (s : KmsAgnosticBin2 Caps) (pad : Nat) :
    (gst_pad_unlink s pad).tees = s.tees
      ∧ (gst_pad_unlink s pad).current_tee = s.current_tee
      ∧ (gst_pad_unlink s pad).element_seq = s.element_seq := by
  unfold gst_pad_unlink kms_agnostic_bin2_src_unlinked
  exact remove_target_pad_cache _ _

/-- The tees a fan-out resolution leaves in the cache are the ones cached before
and newly named ones; the tee it returns is a cached one, the current input
tee or a newly named one. -/
theorem resolve_tee_names (env : Env Caps) (s s' : KmsAgnosticBin2 Caps) (caps : Caps)
    (r : Option (GstElement Caps)) (h : resolve_tee env s caps = Except.ok (r, s')) :
    (∀ t ∈ s'.tees, t ∈ s.tees ∨ (s.element_seq ≤ t.name ∧ t.name < s'.element_seq))
      ∧ (∀ t, r = some t →
          t ∈ s.tees ∨ s.current_tee = some t
            ∨ (s.element_seq ≤ t.name ∧ t.name < s'.element_seq)) := by
  unfold resolve_tee at h
  split at h
  · rename_i t' hfind
    simp only [Except.ok.injEq, Prod.mk.injEq] at h
    obtain ⟨rfl, rfl⟩ := h
    refine ⟨fun t ht => Or.inl ht, ?_⟩
    intro t ht
    cases ht
    rcases find_tee_for_caps_result env s caps t' hfind with ⟨_, hcur⟩ | ⟨_, hmem⟩
    · exact Or.inr (Or.inl hcur)
    · exact Or.inl hmem
  · obtain ⟨r1, s1, h1, h2⟩ := create_tee_for_caps_effect env s s' caps r h
    have hraw := get_or_create_raw_tee_effect env s s1 caps r1 h1
    have hstage :
        (∀ t ∈ s1.tees, t ∈ s.tees ∨ (s.element_seq ≤ t.name ∧ t.name < s1.element_seq))
        ∧ (∀ t, r1 = some t →
            t ∈ s.tees ∨ s.current_tee = some t
              ∨ (s.element_seq ≤ t.name ∧ t.name < s1.element_seq))
        ∧ s.element_seq ≤ s1.element_seq := by
      rcases hraw with ⟨hts, hseq, _, hfound⟩ | ⟨hr1, hts, hseq, _⟩
      · refine ⟨fun t ht => Or.inl (hts ▸ ht), ?_, by omega⟩
        intro t ht
        obtain ⟨raw_caps, _, hfind⟩ := hfound t ht
        rcases find_tee_for_caps_result env s raw_caps t hfind with ⟨_, hcur⟩ | ⟨_, hmem⟩
        · exact Or.inr (Or.inl hcur)
        · exact Or.inl hmem
      · refine ⟨?_, ?_, by omega⟩
        · intro t ht
          rw [hts] at ht
          rcases mem_g_hash_table_insert _ _ _ ht with ht | rfl
          · exact Or.inl ht
          · right
            dsimp only
            omega
        · intro t ht
          rw [hr1] at ht
          cases ht
          right
          right
          dsimp only
          omega
    obtain ⟨hst, hsr, hle⟩ := hstage
    rcases h2 with ⟨rfl, hr⟩ | ⟨hr, hts, hseq, _⟩
    · refine ⟨hst, ?_⟩
      intro t ht
      rcases hr with hr | hr
      · exact hsr t (hr ▸ ht)
      · rw [hr] at ht
        cases ht
    · constructor
      · intro t ht
        rw [hts] at ht
        rcases mem_g_hash_table_insert _ _ _ ht with ht | rfl
        · rcases hst t ht with h | h
          · exact Or.inl h
          · right
            omega
        · right
          dsimp only
          omega
      · intro t ht
        rw [hr] at ht
        cases ht
        right
        right
        dsimp only
        omega

theorem link_to_tee_tees (env : Env Caps) (s : KmsAgnosticBin2 Caps) (pad : Nat)
    (tee : GstElement Caps) (caps : Caps) :
    (kms_agnostic_bin2_link_to_tee env s pad tee caps).tees = s.tees := by
  unfold kms_agnostic_bin2_link_to_tee
  dsimp only
  split <;>
    simp [gst_element_factory_make, create_rate_for_caps, create_convert_for_caps,
      gst_bin_add_many, gst_element_link_many, link_queue_to_tee, gst_ghost_pad_set_target]

theorem link_pad_names (env : Env Caps) (s s' : KmsAgnosticBin2 Caps) (pad : Nat)
    (peer : Peer Caps) (h : kms_agnostic_bin2_link_pad env s pad peer = Except.ok s') :
    ∀ t ∈ s'.tees, t ∈ s.tees ∨ (s.element_seq ≤ t.name ∧ t.name < s'.element_seq) := by
  unfold kms_agnostic_bin2_link_pad at h
  split at h
  · simp only [Except.ok.injEq] at h
    subst h
    exact fun t ht => Or.inl ht
  · rename_i caps _
    split at h
    · cases h
    · rename_i tee s1 heq
      simp only [Except.ok.injEq] at h
      subst h
      intro t ht
      rw [link_to_tee_tees] at ht
      have hle := (link_to_tee_graph env s1 pad tee caps).element_seq
      rcases (resolve_tee_names env s s1 caps _ heq).1 t ht with h | h
      · exact Or.inl h
      · right
        omega
    · rename_i s1 heq
      simp only [Except.ok.injEq] at h
      subst h
      exact (resolve_tee_names env s _ caps _ heq).1

theorem process_pad_names (env : Env Caps) (s s' : KmsAgnosticBin2 Caps) (pad : Option Nat)
    (h : kms_agnostic_bin2_process_pad env s pad = Except.ok s') :
    ∀ t ∈ s'.tees, t ∈ s.tees ∨ (s.element_seq ≤ t.name ∧ t.name < s'.element_seq) := by
  unfold kms_agnostic_bin2_process_pad at h
  dsimp only at h
  split at h
  · simp only [Except.ok.injEq] at h
    subst h
    exact fun t ht => Or.inl ht
  · split at h
    · simp only [Except.ok.injEq, kms_agnostic_bin2_unlink_pad] at h
      subst h
      exact fun t ht => Or.inl ht
    · have hn := link_pad_names env _ s' _ _ h
      exact hn

theorem remove_block_probe_cache (s : KmsAgnosticBin2 Caps) :
    (kms_agnostic_bin2_remove_block_probe s).tees = s.tees
      ∧ (kms_agnostic_bin2_remove_block_probe s).current_tee = s.current_tee
      ∧ (kms_agnostic_bin2_remove_block_probe s).element_seq = s.element_seq := by
  unfold kms_agnostic_bin2_remove_block_probe
  split <;> exact ⟨rfl, rfl, rfl⟩

theorem process_pad_loop_names (env : Env Caps) (s s' : KmsAgnosticBin2 Caps)
    (h : kms_agnostic_bin2_process_pad_loop env s = Except.ok s') :
    (∀ t ∈ s'.tees, t ∈ s.tees ∨ (s.element_seq ≤ t.name ∧ t.name < s'.element_seq))
      ∧ s'.current_tee = s.current_tee ∧ s.element_seq ≤ s'.element_seq := by
  unfold kms_agnostic_bin2_process_pad_loop at h
  dsimp only at h
  split at h
  · cases h
  · rename_i s1 heq
    have hn := process_pad_names env _ _ _ heq
    have hg := process_pad_graph env _ _ _ heq
    have hc : s1.current_tee = s.current_tee := hg.current_tee
    have hle : s.element_seq ≤ s1.element_seq := hg.element_seq
    split at h
    · simp only [Except.ok.injEq] at h
      subst h
      obtain ⟨h1, h2, h3⟩ := remove_block_probe_cache s1
      rw [h1, h2, h3]
      exact ⟨hn, hc, hle⟩
    · simp only [Except.ok.injEq] at h
      subst h
      exact ⟨hn, hc, hle⟩

theorem add_pad_to_queue_probes (s : KmsAgnosticBin2 Caps) (pad : Nat) :
    (kms_agnostic_bin2_add_pad_to_queue s pad).input_caps_probes = s.input_caps_probes := by
  unfold kms_agnostic_bin2_add_pad_to_queue
  split
  · rfl
  · split
    · unfold remove_target_pad kms_agnostic_bin2_set_block_probe gst_ghost_pad_get_target
      dsimp only
      repeat' split
      all_goals rfl
    · rfl

theorem gst_pad_unlink_probes (s : KmsAgnosticBin2 Caps) (pad : Nat) :
    (gst_pad_unlink s pad).input_caps_probes = s.input_caps_probes := by
  unfold gst_pad_unlink kms_agnostic_bin2_src_unlinked remove_target_pad
  split <;> rfl

/-- A worker step that returns leaves the pending format probes and the
`started` flag as they are. -/
theorem process_pad_loop_probes (env : Env Caps) (s s' : KmsAgnosticBin2 Caps)
    (h : kms_agnostic_bin2_process_pad_loop env s = Except.ok s') :
    s'.input_caps_probes = s.input_caps_probes ∧ s'.started = s.started := by
  unfold kms_agnostic_bin2_process_pad_loop at h
  dsimp only at h
  split at h
  · cases h
  · rename_i s1 heq
    have hg := process_pad_graph env _ _ _ heq
    split at h
    · simp only [Except.ok.injEq] at h
      subst h
      unfold kms_agnostic_bin2_remove_block_probe
      split
      · exact ⟨hg.input_caps_probes, hg.started⟩
      · exact ⟨hg.input_caps_probes, hg.started⟩
    · simp only [Except.ok.injEq] at h
      subst h
      exact ⟨hg.input_caps_probes, hg.started⟩

/-- A reconfiguration that returns has installed the format probe of the new
input tee and kept the pending ones. -/
theorem configure_input_tee_probes (env : Env Caps) (s s' : KmsAgnosticBin2 Caps) (caps : Caps)
    (h : kms_agnostic_bin2_configure_input_tee env s caps = Except.ok s') :
    s'.input_caps_probes = s.input_caps_probes ++ [s.element_seq + 2] := by
  obtain ⟨l, rfl⟩ := configure_input_tee_ok env s s' caps h
  simp [build_input_tee, gst_element_factory_make, create_parser_for_caps, gst_bin_add_many,
    gst_element_link_many]

/-- What every operation does to the names in the cache: a cached tee was
cached before, is the tee of a pending format probe, or is newly named; the
current input tee is the one before or newly named; names are never handed out
again. -/
theorem step_names (env : Env Caps) (s s' : KmsAgnosticBin2 Caps) (h : Step env s s') :
    (∀ t ∈ s'.tees, t ∈ s.tees ∨ (t ∈ s.children ∧ t.name ∈ s.input_caps_probes)
        ∨ (s.element_seq ≤ t.name ∧ t.name < s'.element_seq))
      ∧ (∀ t, s'.current_tee = some t →
          s.current_tee = some t ∨ (s.element_seq ≤ t.name ∧ t.name < s'.element_seq))
      ∧ s.element_seq ≤ s'.element_seq := by
  have same : ∀ x : KmsAgnosticBin2 Caps, x.tees = s.tees → x.current_tee = s.current_tee →
      x.element_seq = s.element_seq →
      (∀ t ∈ x.tees, t ∈ s.tees ∨ (t ∈ s.children ∧ t.name ∈ s.input_caps_probes)
          ∨ (s.element_seq ≤ t.name ∧ t.name < x.element_seq))
        ∧ (∀ t, x.current_tee = some t →
            s.current_tee = some t ∨ (s.element_seq ≤ t.name ∧ t.name < x.element_seq))
        ∧ s.element_seq ≤ x.element_seq := by
    intro x h1 h2 h3
    rw [h1, h2, h3]
    exact ⟨fun t ht => Or.inl ht, fun t ht => Or.inl ht, Nat.le_refl _⟩
  cases h with
  | add_pad_to_queue pad =>
    obtain ⟨h1, h2, h3⟩ := add_pad_to_queue_cache s pad
    exact same _ h1 h2 h3
  | src_reconfigure_probe block event pad _ =>
    unfold kms_agnostic_bin2_src_reconfigure_probe
    split
    · exact same _ rfl rfl rfl
    · split
      · obtain ⟨h1, h2, h3⟩ := add_pad_to_queue_cache s pad
        exact same _ h1 h2 h3
      · exact same _ rfl rfl rfl
  | process_pad_loop _ hl =>
    obtain ⟨h1, h2, h3⟩ := process_pad_loop_names env s s' hl
    refine ⟨?_, ?_, h3⟩
    · intro t ht
      rcases h1 t ht with h | h
      · exact Or.inl h
      · exact Or.inr (Or.inr h)
    · intro t ht
      rw [h2] at ht
      exact Or.inl ht
  | sink_caps_probe _ event ret hp =>
    rcases sink_caps_probe_ok env s s' event ret hp with rfl | ⟨new_caps, rfl | hc⟩
    · exact same _ rfl rfl rfl
    · exact same _ rfl rfl rfl
    · obtain ⟨c1, c2, c3⟩ := configure_input_tee_cache env _ s' new_caps hc
      rw [c1, c2, c3]
      refine ⟨fun t ht => absurd ht (List.not_mem_nil t), ?_, ?_⟩
      · intro t ht
        cases ht
        right
        dsimp only
        omega
      · dsimp only
        omega
  | set_input_caps current_caps tee htee hprobe =>
    refine ⟨?_, fun t ht => Or.inl ht, Nat.le_refl _⟩
    intro t ht
    rcases mem_g_hash_table_insert _ _ _ ht with h | rfl
    · exact Or.inl h
    · exact Or.inr (Or.inl ⟨htee, hprobe⟩)
  | request_new_pad =>
    unfold kms_agnostic_bin2_request_new_pad
    dsimp only
    split <;> exact same _ rfl rfl rfl
  | release_pad pad =>
    unfold kms_agnostic_bin2_release_pad
    dsimp only
    split
    · obtain ⟨h1, h2, h3⟩ := gst_pad_unlink_cache s pad
      exact same _ h1 h2 h3
    · exact same _ rfl rfl rfl
  | pad_link pad peer => exact same _ rfl rfl rfl
  | pad_unlink pad =>
    obtain ⟨h1, h2, h3⟩ := gst_pad_unlink_cache s pad
    exact same _ h1 h2 h3

/-- What every operation does to the pending format probes: it keeps them, and
then registers newly named tees only; or it is a reconfiguration, which empties
the cache and installs the probe of the new input tee; or it is the critical
section of `set_input_caps`, which registers the tee of a pending probe and
removes that probe. -/
theorem step_probes (env : Env Caps) (s s' : KmsAgnosticBin2 Caps) (h : Step env s s') :
    (s'.input_caps_probes = s.input_caps_probes
        ∧ ∀ t ∈ s'.tees, t ∈ s.tees ∨ (s.element_seq ≤ t.name ∧ t.name < s'.element_seq))
      ∨ (s'.tees = [] ∧ s'.input_caps_probes = s.input_caps_probes ++ [s.element_seq + 2]
        ∧ s'.element_seq = s.element_seq + 5)
      ∨ (∃ tee, tee.name ∈ s.input_caps_probes ∧ s'.tees = g_hash_table_insert s.tees tee
        ∧ s'.input_caps_probes = s.input_caps_probes.erase tee.name
        ∧ s'.element_seq = s.element_seq) := by
  have same : ∀ x : KmsAgnosticBin2 Caps, x.tees = s.tees →
      x.input_caps_probes = s.input_caps_probes →
      (x.input_caps_probes = s.input_caps_probes
        ∧ ∀ t ∈ x.tees, t ∈ s.tees ∨ (s.element_seq ≤ t.name ∧ t.name < x.element_seq))
      ∨ (x.tees = [] ∧ x.input_caps_probes = s.input_caps_probes ++ [s.element_seq + 2]
        ∧ x.element_seq = s.element_seq + 5)
      ∨ (∃ tee, tee.name ∈ s.input_caps_probes ∧ x.tees = g_hash_table_insert s.tees tee
        ∧ x.input_caps_probes = s.input_caps_probes.erase tee.name
        ∧ x.element_seq = s.element_seq) := by
    intro x h1 h2
    left
    rw [h1]
    exact ⟨h2, fun t ht => Or.inl ht⟩
  cases h with
  | add_pad_to_queue pad =>
    exact same _ (add_pad_to_queue_cache s pad).1 (add_pad_to_queue_probes s pad)
  | src_reconfigure_probe block event pad _ =>
    unfold kms_agnostic_bin2_src_reconfigure_probe
    split
    · exact same _ rfl rfl
    · split
      · exact same _ (add_pad_to_queue_cache s pad).1 (add_pad_to_queue_probes s pad)
      · exact same _ rfl rfl
  | process_pad_loop _ hl =>
    exact Or.inl ⟨(process_pad_loop_probes env s s' hl).1, (process_pad_loop_names env s s' hl).1⟩
  | sink_caps_probe _ event ret hp =>
    rcases sink_caps_probe_ok env s s' event ret hp with rfl | ⟨new_caps, rfl | hc⟩
    · exact same _ rfl rfl
    · exact same _ rfl rfl
    · right
      left
      obtain ⟨c1, _, c3⟩ := configure_input_tee_cache env _ s' new_caps hc
      have c4 := configure_input_tee_probes env _ s' new_caps hc
      exact ⟨c1, c4, c3⟩
  | set_input_caps current_caps tee htee hprobe =>
    exact Or.inr (Or.inr ⟨tee, hprobe, rfl, rfl, rfl⟩)
  | request_new_pad =>
    unfold kms_agnostic_bin2_request_new_pad
    dsimp only
    split <;> exact same _ rfl rfl
  | release_pad pad =>
    unfold kms_agnostic_bin2_release_pad
    dsimp only
    split
    · exact same _ (gst_pad_unlink_cache s pad).1 (gst_pad_unlink_probes s pad)
    · exact same _ rfl rfl
  | pad_link pad peer => exact same _ rfl rfl
  | pad_unlink pad =>
    exact same _ (gst_pad_unlink_cache s pad).1 (gst_pad_unlink_probes s pad)

/-! ### Reconfiguration and the cache -/

/-- In a reachable state the pending format probes belong to tees whose names
have been handed out, no probe is pending twice, and no cached tee has its
format probe pending: `set_input_caps` registers a tee once. -/
theorem reachable_probes (env : Env Caps) (s : KmsAgnosticBin2 Caps)
    (h : Reachable env s) :
    (∀ n ∈ s.input_caps_probes, n < s.element_seq)
      ∧ s.input_caps_probes.Nodup
      ∧ (∀ t ∈ s.tees, t.name ∉ s.input_caps_probes)
      ∧ (∀ t ∈ s.tees, t.name < s.element_seq) := by
  induction h with
  | init =>
    refine ⟨?_, ?_, ?_, ?_⟩
    · intro n hn
      cases hn
    · exact List.nodup_nil
    · intro t ht
      cases ht
    · intro t ht
      cases ht
  | step s s' _ hstep ih =>
    obtain ⟨i1, i2, i3, i4⟩ := ih
    have hle := (step_names env s s' hstep).2.2
    rcases step_probes env s s' hstep with ⟨hp, ht⟩ | ⟨ht, hp, hseq⟩ | ⟨tee, hmem, ht, hp, hseq⟩
    · rw [hp]
      refine ⟨fun n hn => Nat.lt_of_lt_of_le (i1 n hn) hle, i2, ?_, ?_⟩
      · intro t htm hn
        rcases ht t htm with h | h
        · exact i3 t h hn
        · have := i1 _ hn
          omega
      · intro t htm
        rcases ht t htm with h | h
        · exact Nat.lt_of_lt_of_le (i4 t h) hle
        · exact h.2
    · rw [hp, ht, hseq]
      refine ⟨?_, ?_, ?_, ?_⟩
      · intro n hn
        rcases List.mem_append.mp hn with h | h
        · have := i1 n h
          omega
        · rw [List.mem_singleton] at h
          omega
      · rw [List.nodup_append]
        refine ⟨i2, List.nodup_singleton _, ?_⟩
        intro a ha hb
        rw [List.mem_singleton] at hb
        have := i1 a ha
        omega
      · intro t htm
        cases htm
      · intro t htm
        cases htm
    · rw [hp, ht, hseq]
      refine ⟨fun n hn => i1 n (List.mem_of_mem_erase hn), i2.erase _, ?_, ?_⟩
      · intro t htm hn
        rcases mem_g_hash_table_insert _ _ _ htm with h | rfl
        · exact i3 t h (List.mem_of_mem_erase hn)
        · exact (List.Nodup.mem_erase_iff i2).mp hn |>.1 rfl
      · intro t htm
        rcases mem_g_hash_table_insert _ _ _ htm with h | rfl
        · exact i4 t h
        · exact i1 _ hmem

theorem one_port_processed_reachable : Reachable video_env one_port_processed :=
  Reachable.step _ _ one_port_queued_reachable
    (Step.process_pad_loop _ _ one_port_processed_eq)

/-- The format probe of a replaced input subtree can run after the
reconfiguration: here the sink pad sees VP8 and then H.264, and the VP8 caps
event reaches the parser of the first subtree only then.  The probe registers
the tee it was installed with (element 5), which is not the current input tee
(element 10), and a resolution of VP8 returns that tee. -/
theorem late_format_probe_registers_replaced_tee :
    Reachable late_probe_env late_registered
      ∧ twice_configured.tees = []
      ∧ twice_configured.input_caps_probes = [5, 10]
      ∧ late_registered.current_tee = some { name := 10, kind := ElementKind.tee }
      ∧ late_registered.tees = [{ name := 5, kind := ElementKind.tee }]
      ∧ resolve_tee late_probe_env late_registered (SimpleCaps.formats [Format.vp8])
          = Except.ok (some { name := 5, kind := ElementKind.tee }, late_registered) :=
  ⟨Reachable.step _ _
      (Reachable.step _ _
        (Reachable.step _ _ Reachable.init
          (Step.sink_caps_probe _ _ (GstEvent.caps (some (SimpleCaps.formats [Format.vp8])))
            GstPadProbeReturn.GST_PAD_PROBE_OK rfl))
        (Step.sink_caps_probe _ _ (GstEvent.caps (some (SimpleCaps.formats [Format.h264])))
          GstPadProbeReturn.GST_PAD_PROBE_OK rfl))
      (Step.set_input_caps twice_configured (some (SimpleCaps.formats [Format.vp8]))
        { name := 5, kind := ElementKind.tee } (by decide) (by decide)),
   by decide, by decide, by decide, by decide, rfl⟩

/-! ### The missing raw fan-out point -/

/-- Whenever the raw lookup misses and `kms_agnostic_bin2_create_raw_tee` has no
input format or finds no decoder, `kms_agnostic_bin2_get_or_create_raw_tee`
dereferences the NULL tee. -/
theorem get_or_create_raw_tee_null (env : Env Caps) (s : KmsAgnosticBin2 Caps)
    (caps raw_caps : Caps)
    (hraw : kms_agnostic_bin2_get_raw_caps env caps = some raw_caps)
    (hfind : kms_agnostic_bin2_find_tee_for_caps env s raw_caps = none)
    (hnone : s.current_caps = none
      ∨ ∃ c, s.current_caps = some c ∧ decoder_factory_for_caps env c raw_caps = none) :
    kms_agnostic_bin2_get_or_create_raw_tee env s caps
      = Except.error Fault.null_dereference := by
  unfold kms_agnostic_bin2_get_or_create_raw_tee
  rw [hraw]
  dsimp only
  rw [hfind]
  dsimp only
  rcases create_raw_tee_eq env s raw_caps with ⟨h, _⟩ | ⟨c, f, s', hc, hf, _⟩
  · rw [h]
  · rcases hnone with h | ⟨c', hc', hf'⟩
    · rw [h] at hc
      cases hc
    · rw [hc'] at hc
      cases hc
      rw [hf'] at hf
      cases hf

/-- C10, the code at the failing inputs.  No decoder qualifies for the Opus
input, and a raw-audio fan-out point is asked for:
`kms_agnostic_bin2_get_or_create_raw_tee` does not return, it dereferences the
NULL result of `kms_agnostic_bin2_create_raw_tee`; so does the worker step
for a port whose peer accepts raw audio, and so does the call when no input
format is recorded at all. -/
theorem raw_tee_without_decoder_null_dereference :
    decoder_factory_for_caps opus_env (SimpleCaps.formats [Format.opus])
        (SimpleCaps.formats [Format.raw_audio]) = none
      ∧ kms_agnostic_bin2_get_or_create_raw_tee opus_env opus_input
          (SimpleCaps.formats [Format.raw_audio]) = Except.error Fault.null_dereference
      ∧ kms_agnostic_bin2_process_pad_loop opus_env opus_port_queued
          = Except.error Fault.null_dereference
      ∧ (kms_agnostic_bin2_init : KmsAgnosticBin2 SimpleCaps).current_caps = none
      ∧ kms_agnostic_bin2_get_or_create_raw_tee opus_env kms_agnostic_bin2_init
          (SimpleCaps.formats [Format.raw_audio]) = Except.error Fault.null_dereference :=
  ⟨rfl, rfl, rfl, rfl, rfl⟩

/-! ### The flow gate and the buffers -/

theorem sink_block_armed (s : KmsAgnosticBin2 Caps) (h : s.block_probe ≠ 0) :
    sink_block s true true = none := by
  simp [sink_block, h]

theorem sink_block_disarmed (s : KmsAgnosticBin2 Caps) (buffer : Bool)
    (h : s.block_probe = 0) :
    sink_block s true buffer = some GstPadProbeReturn.GST_PAD_PROBE_OK := by
  simp [sink_block, h]

theorem push_buffers_armed (s : KmsAgnosticBin2 Caps) (h : s.block_probe ≠ 0) (n : Nat)
    (d : DataPath) : push_buffers s n d = d := by
  induction n with
  | zero => rfl
  | succ n ih =>
    unfold push_buffers
    have : push_buffer s d = d := by
      unfold push_buffer
      split
      · rfl
      · rw [sink_block_armed s h]
    rw [this, ih]

theorem push_buffers_disarmed (s : KmsAgnosticBin2 Caps) (h : s.block_probe = 0)
    (waiting passed : List Nat) :
    push_buffers s waiting.length { waiting := waiting, passed := passed }
      = { waiting := [], passed := passed ++ waiting } := by
  induction waiting generalizing passed with
  | nil => simp [push_buffers]
  | cons b rest ih =>
    simp only [List.length_cons, push_buffers, push_buffer, sink_block_disarmed s true h]
    rw [ih]
    simp

/-- C4. Gate correctness: while the flow gate is armed (`block_probe ≠ 0`) the
blocking probe `sink_block` does not return for a buffer or buffer list, so
however often the streaming thread runs no buffer passes; once the gate is
disarmed (`kms_agnostic_bin2_remove_block_probe`) the probe returns for every
buffer, and the buffers held back all pass, in their original order. -/
theorem gate_correctness (s : KmsAgnosticBin2 Caps) (d : DataPath) :
    (s.block_probe ≠ 0 →
        sink_block s true true = none ∧ ∀ n, push_buffers s n d = d)
      ∧ sink_block (kms_agnostic_bin2_remove_block_probe s) true true
          = some GstPadProbeReturn.GST_PAD_PROBE_OK
      ∧ push_buffers (kms_agnostic_bin2_remove_block_probe s) d.waiting.length d
          = { waiting := [], passed := d.passed ++ d.waiting } :=
  ⟨fun h => ⟨sink_block_armed s h, fun n => push_buffers_armed s h n d⟩,
   sink_block_disarmed _ true (remove_block_probe_disarmed s),
   push_buffers_disarmed _ (remove_block_probe_disarmed s) d.waiting d.passed⟩

/-- C4 at a concrete state: the gate of `one_port_queued` is armed and holds the
buffers 1, 2, 3; after the disarm they pass in that order. -/
theorem gate_correctness_witness :
    one_port_queued.block_probe ≠ 0
      ∧ push_buffers one_port_queued 5 { waiting := [1, 2, 3], passed := [] }
          = { waiting := [1, 2, 3], passed := [] }
      ∧ push_buffers (kms_agnostic_bin2_remove_block_probe one_port_queued) 3
            { waiting := [1, 2, 3], passed := [] }
          = { waiting := [], passed := [1, 2, 3] } :=
  ⟨by decide,
   ((gate_correctness one_port_queued { waiting := [1, 2, 3], passed := [] }).1
      (by decide)).2 5,
   (gate_correctness one_port_queued { waiting := [1, 2, 3], passed := [] }).2.2⟩

/-! ### The element graph stays well formed -/

theorem links_grow_refl (s : KmsAgnosticBin2 Caps) : LinksGrow s s :=
  ⟨[], by simp, fun l hl => absurd hl (List.not_mem_nil l)⟩

theorem links_grow_of_eq (s s' : KmsAgnosticBin2 Caps) (h : s'.links = s.links) :
    LinksGrow s s' :=
  ⟨[], by simp [h], fun l hl => absurd hl (List.not_mem_nil l)⟩

theorem links_grow_trans {s s' s'' : KmsAgnosticBin2 Caps} (h : LinksGrow s s')
    (h' : LinksGrow s' s'') (hle : s'.element_seq ≤ s''.element_seq) : LinksGrow s s'' := by
  obtain ⟨a, ha, hab⟩ := h
  obtain ⟨b, hb, hbb⟩ := h'
  refine ⟨a ++ b, by rw [hb, ha, List.append_assoc], ?_⟩
  intro l hl
  rcases List.mem_append.mp hl with hl | hl
  · have := hab l hl
    omega
  · exact hbb l hl

theorem upstream_of_append (links new : List (Nat × Nat)) (n m : Nat)
    (h : upstream_of links n = some m) : upstream_of (links ++ new) n = some m := by
  unfold upstream_of at h ⊢
  cases hf : links.find? (fun l => l.2 == n) with
  | none =>
    rw [hf] at h
    cases h
  | some l =>
    rw [hf] at h
    rw [List.find?_append, hf]
    exact h

theorem upstream_of_append_new (links new : List (Nat × Nat)) (n : Nat)
    (h : ∀ l ∈ links, l.2 ≠ n) : upstream_of (links ++ new) n = upstream_of new n := by
  unfold upstream_of
  have : links.find? (fun l => l.2 == n) = none := by
    rw [List.find?_eq_none]
    intro l hl
    simpa using h l hl
  rw [List.find?_append, this]
  rfl

theorem create_raw_tee_links (env : Env Caps) (s : KmsAgnosticBin2 Caps) (raw_caps : Caps)
    (hcur : ∀ t, s.current_tee = some t → t.name < s.element_seq) :
    LinksGrow s (kms_agnostic_bin2_create_raw_tee env s raw_caps).2 := by
  unfold kms_agnostic_bin2_create_raw_tee
  cases hc : s.current_caps with
  | none => exact links_grow_refl s
  | some c =>
    dsimp only
    unfold create_decoder_for_caps
    cases hf : decoder_factory_for_caps env c raw_caps with
    | none => exact links_grow_refl s
    | some f =>
      simp only [gst_element_factory_make, gst_bin_add_many, gst_element_link_many,
        link_queue_to_tee]
      refine ⟨_, by rw [List.append_assoc], ?_⟩
      intro l hl
      cases hct : s.current_tee with
      | none =>
        simp [chain_links, hct] at hl
        rcases hl with rfl | rfl | rfl | rfl <;> dsimp only <;> omega
      | some t =>
        have := hcur t hct
        simp [chain_links, hct] at hl
        rcases hl with rfl | rfl | rfl | rfl | rfl <;> dsimp only <;> omega

theorem get_or_create_raw_tee_links (env : Env Caps) (s s' : KmsAgnosticBin2 Caps)
    (caps : Caps) (r : Option (GstElement Caps))
    (h : kms_agnostic_bin2_get_or_create_raw_tee env s caps = Except.ok (r, s'))
    (hcur : ∀ t, s.current_tee = some t → t.name < s.element_seq) :
    LinksGrow s s' := by
  unfold kms_agnostic_bin2_get_or_create_raw_tee at h
  cases hraw : kms_agnostic_bin2_get_raw_caps env caps with
  | none =>
    simp only [hraw, Except.ok.injEq, Prod.mk.injEq] at h
    obtain ⟨_, rfl⟩ := h
    exact links_grow_of_eq _ _ rfl
  | some raw_caps =>
    simp only [hraw] at h
    cases hfind : kms_agnostic_bin2_find_tee_for_caps env s raw_caps with
    | some t =>
      simp only [hfind, Except.ok.injEq, Prod.mk.injEq] at h
      obtain ⟨_, rfl⟩ := h
      exact links_grow_refl _
    | none =>
      simp only [hfind] at h
      have hl := create_raw_tee_links env s raw_caps hcur
      cases hc : kms_agnostic_bin2_create_raw_tee env s raw_caps with
      | mk r1 s1 =>
        rw [hc] at h hl
        cases r1 with
        | none => cases h
        | some t =>
          simp only [Except.ok.injEq, Prod.mk.injEq] at h
          obtain ⟨_, rfl⟩ := h
          exact hl

/-- The tee `kms_agnostic_bin2_get_or_create_raw_tee` returns carries a name that
has been handed out. -/
theorem get_or_create_raw_tee_name (env : Env Caps) (s s' : KmsAgnosticBin2 Caps)
    (caps : Caps) (r : Option (GstElement Caps))
    (h : kms_agnostic_bin2_get_or_create_raw_tee env s caps = Except.ok (r, s'))
    (htees : ∀ t ∈ s.tees, t.name < s.element_seq)
    (hcur : ∀ t, s.current_tee = some t → t.name < s.element_seq) :
    ∀ t, r = some t → t.name < s'.element_seq := by
  intro t ht
  rcases get_or_create_raw_tee_effect env s s' caps r h with ⟨_, hseq, _, hfound⟩ | ⟨hr, _, hseq, _⟩
  · obtain ⟨raw_caps, _, hfind⟩ := hfound t ht
    rw [hseq]
    rcases find_tee_for_caps_result env s raw_caps t hfind with ⟨_, hc⟩ | ⟨_, hm⟩
    · exact hcur t hc
    · exact htees t hm
  · rw [hr] at ht
    cases ht
    rw [hseq]
    dsimp only
    omega

theorem create_tee_for_caps_links (env : Env Caps) (s s' : KmsAgnosticBin2 Caps)
    (caps : Caps) (r : Option (GstElement Caps))
    (h : kms_agnostic_bin2_create_tee_for_caps env s caps = Except.ok (r, s'))
    (htees : ∀ t ∈ s.tees, t.name < s.element_seq)
    (hcur : ∀ t, s.current_tee = some t → t.name < s.element_seq) :
    LinksGrow s s' := by
  unfold kms_agnostic_bin2_create_tee_for_caps at h
  cases hraw : kms_agnostic_bin2_get_or_create_raw_tee env s caps with
  | error e =>
    rw [hraw] at h
    cases h
  | ok p =>
    obtain ⟨r1, s1⟩ := p
    have hl := get_or_create_raw_tee_links env s s1 caps r1 hraw hcur
    have hname := get_or_create_raw_tee_name env s s1 caps r1 hraw htees hcur
    rw [hraw] at h
    cases r1 with
    | none =>
      simp only [Except.ok.injEq, Prod.mk.injEq] at h
      obtain ⟨_, rfl⟩ := h
      exact hl
    | some raw_tee =>
      have hrt := hname raw_tee rfl
      dsimp only at h
      by_cases hr : is_raw_caps env caps = true
      · rw [if_pos hr] at h
        simp only [Except.ok.injEq, Prod.mk.injEq] at h
        obtain ⟨_, rfl⟩ := h
        exact hl
      · rw [if_neg hr] at h
        unfold create_encoder_for_caps at h
        cases hf : encoder_factory_for_caps env caps with
        | none =>
          simp only [hf, Except.ok.injEq, Prod.mk.injEq] at h
          obtain ⟨_, rfl⟩ := h
          exact hl
        | some f =>
          simp only [hf, gst_element_factory_make, create_rate_for_caps,
            create_convert_for_caps, gst_bin_add_many, gst_element_link_many,
            link_queue_to_tee, Except.ok.injEq, Prod.mk.injEq] at h
          obtain ⟨_, rfl⟩ := h
          refine links_grow_trans hl ⟨_, by dsimp only; rw [List.append_assoc], ?_⟩
            (by dsimp only; omega)
          intro l hl'
          simp [chain_links] at hl'
          rcases hl' with rfl | rfl | rfl | rfl | rfl | rfl | rfl <;> dsimp only <;> omega

theorem resolve_tee_links (env : Env Caps) (s s' : KmsAgnosticBin2 Caps) (caps : Caps)
    (r : Option (GstElement Caps)) (h : resolve_tee env s caps = Except.ok (r, s'))
    (htees : ∀ t ∈ s.tees, t.name < s.element_seq)
    (hcur : ∀ t, s.current_tee = some t → t.name < s.element_seq) :
    LinksGrow s s' := by
  unfold resolve_tee at h
  split at h
  · simp only [Except.ok.injEq, Prod.mk.injEq] at h
    obtain ⟨_, rfl⟩ := h
    exact links_grow_refl _
  · exact create_tee_for_caps_links env s s' caps r h htees hcur

theorem link_to_tee_links (env : Env Caps) (s : KmsAgnosticBin2 Caps) (pad : Nat)
    (tee : GstElement Caps) (caps : Caps) (htee : tee.name < s.element_seq) :
    LinksGrow s (kms_agnostic_bin2_link_to_tee env s pad tee caps) := by
  unfold kms_agnostic_bin2_link_to_tee
  dsimp only
  split
  · simp only [gst_element_factory_make, create_rate_for_caps, create_convert_for_caps,
      gst_bin_add_many, gst_element_link_many, link_queue_to_tee, gst_ghost_pad_set_target]
    refine ⟨_, by dsimp only; rw [List.append_assoc], ?_⟩
    intro l hl
    simp [chain_links] at hl
    rcases hl with rfl | rfl | rfl <;> dsimp only <;> omega
  · simp only [gst_element_factory_make, gst_bin_add_many, link_queue_to_tee,
      gst_ghost_pad_set_target]
    refine ⟨_, rfl, ?_⟩
    intro l hl
    simp at hl
    subst hl
    dsimp only
    omega

theorem link_pad_links (env : Env Caps) (s s' : KmsAgnosticBin2 Caps) (pad : Nat)
    (peer : Peer Caps) (h : kms_agnostic_bin2_link_pad env s pad peer = Except.ok s')
    (htees : ∀ t ∈ s.tees, t.name < s.element_seq)
    (hcur : ∀ t, s.current_tee = some t → t.name < s.element_seq) :
    LinksGrow s s' := by
  unfold kms_agnostic_bin2_link_pad at h
  split at h
  · simp only [Except.ok.injEq] at h
    subst h
    exact links_grow_refl _
  · rename_i caps _
    split at h
    · cases h
    · rename_i tee s1 heq
      simp only [Except.ok.injEq] at h
      subst h
      have hl := resolve_tee_links env s s1 caps _ heq htees hcur
      have hle : s.element_seq ≤ s1.element_seq := (resolve_tee_graph env s s1 caps _ heq).element_seq
      have htee : tee.name < s1.element_seq := by
        rcases (resolve_tee_names env s s1 caps _ heq).2 tee rfl with h | h | h
        · exact Nat.lt_of_lt_of_le (htees tee h) hle
        · exact Nat.lt_of_lt_of_le (hcur tee h) hle
        · exact h.2
      exact links_grow_trans hl (link_to_tee_links env s1 pad tee caps htee)
        (link_to_tee_graph env s1 pad tee caps).element_seq
    · rename_i s1 heq
      simp only [Except.ok.injEq] at h
      subst h
      exact resolve_tee_links env s _ caps _ heq htees hcur

theorem process_pad_links (env : Env Caps) (s s' : KmsAgnosticBin2 Caps) (pad : Option Nat)
    (h : kms_agnostic_bin2_process_pad env s pad = Except.ok s')
    (htees : ∀ t ∈ s.tees, t.name < s.element_seq)
    (hcur : ∀ t, s.current_tee = some t → t.name < s.element_seq) :
    LinksGrow s s' := by
  unfold kms_agnostic_bin2_process_pad at h
  dsimp only at h
  split at h
  · simp only [Except.ok.injEq] at h
    subst h
    exact links_grow_of_eq _ _ rfl
  · split at h
    · simp only [Except.ok.injEq, kms_agnostic_bin2_unlink_pad] at h
      subst h
      exact links_grow_of_eq _ _ rfl
    · have hl := link_pad_links env _ s' _ _ h htees hcur
      exact hl

theorem remove_block_probe_links (s : KmsAgnosticBin2 Caps) :
    (kms_agnostic_bin2_remove_block_probe s).links = s.links
      ∧ (kms_agnostic_bin2_remove_block_probe s).main_tee = s.main_tee := by
  unfold kms_agnostic_bin2_remove_block_probe
  split <;> exact ⟨rfl, rfl⟩

theorem process_pad_loop_links (env : Env Caps) (s s' : KmsAgnosticBin2 Caps)
    (h : kms_agnostic_bin2_process_pad_loop env s = Except.ok s')
    (htees : ∀ t ∈ s.tees, t.name < s.element_seq)
    (hcur : ∀ t, s.current_tee = some t → t.name < s.element_seq) :
    LinksGrow s s' ∧ s'.main_tee = s.main_tee := by
  unfold kms_agnostic_bin2_process_pad_loop at h
  dsimp only at h
  split at h
  · cases h
  · rename_i s1 heq
    have hl := process_pad_links env _ _ _ heq htees hcur
    have hm : s1.main_tee = s.main_tee := (process_pad_graph env _ _ _ heq).main_tee
    split at h
    · simp only [Except.ok.injEq] at h
      subst h
      obtain ⟨h1, h2⟩ := remove_block_probe_links s1
      obtain ⟨h3, _, h4⟩ := remove_block_probe_cache s1
      obtain ⟨new, hnew, hb⟩ := hl
      exact ⟨⟨new, by rw [h1]; exact hnew, by rw [h4]; exact hb⟩, h2.trans hm⟩
    · simp only [Except.ok.injEq] at h
      subst h
      exact ⟨hl, hm⟩

theorem add_pad_to_queue_links (s : KmsAgnosticBin2 Caps) (pad : Nat) :
    (kms_agnostic_bin2_add_pad_to_queue s pad).links = s.links
      ∧ (kms_agnostic_bin2_add_pad_to_queue s pad).main_tee = s.main_tee := by
  unfold kms_agnostic_bin2_add_pad_to_queue
  split
  · exact ⟨rfl, rfl⟩
  · split
    · unfold remove_target_pad kms_agnostic_bin2_set_block_probe gst_ghost_pad_get_target
      dsimp only
      repeat' split
      all_goals exact ⟨rfl, rfl⟩
    · exact ⟨rfl, rfl⟩

theorem foldl_add_pad_to_queue_links (pads : List Nat) (s : KmsAgnosticBin2 Caps) :
    (pads.foldl kms_agnostic_bin2_add_pad_to_queue s).links = s.links
      ∧ (pads.foldl kms_agnostic_bin2_add_pad_to_queue s).main_tee = s.main_tee := by
  induction pads generalizing s with
  | nil => exact ⟨rfl, rfl⟩
  | cons pad rest ih =>
    obtain ⟨h1, h2⟩ := ih (kms_agnostic_bin2_add_pad_to_queue s pad)
    obtain ⟨h3, h4⟩ := add_pad_to_queue_links s pad
    exact ⟨h1.trans h3, h2.trans h4⟩

theorem remove_target_pad_links (s : KmsAgnosticBin2 Caps) (pad : Nat) :
    (remove_target_pad s pad).links = s.links
      ∧ (remove_target_pad s pad).main_tee = s.main_tee := by
  unfold remove_target_pad
  split <;> exact ⟨rfl, rfl⟩

theorem gst_pad_unlink_links (s : KmsAgnosticBin2 Caps) (pad : Nat) :
    (gst_pad_unlink s pad).links = s.links ∧ (gst_pad_unlink s pad).main_tee = s.main_tee := by
  unfold gst_pad_unlink kms_agnostic_bin2_src_unlinked
  exact remove_target_pad_links _ _

/-- The links `kms_agnostic_bin2_disconnect_previous_input_tee` leaves are links
of the state it was called on. -/
theorem disconnect_previous_input_tee_links (s s' : KmsAgnosticBin2 Caps)
    (h : kms_agnostic_bin2_disconnect_previous_input_tee s = Except.ok s') :
    ∃ links, s' = { s with links := links } ∧ ∀ l ∈ links, l ∈ s.links := by
  unfold kms_agnostic_bin2_disconnect_previous_input_tee at h
  repeat' split at h
  all_goals cases h
  · exact ⟨s.links, rfl, fun l hl => hl⟩
  · exact ⟨_, rfl, fun l hl => List.mem_of_mem_erase hl⟩

/-- The walk of `kms_agnostic_bin2_disconnect_previous_input_tee` finds its
elements, and the call returns, when the current input tee is fed over a parser
and a queue that some element feeds. -/
theorem disconnect_previous_input_tee_returns (s : KmsAgnosticBin2 Caps)
    (h : ∀ t, s.current_tee = some t →
      ∃ parser queue tee_src, upstream_of s.links t.name = some parser
        ∧ upstream_of s.links parser = some queue ∧ upstream_of s.links queue = some tee_src) :
    ∃ s', kms_agnostic_bin2_disconnect_previous_input_tee s = Except.ok s' := by
  unfold kms_agnostic_bin2_disconnect_previous_input_tee
  cases hc : s.current_tee with
  | none => exact ⟨s, rfl⟩
  | some t =>
    obtain ⟨p, q, m, h1, h2, h3⟩ := h t hc
    simp only [h1, h2, h3]
    exact ⟨_, rfl⟩

theorem build_input_tee_links (env : Env Caps) (s : KmsAgnosticBin2 Caps) (caps : Caps) :
    (build_input_tee env s caps).links
        = s.links ++ [(s.main_tee.name, s.element_seq), (s.element_seq, s.element_seq + 1),
            (s.element_seq + 1, s.element_seq + 2), (s.element_seq + 2, s.element_seq + 3),
            (s.element_seq + 3, s.element_seq + 4)]
      ∧ (build_input_tee env s caps).main_tee = s.main_tee := by
  simp [build_input_tee, gst_element_factory_make, create_parser_for_caps, gst_bin_add_many,
    gst_element_link_many, chain_links]

theorem upstream_of_cons_eq (a n : Nat) (rest : List (Nat × Nat)) :
    upstream_of ((a, n) :: rest) n = some a := by
  simp [upstream_of, List.find?]

theorem upstream_of_cons_ne (a b n : Nat) (rest : List (Nat × Nat)) (h : b ≠ n) :
    upstream_of ((a, b) :: rest) n = upstream_of rest n := by
  have hb : (b == n) = false := by simpa using h
  simp [upstream_of, List.find?, hb]

theorem graph_wf_of_links_grow (s s' : KmsAgnosticBin2 Caps) (hs : GraphWf s)
    (hl : LinksGrow s s') (hc : s'.current_tee = s.current_tee)
    (hm : s'.main_tee = s.main_tee) (hle : s.element_seq ≤ s'.element_seq)
    (ht : ∀ t ∈ s'.tees, t.name < s'.element_seq) : GraphWf s' := by
  obtain ⟨new, hnew, hb⟩ := hl
  refine ⟨?_, ht, ?_, ?_, ?_⟩
  · rw [hm]
    exact Nat.lt_of_lt_of_le hs.main_tee hle
  · intro t h
    rw [hc] at h
    exact Nat.lt_of_lt_of_le (hs.current_tee t h) hle
  · intro l h
    rw [hnew] at h
    rcases List.mem_append.mp h with h | h
    · have := hs.links l h
      omega
    · exact hb l h
  · intro t h
    rw [hc] at h
    obtain ⟨p, q, m, h1, h2, h3⟩ := hs.input t h
    rw [hnew]
    exact ⟨p, q, m, upstream_of_append _ _ _ _ h1, upstream_of_append _ _ _ _ h2,
      upstream_of_append _ _ _ _ h3⟩

/-- The input subtree `build_input_tee` builds has the shape
`kms_agnostic_bin2_disconnect_previous_input_tee` walks over: the new tee is
fed by the parser, the parser by the input queue, the input queue by the main
tee. -/
theorem build_input_tee_wf (env : Env Caps) (s : KmsAgnosticBin2 Caps) (caps : Caps)
    (hm : s.main_tee.name < s.element_seq)
    (hl : ∀ l ∈ s.links, l.1 < s.element_seq ∧ l.2 < s.element_seq) :
    GraphWf (build_input_tee env s caps) := by
  obtain ⟨c1, c2, c3⟩ := build_input_tee_cache env s caps
  obtain ⟨l1, l2⟩ := build_input_tee_links env s caps
  refine ⟨?_, ?_, ?_, ?_, ?_⟩
  · rw [l2, c3]
    omega
  · intro t h
    rw [c1] at h
    cases h
  · intro t h
    rw [c2] at h
    cases h
    rw [c3]
    dsimp only
    omega
  · intro l h
    rw [l1] at h
    rw [c3]
    rcases List.mem_append.mp h with h | h
    · have := hl l h
      omega
    · simp at h
      rcases h with rfl | rfl | rfl | rfl | rfl <;> dsimp only <;> omega
  · intro t h
    rw [c2] at h
    cases h
    rw [l1]
    refine ⟨s.element_seq + 1, s.element_seq, s.main_tee.name, ?_, ?_, ?_⟩
    · dsimp only
      rw [upstream_of_append_new _ _ _ (fun l h => by have := hl l h; omega),
        upstream_of_cons_ne _ _ _ _ (by omega), upstream_of_cons_ne _ _ _ _ (by omega),
        upstream_of_cons_eq]
    · rw [upstream_of_append_new _ _ _ (fun l h => by have := hl l h; omega),
        upstream_of_cons_ne _ _ _ _ (by omega), upstream_of_cons_eq]
    · rw [upstream_of_append_new _ _ _ (fun l h => by have := hl l h; omega),
        upstream_of_cons_eq]

theorem configure_input_tee_wf (env : Env Caps) (s s' : KmsAgnosticBin2 Caps) (caps : Caps)
    (h : kms_agnostic_bin2_configure_input_tee env s caps = Except.ok s')
    (hm : s.main_tee.name < s.element_seq)
    (hl : ∀ l ∈ s.links, l.1 < s.element_seq ∧ l.2 < s.element_seq) : GraphWf s' := by
  unfold kms_agnostic_bin2_configure_input_tee at h
  split at h
  · cases h
  · rename_i s1 hd
    obtain ⟨l, rfl, hsub⟩ := disconnect_previous_input_tee_links s s1 hd
    simp only [Except.ok.injEq] at h
    subst h
    exact build_input_tee_wf env _ caps hm (fun x hx => hl x (hsub x hx))

theorem init_graph_wf : GraphWf (kms_agnostic_bin2_init : KmsAgnosticBin2 Caps) := by
  refine ⟨?_, ?_, ?_, ?_, ?_⟩
  · simp [kms_agnostic_bin2_init]
  · intro t h
    cases h
  · intro t h
    cases h
  · intro l h
    simp [kms_agnostic_bin2_init] at h
    rcases h with rfl | rfl <;> simp [kms_agnostic_bin2_init]
  · intro t h
    cases h

/-- Every operation keeps the element graph well formed. -/
theorem step_graph_wf (env : Env Caps) (s s' : KmsAgnosticBin2 Caps) (h : Step env s s')
    (hs : GraphWf s) (hp : ∀ n ∈ s.input_caps_probes, n < s.element_seq) : GraphWf s' := by
  obtain ⟨n1, n2, n3⟩ := step_names env s s' h
  have ht : ∀ t ∈ s'.tees, t.name < s'.element_seq := by
    intro t h
    rcases n1 t h with h | h | h
    · exact Nat.lt_of_lt_of_le (hs.tees t h) n3
    · exact Nat.lt_of_lt_of_le (hp _ h.2) n3
    · exact h.2
  have same : ∀ x : KmsAgnosticBin2 Caps, x = s' → x.links = s.links → x.main_tee = s.main_tee →
      x.current_tee = s.current_tee → GraphWf s' := by
    intro x hx h1 h2 h3
    subst hx
    exact graph_wf_of_links_grow s _ hs (links_grow_of_eq _ _ h1) h3 h2 n3 ht
  cases h with
  | add_pad_to_queue pad =>
    exact same _ rfl (add_pad_to_queue_links s pad).1 (add_pad_to_queue_links s pad).2
      (add_pad_to_queue_cache s pad).2.1
  | src_reconfigure_probe block event pad _ =>
    refine same _ rfl ?_ ?_ ?_ <;>
    · unfold kms_agnostic_bin2_src_reconfigure_probe
      split
      · rfl
      · split
        · first
            | exact (add_pad_to_queue_links s pad).1
            | exact (add_pad_to_queue_links s pad).2
            | exact (add_pad_to_queue_cache s pad).2.1
        · rfl
  | process_pad_loop _ hl =>
    obtain ⟨g1, g2⟩ := process_pad_loop_links env s s' hl hs.tees hs.current_tee
    exact graph_wf_of_links_grow s s' hs g1 (process_pad_loop_names env s s' hl).2.1 g2 n3 ht
  | sink_caps_probe _ event ret hp =>
    rcases sink_caps_probe_ok env s s' event ret hp with rfl | ⟨new_caps, rfl | hc⟩
    · exact hs
    · exact same _ rfl rfl rfl rfl
    · exact configure_input_tee_wf env _ s' new_caps hc hs.main_tee hs.links
  | set_input_caps current_caps tee _ _ => exact same _ rfl rfl rfl rfl
  | request_new_pad =>
    refine same _ rfl ?_ ?_ ?_ <;>
    · unfold kms_agnostic_bin2_request_new_pad
      dsimp only
      split <;> rfl
  | release_pad pad =>
    refine same _ rfl ?_ ?_ ?_ <;>
    · unfold kms_agnostic_bin2_release_pad
      dsimp only
      split
      · first
          | exact (gst_pad_unlink_links s pad).1
          | exact (gst_pad_unlink_links s pad).2
          | exact (gst_pad_unlink_cache s pad).2.1
      · rfl
  | pad_link pad peer => exact same _ rfl rfl rfl rfl
  | pad_unlink pad =>
    exact same _ rfl (gst_pad_unlink_links s pad).1 (gst_pad_unlink_links s pad).2
      (gst_pad_unlink_cache s pad).2.1

/-- In every reachable state the element graph is well formed. -/
theorem reachable_graph_wf (env : Env Caps) (s : KmsAgnosticBin2 Caps)
    (h : Reachable env s) : GraphWf s := by
  induction h with
  | init => exact init_graph_wf
  | step s s' hs hstep ih =>
    exact step_graph_wf env s s' hstep ih (reachable_probes env s hs).1

/-- In every reachable state `kms_agnostic_bin2_sink_caps_probe` returns: the
walk of `kms_agnostic_bin2_disconnect_previous_input_tee` never meets a NULL
pad. -/
theorem reachable_sink_caps_probe_returns (env : Env Caps) (s : KmsAgnosticBin2 Caps)
    (h : Reachable env s) (event : GstEvent Caps) :
    ∃ s', kms_agnostic_bin2_sink_caps_probe env s event
      = Except.ok (GstPadProbeReturn.GST_PAD_PROBE_OK, s') := by
  have hw := reachable_graph_wf env s h
  have hconf : ∀ new_caps, ∃ s',
      probe_return GstPadProbeReturn.GST_PAD_PROBE_OK
        (kms_agnostic_bin2_configure_input_tee env { s with last_caps := some new_caps } new_caps)
        = Except.ok (GstPadProbeReturn.GST_PAD_PROBE_OK, s') := by
    intro new_caps
    obtain ⟨s1, h1⟩ :=
      disconnect_previous_input_tee_returns { s with last_caps := some new_caps } hw.input
    unfold kms_agnostic_bin2_configure_input_tee probe_return
    rw [h1]
    exact ⟨_, rfl⟩
  unfold kms_agnostic_bin2_sink_caps_probe
  split
  · rename_i new_caps
    dsimp only
    split
    · split
      · exact hconf new_caps
      · exact ⟨_, rfl⟩
    · exact hconf new_caps
  · exact ⟨_, rfl⟩

/-! ### The wildcard target -/

/-- C17. For a wildcard (ANY) target `kms_agnostic_bin2_find_tee_for_caps`
returns the current input tee, whatever the fan-out cache holds: the result is
the same for every content of `tees`. -/
theorem find_tee_for_caps_wildcard (env : Env Caps) (s : KmsAgnosticBin2 Caps) (caps : Caps)
    (hany : env.gst_caps_is_any caps = true) :
    kms_agnostic_bin2_find_tee_for_caps env s caps = s.current_tee
      ∧ ∀ tees : List (GstElement Caps),
          kms_agnostic_bin2_find_tee_for_caps env { s with tees := tees } caps = s.current_tee := by
  constructor
  · unfold kms_agnostic_bin2_find_tee_for_caps
    rw [if_pos hany]
  · intro tees
    unfold kms_agnostic_bin2_find_tee_for_caps
    rw [if_pos hany]

/-- C17 at a concrete state: the cache of `one_port_processed` holds three tees,
the wildcard resolves to the input tee (element 5). -/
theorem find_tee_for_caps_wildcard_witness :
    video_env.gst_caps_is_any SimpleCaps.any = true
      ∧ kms_agnostic_bin2_find_tee_for_caps video_env one_port_processed SimpleCaps.any
          = one_port_processed.current_tee
      ∧ ∀ tees : List (GstElement SimpleCaps),
          kms_agnostic_bin2_find_tee_for_caps video_env
            { one_port_processed with tees := tees } SimpleCaps.any
            = one_port_processed.current_tee :=
  ⟨rfl, find_tee_for_caps_wildcard video_env one_port_processed SimpleCaps.any rfl⟩

/-! ### Ports attached before the input format is known -/

/-- C15. While `started` is false `kms_agnostic_bin2_add_pad_to_queue` returns
the state it was called on: the queue, the gate, the target of every output
port (the requested one included) and the loop with its scheduled worker steps
are unchanged. -/
theorem add_pad_to_queue_before_start (s : KmsAgnosticBin2 Caps) (pad : Nat)
    (hstarted : s.started = false) :
    kms_agnostic_bin2_add_pad_to_queue s pad = s
      ∧ (kms_agnostic_bin2_add_pad_to_queue s pad).pads_to_link = s.pads_to_link
      ∧ (kms_agnostic_bin2_add_pad_to_queue s pad).block_probe = s.block_probe
      ∧ (∀ p, gst_ghost_pad_get_target (kms_agnostic_bin2_add_pad_to_queue s pad) p
            = gst_ghost_pad_get_target s p)
      ∧ (kms_agnostic_bin2_add_pad_to_queue s pad).loop = s.loop := by
  have h : kms_agnostic_bin2_add_pad_to_queue s pad = s := by
    unfold kms_agnostic_bin2_add_pad_to_queue
    simp [hstarted]
  rw [h]
  exact ⟨rfl, rfl, rfl, fun _ => rfl, rfl⟩

/-- C15 at a concrete state: a port requested on the new router, before any
input format, is not queued and has no target. -/
theorem add_pad_to_queue_before_start_witness :
    unstarted_port.started = false
      ∧ gst_ghost_pad_get_target unstarted_port 0 = none
      ∧ kms_agnostic_bin2_add_pad_to_queue unstarted_port 0 = unstarted_port
      ∧ (kms_agnostic_bin2_add_pad_to_queue unstarted_port 0).pads_to_link
          = unstarted_port.pads_to_link
      ∧ (kms_agnostic_bin2_add_pad_to_queue unstarted_port 0).block_probe
          = unstarted_port.block_probe
      ∧ (∀ p, gst_ghost_pad_get_target (kms_agnostic_bin2_add_pad_to_queue unstarted_port 0) p
            = gst_ghost_pad_get_target unstarted_port p)
      ∧ (kms_agnostic_bin2_add_pad_to_queue unstarted_port 0).loop = unstarted_port.loop :=
  ⟨rfl, rfl, add_pad_to_queue_before_start unstarted_port 0 rfl⟩

/-! ### Parser discovery -/

theorem select_factory_filter (p : GstElementFactory Caps → Bool)
    (l : List (GstElementFactory Caps)) :
    select_factory (l.filter p)
      = l.find? (fun f => p f && gst_element_factory_get_num_pad_templates f == 2) := by
  induction l with
  | nil => rfl
  | cons f rest ih =>
    by_cases hp : p f = true
    · rw [List.filter_cons_of_pos hp]
      by_cases hn : gst_element_factory_get_num_pad_templates f = 2
      · simp [select_factory, hp, hn]
      · have hne : (gst_element_factory_get_num_pad_templates f == 2) = false := by simpa using hn
        simp [select_factory, hp, hn, hne, ih]
    · rw [List.filter_cons_of_neg hp]
      simp [hp, ih]

theorem parser_factory_for_caps_eq (env : Env Caps) (caps : Caps) :
    parser_factory_for_caps env caps = env.parser_list.find? (parser_qualifies env caps) := by
  unfold parser_factory_for_caps gst_element_factory_list_filter
  rw [select_factory_filter]
  rfl

/-- C18. `create_parser_for_caps` always returns an element (a newly named one):
an element of the first factory of the registry's parser list that qualifies,
or an `identity` element, and the latter exactly when no factory of the list
qualifies. -/
theorem create_parser_for_caps_total (env : Env Caps) (s : KmsAgnosticBin2 Caps)
    (caps : Caps) :
    (create_parser_for_caps env s caps).1.name = s.element_seq
      ∧ (create_parser_for_caps env s caps).1.kind
          = (match env.parser_list.find? (parser_qualifies env caps) with
             | some f => ElementKind.created f
             | none => ElementKind.identity)
      ∧ ((create_parser_for_caps env s caps).1.kind = ElementKind.identity
          ↔ ∀ f ∈ env.parser_list, parser_qualifies env caps f = false) := by
  have hk : (create_parser_for_caps env s caps).1.kind
      = (match env.parser_list.find? (parser_qualifies env caps) with
         | some f => ElementKind.created f
         | none => ElementKind.identity) := by
    unfold create_parser_for_caps gst_element_factory_make
    rw [parser_factory_for_caps_eq]
  refine ⟨rfl, hk, ?_⟩
  rw [hk]
  cases hf : env.parser_list.find? (parser_qualifies env caps) with
  | none =>
    simp only [true_iff]
    intro f hmem
    have := List.find?_eq_none.mp hf f hmem
    simpa using this
  | some f =>
    constructor
    · intro h
      cases h
    · intro h
      have hq := List.find?_some hf
      have hm := List.mem_of_find?_eq_some hf
      rw [h f hm] at hq
      cases hq

/-! ### Reuse of the raw fan-out point -/

theorem get_or_create_raw_tee_cached (env : Env Caps) (s : KmsAgnosticBin2 Caps)
    (caps raw_caps : Caps) (raw_tee : GstElement Caps)
    (hkind : kms_agnostic_bin2_get_raw_caps env caps = some raw_caps)
    (hcached : kms_agnostic_bin2_find_tee_for_caps env s raw_caps = some raw_tee) :
    kms_agnostic_bin2_get_or_create_raw_tee env s caps = Except.ok (some raw_tee, s) := by
  unfold kms_agnostic_bin2_get_or_create_raw_tee
  simp only [hkind, hcached]

/-- The raw stage returns when a decoder qualifies whenever the raw tee has to
be built; it leaves the output ports alone, and the trace too when the target
is audio or video. -/
theorem get_or_create_raw_tee_returns (env : Env Caps) (s : KmsAgnosticBin2 Caps) (caps : Caps)
    (hdecoder : ∀ raw_caps, kms_agnostic_bin2_get_raw_caps env caps = some raw_caps →
      kms_agnostic_bin2_find_tee_for_caps env s raw_caps = none →
      ∃ c f, s.current_caps = some c ∧ decoder_factory_for_caps env c raw_caps = some f) :
    ∃ r1 s1, kms_agnostic_bin2_get_or_create_raw_tee env s caps = Except.ok (r1, s1)
      ∧ s1.src_pads = s.src_pads
      ∧ (kms_agnostic_bin2_get_raw_caps env caps ≠ none → s1.trace = s.trace) := by
  unfold kms_agnostic_bin2_get_or_create_raw_tee
  cases hraw : kms_agnostic_bin2_get_raw_caps env caps with
  | none => exact ⟨_, _, rfl, rfl, fun h => absurd rfl h⟩
  | some raw_caps =>
    dsimp only
    cases hfind : kms_agnostic_bin2_find_tee_for_caps env s raw_caps with
    | some t => exact ⟨_, _, rfl, rfl, fun _ => rfl⟩
    | none =>
      obtain ⟨c, f, hc, hf⟩ := hdecoder raw_caps hraw hfind
      dsimp only
      unfold kms_agnostic_bin2_create_raw_tee create_decoder_for_caps
      simp only [hc, hf, gst_element_factory_make, gst_bin_add_many, gst_element_link_many,
        link_queue_to_tee]
      exact ⟨_, _, rfl, rfl, fun _ => rfl⟩

/-- Without an encoder for an encoded target,
`kms_agnostic_bin2_create_tee_for_caps` returns NULL on the state the raw stage
left. -/
theorem create_tee_for_caps_no_encoder (env : Env Caps) (s s1 : KmsAgnosticBin2 Caps)
    (caps : Caps) (r1 : Option (GstElement Caps))
    (hencoded : is_raw_caps env caps = false)
    (hencoder : encoder_factory_for_caps env caps = none)
    (hraw : kms_agnostic_bin2_get_or_create_raw_tee env s caps = Except.ok (r1, s1)) :
    kms_agnostic_bin2_create_tee_for_caps env s caps = Except.ok (none, s1) := by
  unfold kms_agnostic_bin2_create_tee_for_caps
  rw [hraw]
  cases r1 with
  | none => rfl
  | some raw_tee =>
    have hr : ¬ (is_raw_caps env caps = true) := by simp [hencoded]
    dsimp only
    rw [if_neg hr]
    unfold create_encoder_for_caps
    simp only [hencoder]

/-- The link request of a port whose target matches no cached tee, is encoded
and has no encoder: when the raw stage returns on `s1`, so does
`kms_agnostic_bin2_link_pad`. -/
theorem link_pad_no_encoder (env : Env Caps) (s s1 : KmsAgnosticBin2 Caps) (pad : Nat)
    (peer : Peer Caps) (caps : Caps) (r1 : Option (GstElement Caps))
    (hquery : peer.query_caps = some caps)
    (hmiss : kms_agnostic_bin2_find_tee_for_caps env s caps = none)
    (hencoded : is_raw_caps env caps = false)
    (hencoder : encoder_factory_for_caps env caps = none)
    (hraw : kms_agnostic_bin2_get_or_create_raw_tee env s caps = Except.ok (r1, s1)) :
    kms_agnostic_bin2_link_pad env s pad peer = Except.ok s1 := by
  unfold kms_agnostic_bin2_link_pad resolve_tee
  simp only [hquery, hmiss,
    create_tee_for_caps_no_encoder env s s1 caps r1 hencoded hencoder hraw]

/-- C11 as stated fails: in `theora_only_env` no encoder qualifies for VP8, yet
the port that asks for VP8 is linked, to the input tee that carries VP8 (its
target becomes the new queue, element 8). -/
theorem infeasible_request_counterexample :
    encoder_factory_for_caps theora_only_env (SimpleCaps.formats [Format.vp8]) = none
      ∧ gst_ghost_pad_get_target (theora_only_port vp8_peer) 0 = none
      ∧ kms_agnostic_bin2_link_pad theora_only_env (theora_only_port vp8_peer) 0 vp8_peer
          = Except.ok (theora_only_linked vp8_peer)
      ∧ gst_ghost_pad_get_target (theora_only_linked vp8_peer) 0 = some 8 :=
  ⟨rfl, by decide, rfl, by decide⟩

/-- C11, amended. For a target that matches no cached tee, is not raw and has
no encoder, `kms_agnostic_bin2_link_pad` returns (a decoder qualifying whenever
the raw tee has to be built) and leaves every output port as it was: the
requested port keeps the target it had (none, after
`kms_agnostic_bin2_add_pad_to_queue`), every other port keeps its own. -/
theorem infeasible_request_non_fatal (env : Env Caps) (s : KmsAgnosticBin2 Caps) (pad : Nat)
    (peer : Peer Caps) (caps : Caps)
    (hquery : peer.query_caps = some caps)
    (hmiss : kms_agnostic_bin2_find_tee_for_caps env s caps = none)
    (hencoded : is_raw_caps env caps = false)
    (hencoder : encoder_factory_for_caps env caps = none)
    (hdecoder : ∀ raw_caps, kms_agnostic_bin2_get_raw_caps env caps = some raw_caps →
      kms_agnostic_bin2_find_tee_for_caps env s raw_caps = none →
      ∃ c f, s.current_caps = some c ∧ decoder_factory_for_caps env c raw_caps = some f) :
    ∃ s', kms_agnostic_bin2_link_pad env s pad peer = Except.ok s'
      ∧ s'.src_pads = s.src_pads
      ∧ ∀ p, gst_ghost_pad_get_target s' p = gst_ghost_pad_get_target s p := by
  obtain ⟨r1, s1, hraw, hpads, _⟩ := get_or_create_raw_tee_returns env s caps hdecoder
  refine ⟨s1, link_pad_no_encoder env s s1 pad peer caps r1 hquery hmiss hencoded hencoder hraw,
    hpads, ?_⟩
  intro p
  unfold gst_ghost_pad_get_target
  rw [hpads]

/-- C11, amended, at a concrete run: in `theora_only_env` the port that asks for
H.264 (no encoder, VP8 input) is left without target. -/
theorem infeasible_request_non_fatal_witness :
    gst_ghost_pad_get_target (theora_only_port h264_peer) 0 = none
      ∧ ∃ s', kms_agnostic_bin2_link_pad theora_only_env (theora_only_port h264_peer) 0 h264_peer
            = Except.ok s'
          ∧ s'.src_pads = (theora_only_port h264_peer).src_pads
          ∧ ∀ p, gst_ghost_pad_get_target s' p
              = gst_ghost_pad_get_target (theora_only_port h264_peer) p :=
  ⟨by decide,
   infeasible_request_non_fatal theora_only_env (theora_only_port h264_peer) 0 h264_peer
     (SimpleCaps.formats [Format.h264]) rfl rfl rfl rfl
     (fun raw_caps hraw _ => by
       cases hraw
       exact ⟨SimpleCaps.formats [Format.vp8], vp8dec, rfl, rfl⟩)⟩

/-- C12 as stated fails: in `theora_only_env`, with the VP8 input and an empty
cache but for the input tee, `kms_agnostic_bin2_create_tee_for_caps` for H.264
finds no encoder and returns NULL, but the decode branch built by the raw stage
stays: five elements more in the bin and the raw tee (element 10) in the
cache. -/
theorem encoder_failure_counterexample :
    encoder_factory_for_caps theora_only_env (SimpleCaps.formats [Format.h264]) = none
      ∧ kms_agnostic_bin2_create_tee_for_caps theora_only_env (theora_only_port h264_peer)
          (SimpleCaps.formats [Format.h264]) = Except.ok (none, theora_only_linked h264_peer)
      ∧ (theora_only_port h264_peer).tees.map (fun t => t.name) = [5]
      ∧ (theora_only_linked h264_peer).tees.map (fun t => t.name) = [5, 10]
      ∧ (theora_only_port h264_peer).children.length = 8
      ∧ (theora_only_linked h264_peer).children.length = 13 :=
  ⟨rfl, rfl, by decide, by decide, by decide, by decide⟩

/-- C12, amended. When no encoder qualifies for an encoded target,
`kms_agnostic_bin2_create_tee_for_caps` returns NULL on the state the raw stage
left, adding nothing of its own: the state is unchanged when the raw tee was
found in the cache, and holds the decode branch (queue, decoder, tee, and the
queue and fakesink behind it) with its tee registered when the raw stage built
it. -/
theorem encoder_failure_keeps_raw_stage (env : Env Caps) (s : KmsAgnosticBin2 Caps)
    (caps : Caps)
    (hencoded : is_raw_caps env caps = false)
    (hencoder : encoder_factory_for_caps env caps = none) :
    (∀ r1 s1, kms_agnostic_bin2_get_or_create_raw_tee env s caps = Except.ok (r1, s1) →
        kms_agnostic_bin2_create_tee_for_caps env s caps = Except.ok (none, s1))
      ∧ (∀ raw_caps raw_tee, kms_agnostic_bin2_get_raw_caps env caps = some raw_caps →
          kms_agnostic_bin2_find_tee_for_caps env s raw_caps = some raw_tee →
          kms_agnostic_bin2_create_tee_for_caps env s caps = Except.ok (none, s))
      ∧ (∀ raw_caps c f, kms_agnostic_bin2_get_raw_caps env caps = some raw_caps →
          kms_agnostic_bin2_find_tee_for_caps env s raw_caps = none →
          s.current_caps = some c → decoder_factory_for_caps env c raw_caps = some f →
          ∃ s', kms_agnostic_bin2_create_tee_for_caps env s caps = Except.ok (none, s')
            ∧ s'.children = s.children ++
                [{ name := s.element_seq + 1, kind := ElementKind.queue },
                 { name := s.element_seq, kind := ElementKind.created f },
                 { name := s.element_seq + 2, kind := ElementKind.tee },
                 { name := s.element_seq + 3, kind := ElementKind.queue },
                 { name := s.element_seq + 4, kind := ElementKind.fakesink }]
            ∧ s'.tees = g_hash_table_insert s.tees
                { name := s.element_seq + 2, kind := ElementKind.tee }
            ∧ s'.links = s.links ++
                [(s.element_seq + 1, s.element_seq), (s.element_seq, s.element_seq + 2),
                 (s.element_seq + 2, s.element_seq + 3), (s.element_seq + 3, s.element_seq + 4)]
                ++ (match s.current_tee with
                    | some t => [(t.name, s.element_seq + 1)]
                    | none => [])) := by
  refine ⟨?_, ?_, ?_⟩
  · intro r1 s1 hraw
    exact create_tee_for_caps_no_encoder env s s1 caps r1 hencoded hencoder hraw
  · intro raw_caps raw_tee hkind hcached
    exact create_tee_for_caps_no_encoder env s s caps _ hencoded hencoder
      (get_or_create_raw_tee_cached env s caps raw_caps raw_tee hkind hcached)
  · intro raw_caps c f hkind hfind hc hf
    have hraw : ∃ s', kms_agnostic_bin2_get_or_create_raw_tee env s caps
          = Except.ok (some { name := s.element_seq + 2, kind := ElementKind.tee }, s')
        ∧ s'.children = s.children ++
            [{ name := s.element_seq + 1, kind := ElementKind.queue },
             { name := s.element_seq, kind := ElementKind.created f },
             { name := s.element_seq + 2, kind := ElementKind.tee },
             { name := s.element_seq + 3, kind := ElementKind.queue },
             { name := s.element_seq + 4, kind := ElementKind.fakesink }]
        ∧ s'.tees = g_hash_table_insert s.tees
            { name := s.element_seq + 2, kind := ElementKind.tee }
        ∧ s'.links = s.links ++
            [(s.element_seq + 1, s.element_seq), (s.element_seq, s.element_seq + 2),
             (s.element_seq + 2, s.element_seq + 3), (s.element_seq + 3, s.element_seq + 4)]
            ++ (match s.current_tee with
                | some t => [(t.name, s.element_seq + 1)]
                | none => []) := by
      unfold kms_agnostic_bin2_get_or_create_raw_tee kms_agnostic_bin2_create_raw_tee
        create_decoder_for_caps
      simp only [hkind, hfind, hc, hf, gst_element_factory_make, gst_bin_add_many,
        gst_element_link_many, link_queue_to_tee]
      refine ⟨_, rfl, ?_, ?_, ?_⟩
      · simp
      · simp
      · simp [chain_links, Nat.add_assoc]
    obtain ⟨s', h1, h2, h3, h4⟩ := hraw
    exact ⟨s', create_tee_for_caps_no_encoder env s s' caps _ hencoded hencoder h1, h2, h3, h4⟩

/-- C12, amended, at the concrete run of the counterexample: the call returns
NULL and the cache holds the input tee and the raw tee the raw stage built. -/
theorem encoder_failure_keeps_raw_stage_witness :
    ∃ s', kms_agnostic_bin2_create_tee_for_caps theora_only_env (theora_only_port h264_peer)
          (SimpleCaps.formats [Format.h264]) = Except.ok (none, s')
      ∧ s'.tees = g_hash_table_insert (theora_only_port h264_peer).tees
          { name := (theora_only_port h264_peer).element_seq + 2, kind := ElementKind.tee } := by
  obtain ⟨s', h1, _, h3, _⟩ :=
    (encoder_failure_keeps_raw_stage theora_only_env (theora_only_port h264_peer)
      (SimpleCaps.formats [Format.h264]) rfl rfl).2.2
      (SimpleCaps.formats [Format.raw_video]) (SimpleCaps.formats [Format.vp8]) vp8dec
      rfl rfl rfl rfl
  exact ⟨s', h1, h3⟩

/-! ### What is reported when a request cannot be served -/

/-- C13 as stated fails: in `theora_only_env` the port that asks for H.264 cannot
be served because no encoder qualifies; `kms_agnostic_bin2_link_pad` returns,
the port has no target, and no warning has been posted (the trace is still
empty). -/
theorem negotiation_failure_counterexample :
    encoder_factory_for_caps theora_only_env (SimpleCaps.formats [Format.h264]) = none
      ∧ kms_agnostic_bin2_link_pad theora_only_env (theora_only_port h264_peer) 0 h264_peer
          = Except.ok (theora_only_linked h264_peer)
      ∧ gst_ghost_pad_get_target (theora_only_linked h264_peer) 0 = none
      ∧ (theora_only_linked h264_peer).trace = [] :=
  ⟨rfl, rfl, by decide, by decide⟩

/-- C13, amended. For a target that matches no cached tee:
when it is neither audio nor video, `kms_agnostic_bin2_link_pad` posts the
warning of `kms_agnostic_bin2_get_or_create_raw_tee` and changes nothing else,
so the port is left as it was; when it is audio or video, encoded and without
an encoder (a decoder qualifying whenever the raw tee has to be built), the
function returns without any warning and leaves every port as it was. -/
theorem negotiation_failure_report (env : Env Caps) (s : KmsAgnosticBin2 Caps) (pad : Nat)
    (peer : Peer Caps) (caps : Caps)
    (hquery : peer.query_caps = some caps)
    (hmiss : kms_agnostic_bin2_find_tee_for_caps env s caps = none) :
    (kms_agnostic_bin2_get_raw_caps env caps = none →
        kms_agnostic_bin2_link_pad env s pad peer
          = Except.ok { s with trace := s.trace ++ [TraceEvent.element_warning] })
      ∧ (kms_agnostic_bin2_get_raw_caps env caps ≠ none →
          is_raw_caps env caps = false →
          encoder_factory_for_caps env caps = none →
          (∀ raw_caps, kms_agnostic_bin2_get_raw_caps env caps = some raw_caps →
            kms_agnostic_bin2_find_tee_for_caps env s raw_caps = none →
            ∃ c f, s.current_caps = some c ∧ decoder_factory_for_caps env c raw_caps = some f) →
          ∃ s', kms_agnostic_bin2_link_pad env s pad peer = Except.ok s'
            ∧ s'.trace = s.trace ∧ s'.src_pads = s.src_pads) := by
  constructor
  · intro hkind
    unfold kms_agnostic_bin2_link_pad resolve_tee kms_agnostic_bin2_create_tee_for_caps
      kms_agnostic_bin2_get_or_create_raw_tee
    simp only [hquery, hmiss, hkind]
  · intro hkind hencoded hencoder hdecoder
    obtain ⟨r1, s1, hraw, hpads, htrace⟩ := get_or_create_raw_tee_returns env s caps hdecoder
    exact ⟨s1, link_pad_no_encoder env s s1 pad peer caps r1 hquery hmiss hencoded hencoder hraw,
      htrace hkind, hpads⟩

/-- C13, amended, at concrete runs in `theora_only_env`: the port that asks for
empty caps gets the warning, the port that asks for H.264 gets none. -/
theorem negotiation_failure_report_witness :
    kms_agnostic_bin2_link_pad theora_only_env (theora_only_port empty_peer) 0 empty_peer
        = Except.ok { theora_only_port empty_peer with
            trace := (theora_only_port empty_peer).trace ++ [TraceEvent.element_warning] }
      ∧ ∃ s', kms_agnostic_bin2_link_pad theora_only_env (theora_only_port h264_peer) 0 h264_peer
            = Except.ok s'
          ∧ s'.trace = (theora_only_port h264_peer).trace
          ∧ s'.src_pads = (theora_only_port h264_peer).src_pads :=
  ⟨(negotiation_failure_report theora_only_env (theora_only_port empty_peer) 0 empty_peer
      (SimpleCaps.formats []) rfl rfl).1 rfl,
   (negotiation_failure_report theora_only_env (theora_only_port h264_peer) 0 h264_peer
      (SimpleCaps.formats [Format.h264]) rfl rfl).2 (by decide) rfl rfl
      (fun raw_caps hraw _ => by
        cases hraw
        exact ⟨SimpleCaps.formats [Format.vp8], vp8dec, rfl, rfl⟩)⟩

/-! ### Re-enqueueing the output ports after a reconfiguration -/

theorem remove_block_probe_eq (s : KmsAgnosticBin2 Caps) :
    kms_agnostic_bin2_remove_block_probe s = { s with block_probe := 0 } := by
  unfold kms_agnostic_bin2_remove_block_probe
  split
  · rfl
  · rename_i h
    have h0 : s.block_probe = 0 := by simpa using h
    cases s
    simp_all

theorem remove_target_pad_ids (s : KmsAgnosticBin2 Caps) (pad : Nat) :
    (remove_target_pad s pad).src_pads.map (fun p => p.id) = s.src_pads.map (fun p => p.id) := by
  unfold remove_target_pad
  split
  · simp only [gst_ghost_pad_set_target, List.map_map]
    apply List.map_congr_left
    intro p _
    simp only [Function.comp]
    split <;> rfl
  · rfl

theorem set_block_probe_src_pads (s : KmsAgnosticBin2 Caps) :
    (kms_agnostic_bin2_set_block_probe s).src_pads = s.src_pads := by
  unfold kms_agnostic_bin2_set_block_probe
  split <;> rfl

/-- On a started router an enqueue request leaves the port in the queue, keeps
what was queued, and keeps the router started and its ports attached. -/
theorem add_pad_to_queue_started (s : KmsAgnosticBin2 Caps) (pad : Nat)
    (hstarted : s.started = true) :
    (kms_agnostic_bin2_add_pad_to_queue s pad).started = true
      ∧ pad ∈ (kms_agnostic_bin2_add_pad_to_queue s pad).pads_to_link
      ∧ (∀ q ∈ s.pads_to_link, q ∈ (kms_agnostic_bin2_add_pad_to_queue s pad).pads_to_link)
      ∧ (kms_agnostic_bin2_add_pad_to_queue s pad).src_pads.map (fun p => p.id)
          = s.src_pads.map (fun p => p.id) := by
  by_cases hq : pad ∈ s.pads_to_link
  · rw [add_pad_to_queue_queued s pad hq]
    exact ⟨hstarted, hq, fun q h => h, rfl⟩
  · rw [add_pad_to_queue_accepted s pad hstarted hq]
    refine ⟨?_, ?_, ?_, ?_⟩
    · simpa using hstarted
    · simp
    · intro q h
      simp [h]
    · show (remove_target_pad (kms_agnostic_bin2_set_block_probe s) pad).src_pads.map
          (fun p => p.id) = s.src_pads.map (fun p => p.id)
      rw [remove_target_pad_ids, set_block_probe_src_pads]

theorem foldl_add_pad_to_queue_started (pads : List Nat) (s : KmsAgnosticBin2 Caps)
    (hstarted : s.started = true) :
    (pads.foldl kms_agnostic_bin2_add_pad_to_queue s).started = true
      ∧ (∀ p ∈ pads, p ∈ (pads.foldl kms_agnostic_bin2_add_pad_to_queue s).pads_to_link)
      ∧ (∀ q ∈ s.pads_to_link, q ∈ (pads.foldl kms_agnostic_bin2_add_pad_to_queue s).pads_to_link)
      ∧ (pads.foldl kms_agnostic_bin2_add_pad_to_queue s).src_pads.map (fun p => p.id)
          = s.src_pads.map (fun p => p.id) := by
  induction pads generalizing s with
  | nil => exact ⟨hstarted, fun p h => absurd h (List.not_mem_nil p), fun q h => h, rfl⟩
  | cons pad rest ih =>
    obtain ⟨a1, a2, a3, a4⟩ := add_pad_to_queue_started s pad hstarted
    obtain ⟨i1, i2, i3, i4⟩ := ih (kms_agnostic_bin2_add_pad_to_queue s pad) a1
    refine ⟨i1, ?_, fun q h => i3 q (a3 q h), i4.trans a4⟩
    intro p hp
    rcases List.mem_cons.mp hp with rfl | hp
    · exact i3 _ a2
    · exact i2 p hp

/-! ### The output ports through a worker step -/

theorem set_target_ids (s : KmsAgnosticBin2 Caps) (pad : Nat) (target : Option Nat) :
    (gst_ghost_pad_set_target s pad target).src_pads.map (fun p => p.id)
      = s.src_pads.map (fun p => p.id) := by
  simp only [gst_ghost_pad_set_target, List.map_map]
  apply List.map_congr_left
  intro p _
  simp only [Function.comp]
  split <;> rfl

theorem h264_reconfigured_reachable : Reachable video_env h264_reconfigured :=
  Reachable.step _ _ one_port_processed_reachable
    (Step.sink_caps_probe _ _ (GstEvent.caps (some (SimpleCaps.formats [Format.h264])))
      GstPadProbeReturn.GST_PAD_PROBE_OK rfl)

theorem ports_cleared_of_eq (s s' : KmsAgnosticBin2 Caps) (hc : s'.children = s.children)
    (hl : s'.links = s.links) (ht : s'.tees = s.tees) (hp : s'.src_pads = s.src_pads) :
    PortsCleared s s' :=
  ⟨hc, hl, ht, fun p h => Or.inr ⟨p, hp ▸ h, rfl, rfl⟩⟩

theorem ports_cleared_trans {s s' s'' : KmsAgnosticBin2 Caps} (h : PortsCleared s s')
    (h' : PortsCleared s' s'') : PortsCleared s s'' := by
  refine ⟨h'.children.trans h.children, h'.links.trans h.links, h'.tees.trans h.tees, ?_⟩
  intro p hp
  rcases h'.targets p hp with hn | ⟨q, hq, hid, htarget⟩
  · exact Or.inl hn
  · rcases h.targets q hq with hn | ⟨r, hr, hid', htarget'⟩
    · exact Or.inl (htarget ▸ hn)
    · exact Or.inr ⟨r, hr, hid'.trans hid, htarget'.trans htarget⟩

theorem remove_target_pad_ports_cleared (s : KmsAgnosticBin2 Caps) (pad : Nat) :
    PortsCleared s (remove_target_pad s pad) := by
  unfold remove_target_pad
  split
  · refine ⟨rfl, rfl, rfl, ?_⟩
    intro p hp
    simp only [gst_ghost_pad_set_target, List.mem_map] at hp
    obtain ⟨q, hq, rfl⟩ := hp
    split
    · exact Or.inl rfl
    · exact Or.inr ⟨q, hq, rfl, rfl⟩
  · exact ports_cleared_of_eq s s rfl rfl rfl rfl

theorem add_pad_to_queue_ports_cleared (s : KmsAgnosticBin2 Caps) (pad : Nat) :
    PortsCleared s (kms_agnostic_bin2_add_pad_to_queue s pad) := by
  have hset : PortsCleared s (kms_agnostic_bin2_set_block_probe s) := by
    unfold kms_agnostic_bin2_set_block_probe
    split <;> exact ports_cleared_of_eq _ _ rfl rfl rfl rfl
  have hrem := ports_cleared_trans hset
    (remove_target_pad_ports_cleared (kms_agnostic_bin2_set_block_probe s) pad)
  unfold kms_agnostic_bin2_add_pad_to_queue
  split
  · exact ports_cleared_of_eq s s rfl rfl rfl rfl
  · split
    · exact ⟨hrem.children, hrem.links, hrem.tees, hrem.targets⟩
    · exact ports_cleared_of_eq s s rfl rfl rfl rfl

theorem foldl_add_pad_to_queue_ports_cleared (pads : List Nat) (s : KmsAgnosticBin2 Caps) :
    PortsCleared s (pads.foldl kms_agnostic_bin2_add_pad_to_queue s) := by
  induction pads generalizing s with
  | nil => exact ports_cleared_of_eq s s rfl rfl rfl rfl
  | cons pad rest ih =>
    exact ports_cleared_trans (add_pad_to_queue_ports_cleared s pad)
      (ih (kms_agnostic_bin2_add_pad_to_queue s pad))

theorem gst_pad_unlink_ports_cleared (s : KmsAgnosticBin2 Caps) (pad : Nat) :
    PortsCleared s (gst_pad_unlink s pad) := by
  have hpeer : PortsCleared s
      { s with
        src_pads :=
          s.src_pads.map (fun p => if p.id == pad then { p with peer := none } else p) } := by
    refine ⟨rfl, rfl, rfl, ?_⟩
    intro p hp
    rw [List.mem_map] at hp
    obtain ⟨q, hq, rfl⟩ := hp
    right
    refine ⟨q, hq, ?_, ?_⟩ <;> split <;> rfl
  unfold gst_pad_unlink kms_agnostic_bin2_src_unlinked
  exact ports_cleared_trans hpeer (remove_target_pad_ports_cleared _ pad)

theorem release_pad_ports_cleared (s : KmsAgnosticBin2 Caps) (pad : Nat) :
    PortsCleared s (kms_agnostic_bin2_release_pad s pad) := by
  unfold kms_agnostic_bin2_release_pad
  dsimp only
  split
  · have h := gst_pad_unlink_ports_cleared s pad
    exact ⟨h.children, h.links, h.tees,
      fun p hp => h.targets p (List.mem_of_mem_filter hp)⟩
  · exact ⟨rfl, rfl, rfl, fun p hp => Or.inr ⟨p, List.mem_of_mem_filter hp, rfl, rfl⟩⟩

theorem request_new_pad_ports_cleared (s : KmsAgnosticBin2 Caps) :
    PortsCleared s (kms_agnostic_bin2_request_new_pad s).2 := by
  unfold kms_agnostic_bin2_request_new_pad
  dsimp only
  split
  · exact ports_cleared_of_eq _ _ rfl rfl rfl rfl
  · refine ⟨rfl, rfl, rfl, ?_⟩
    intro p hp
    rcases List.mem_append.mp hp with hp | hp
    · exact Or.inr ⟨p, hp, rfl, rfl⟩
    · rw [List.mem_singleton] at hp
      rw [hp]
      exact Or.inl rfl

theorem gst_pad_link_ports_cleared (s : KmsAgnosticBin2 Caps) (pad : Nat) (peer : Peer Caps) :
    PortsCleared s (gst_pad_link s pad peer) := by
  refine ⟨rfl, rfl, rfl, ?_⟩
  intro p hp
  simp only [gst_pad_link, List.mem_map] at hp
  obtain ⟨q, hq, rfl⟩ := hp
  right
  refine ⟨q, hq, ?_, ?_⟩ <;> split <;> rfl

/-- C19 as stated fails: the caps probe of the sink pad,
`kms_agnostic_bin2_sink_caps_probe`, which the runtime calls on the data path
for an event on the sink pad, reconfigures the input itself: on the new router
it adds five elements and five links without any request having been queued.
And `kms_agnostic_bin2_add_pad_to_queue` itself, on the thread that asks,
takes the target from a linked port (pad 0, whose target was element 20). -/
theorem graph_mutation_counterexample :
    kms_agnostic_bin2_sink_caps_probe video_env kms_agnostic_bin2_init
        (GstEvent.caps (some (SimpleCaps.formats [Format.vp8])))
        = Except.ok (GstPadProbeReturn.GST_PAD_PROBE_OK,
            after_caps_event video_env kms_agnostic_bin2_init (SimpleCaps.formats [Format.vp8]))
      ∧ (kms_agnostic_bin2_init : KmsAgnosticBin2 SimpleCaps).pads_to_link = []
      ∧ (kms_agnostic_bin2_init : KmsAgnosticBin2 SimpleCaps).children.length = 3
      ∧ (after_caps_event video_env kms_agnostic_bin2_init
            (SimpleCaps.formats [Format.vp8])).children.length = 8
      ∧ (kms_agnostic_bin2_init : KmsAgnosticBin2 SimpleCaps).links.length = 2
      ∧ (after_caps_event video_env kms_agnostic_bin2_init
            (SimpleCaps.formats [Format.vp8])).links.length = 7
      ∧ gst_ghost_pad_get_target one_port_processed 0 = some 20
      ∧ gst_ghost_pad_get_target (kms_agnostic_bin2_add_pad_to_queue one_port_processed 0) 0
          = none :=
  ⟨rfl, by decide, by decide, by decide, by decide, by decide, by decide, by decide⟩

/-- C19, amended. Every operation of the live router is a worker step
(`kms_agnostic_bin2_process_pad_loop`), or the input reconfiguration that
`kms_agnostic_bin2_sink_caps_probe` runs inline
(`kms_agnostic_bin2_configure_input_tee`), or it leaves the elements and the
links as they were, gives no output port a target (it may take one away) and
leaves the cache alone but for `set_input_caps`, which registers the tee it was
installed with: the input tee of the subtree whose format probe was pending,
be it the current subtree or one replaced since.  So building branches and
fan-out points for a port and linking the port to them is done by the worker
only. -/
theorem graph_mutation_contexts (env : Env Caps) (s s' : KmsAgnosticBin2 Caps)
    (h : Step env s s') :
    kms_agnostic_bin2_process_pad_loop env s = Except.ok s'
      ∨ (∃ new_caps,
          kms_agnostic_bin2_configure_input_tee env { s with last_caps := some new_caps } new_caps
            = Except.ok s')
      ∨ (s'.children = s.children ∧ s'.links = s.links
          ∧ (s'.tees = s.tees
              ∨ ∃ tee, tee ∈ s.children ∧ tee.name ∈ s.input_caps_probes
                  ∧ s'.tees = g_hash_table_insert s.tees tee)
          ∧ ∀ p ∈ s'.src_pads,
              p.target = none ∨ ∃ q ∈ s.src_pads, q.id = p.id ∧ q.target = p.target) := by
  have frame : ∀ x : KmsAgnosticBin2 Caps, PortsCleared s x →
      (x.children = s.children ∧ x.links = s.links
        ∧ (x.tees = s.tees
            ∨ ∃ tee, tee ∈ s.children ∧ tee.name ∈ s.input_caps_probes
                ∧ x.tees = g_hash_table_insert s.tees tee)
        ∧ ∀ p ∈ x.src_pads,
            p.target = none ∨ ∃ q ∈ s.src_pads, q.id = p.id ∧ q.target = p.target) :=
    fun x hx => ⟨hx.children, hx.links, Or.inl hx.tees, hx.targets⟩
  cases h with
  | add_pad_to_queue pad => exact Or.inr (Or.inr (frame _ (add_pad_to_queue_ports_cleared s pad)))
  | src_reconfigure_probe block event pad _ =>
    right
    right
    apply frame
    unfold kms_agnostic_bin2_src_reconfigure_probe
    split
    · exact ports_cleared_of_eq s s rfl rfl rfl rfl
    · split
      · exact add_pad_to_queue_ports_cleared s pad
      · exact ports_cleared_of_eq s s rfl rfl rfl rfl
  | process_pad_loop _ hl => exact Or.inl hl
  | sink_caps_probe _ event ret hp =>
    rcases sink_caps_probe_ok env s s' event ret hp with rfl | ⟨new_caps, rfl | hc⟩
    · exact Or.inr (Or.inr (frame _ (ports_cleared_of_eq _ _ rfl rfl rfl rfl)))
    · exact Or.inr (Or.inr (frame _ (ports_cleared_of_eq _ _ rfl rfl rfl rfl)))
    · exact Or.inr (Or.inl ⟨new_caps, hc⟩)
  | set_input_caps current_caps tee htee hprobe =>
    exact Or.inr (Or.inr ⟨rfl, rfl, Or.inr ⟨tee, htee, hprobe, rfl⟩,
      fun p hp => Or.inr ⟨p, hp, rfl, rfl⟩⟩)
  | request_new_pad => exact Or.inr (Or.inr (frame _ (request_new_pad_ports_cleared s)))
  | release_pad pad => exact Or.inr (Or.inr (frame _ (release_pad_ports_cleared s pad)))
  | pad_link pad peer => exact Or.inr (Or.inr (frame _ (gst_pad_link_ports_cleared s pad peer)))
  | pad_unlink pad => exact Or.inr (Or.inr (frame _ (gst_pad_unlink_ports_cleared s pad)))

/-- C19, amended, at a concrete step: the worker step that serves the queued port
of `one_port_queued` adds thirteen elements and gives the port its target. -/
theorem graph_mutation_contexts_witness :
    one_port_queued.children.length = 8
      ∧ one_port_processed.children.length = 21
      ∧ gst_ghost_pad_get_target one_port_queued 0 = none
      ∧ gst_ghost_pad_get_target one_port_processed 0 = some 20
      ∧ (kms_agnostic_bin2_process_pad_loop video_env one_port_queued
            = Except.ok one_port_processed
          ∨ (∃ new_caps,
              kms_agnostic_bin2_configure_input_tee video_env
                { one_port_queued with last_caps := some new_caps } new_caps
                = Except.ok one_port_processed)
          ∨ (one_port_processed.children = one_port_queued.children
              ∧ one_port_processed.links = one_port_queued.links
              ∧ (one_port_processed.tees = one_port_queued.tees
                  ∨ ∃ tee, tee ∈ one_port_queued.children
                      ∧ tee.name ∈ one_port_queued.input_caps_probes
                      ∧ one_port_processed.tees = g_hash_table_insert one_port_queued.tees tee)
              ∧ ∀ p ∈ one_port_processed.src_pads,
                  p.target = none
                    ∨ ∃ q ∈ one_port_queued.src_pads, q.id = p.id ∧ q.target = p.target)) :=
  ⟨by decide, by decide, by decide, by decide,
   graph_mutation_contexts video_env one_port_queued one_port_processed
     (Step.process_pad_loop _ _ one_port_processed_eq)⟩

/-! ### Teardown and the flow gate -/

/-- The function `kms_agnostic_bin2_dispose` clears the loop, removes the
elements and the ports, and leaves the gate, the queue and `started` as they
were. -/
theorem dispose_frame (s : KmsAgnosticBin2 Caps) :
    (kms_agnostic_bin2_dispose s).loop = none
      ∧ (kms_agnostic_bin2_dispose s).children = []
      ∧ (kms_agnostic_bin2_dispose s).src_pads = []
      ∧ (kms_agnostic_bin2_dispose s).block_probe = s.block_probe
      ∧ (kms_agnostic_bin2_dispose s).pads_to_link = s.pads_to_link
      ∧ (kms_agnostic_bin2_dispose s).started = s.started :=
  ⟨rfl, rfl, rfl, rfl, rfl, rfl⟩

/-- Once the loop is cleared, an accepted enqueue request arms the gate and
queues the port, and no worker step is scheduled for it. -/
theorem add_pad_to_queue_without_loop (s : KmsAgnosticBin2 Caps) (pad : Nat)
    (hloop : s.loop = none) (hstarted : s.started = true) (hnew : pad ∉ s.pads_to_link) :
    (kms_agnostic_bin2_add_pad_to_queue s pad).block_probe ≠ 0
      ∧ (kms_agnostic_bin2_add_pad_to_queue s pad).pads_to_link = s.pads_to_link ++ [pad]
      ∧ (kms_agnostic_bin2_add_pad_to_queue s pad).loop = none := by
  rw [add_pad_to_queue_accepted s pad hstarted hnew]
  refine ⟨?_, rfl, ?_⟩
  · show (remove_target_pad (kms_agnostic_bin2_set_block_probe s) pad).block_probe ≠ 0
    rw [remove_target_pad_block_probe]
    exact set_block_probe_armed s
  · show kms_loop_idle_add_full (remove_target_pad (kms_agnostic_bin2_set_block_probe s) pad).loop
        = none
    have h1 : (remove_target_pad (kms_agnostic_bin2_set_block_probe s) pad).loop = s.loop := by
      unfold remove_target_pad kms_agnostic_bin2_set_block_probe
      repeat' split
      all_goals rfl
    rw [h1, hloop]
    rfl

/-- C21. A worker step on an empty queue (the dequeued pad is NULL), or whose
dequeued port has no peer (it is not linked downstream, or is no longer a pad
of the bin), returns and changes nothing but the queue, which loses its head,
the gate, which is disarmed when the queue is empty after the step and is left
alone otherwise, and the record of processed pads: the cache, the current
input tee, the elements, the links and every port are the same. -/
theorem worker_skips_missing_port (env : Env Caps) (s : KmsAgnosticBin2 Caps)
    (hskip : s.pads_to_link = []
      ∨ ∃ pad rest, s.pads_to_link = pad :: rest ∧ gst_pad_get_peer s pad = none) :
    kms_agnostic_bin2_process_pad_loop env s
      = Except.ok
          { s with
            pads_to_link := s.pads_to_link.tail
            block_probe := if s.pads_to_link.tail.isEmpty then 0 else s.block_probe
            trace := s.trace ++ [TraceEvent.process_pad s.pads_to_link.head?] } := by
  rcases hskip with hq | ⟨pad, rest, hq, hpeer⟩
  · unfold kms_agnostic_bin2_process_pad_loop kms_agnostic_bin2_process_pad
    simp only [hq, g_queue_pop_head, List.isEmpty_nil, if_true, List.tail_nil, List.head?_nil]
    rw [remove_block_probe_eq]
  · have hpeer' : gst_pad_get_peer
        { s with pads_to_link := rest, trace := s.trace ++ [TraceEvent.process_pad (some pad)] }
        pad = none := hpeer
    unfold kms_agnostic_bin2_process_pad_loop kms_agnostic_bin2_process_pad
    simp only [hq, g_queue_pop_head, hpeer', kms_agnostic_bin2_unlink_pad, List.tail_cons,
      List.head?_cons]
    cases rest with
    | nil =>
      simp only [List.isEmpty_nil, if_true]
      rw [remove_block_probe_eq]
    | cons p r => simp

/-- C21 at a concrete step: the queued port (pad 0) has no peer; the worker step
empties the queue and disarms the gate, and the cache still holds the input
tee only. -/
theorem worker_skips_missing_port_witness :
    unlinked_port_queued.pads_to_link = [0]
      ∧ gst_pad_get_peer unlinked_port_queued 0 = none
      ∧ unlinked_port_queued.block_probe = 3
      ∧ unlinked_port_queued.tees = [{ name := 5, kind := ElementKind.tee }]
      ∧ kms_agnostic_bin2_process_pad_loop video_env unlinked_port_queued
          = Except.ok
              { unlinked_port_queued with
                pads_to_link := unlinked_port_queued.pads_to_link.tail
                block_probe :=
                  if unlinked_port_queued.pads_to_link.tail.isEmpty then 0
                  else unlinked_port_queued.block_probe
                trace := unlinked_port_queued.trace
                  ++ [TraceEvent.process_pad unlinked_port_queued.pads_to_link.head?] } :=
  ⟨by decide, by decide, by decide, by decide,
   worker_skips_missing_port video_env unlinked_port_queued (Or.inr ⟨0, [], rfl, rfl⟩)⟩

/-! ### The cache lookup -/

theorem find_tee_loop_eq_find (env : Env Caps) (caps : Caps) (l : List (GstElement Caps)) :
    find_tee_loop env caps l = l.find? (tee_matches env caps) := by
  induction l with
  | nil => rfl
  | cons t rest ih =>
    unfold find_tee_loop
    rw [List.find?_cons]
    unfold tee_matches
    cases hc : tee_sink_caps env t with
    | none => simpa using ih
    | some c =>
      dsimp only
      by_cases hi : env.gst_caps_can_intersect caps c = true
      · simp [hi]
      · have hf : env.gst_caps_can_intersect caps c = false := by simpa using hi
        simp only [hf]
        simpa using ih

/-- The effective caps of a tee: its current caps, or its allowed caps when it
has no current caps; the test of the lookup is that they exist and intersect
the target. -/
theorem tee_matches_iff (env : Env Caps) (caps : Caps) (t : GstElement Caps) :
    tee_matches env caps t = true
      ↔ ∃ c, (env.gst_pad_get_current_caps t.name = some c
              ∨ (env.gst_pad_get_current_caps t.name = none
                  ∧ env.gst_pad_get_allowed_caps t.name = some c))
          ∧ env.gst_caps_can_intersect caps c = true := by
  unfold tee_matches tee_sink_caps
  cases hcur : env.gst_pad_get_current_caps t.name with
  | some c =>
    dsimp only
    constructor
    · intro h
      exact ⟨c, Or.inl rfl, h⟩
    · rintro ⟨c', hc, h⟩
      rcases hc with hc | ⟨hc, _⟩
      · cases hc
        exact h
      · cases hc
  | none =>
    cases hall : env.gst_pad_get_allowed_caps t.name with
    | none =>
      dsimp only
      constructor
      · intro h
        cases h
      · rintro ⟨c', hc, _⟩
        rcases hc with hc | ⟨_, hc⟩ <;> cases hc
    | some c =>
      dsimp only
      constructor
      · intro h
        exact ⟨c, Or.inr ⟨rfl, rfl⟩, h⟩
      · rintro ⟨c', hc, h⟩
        rcases hc with hc | ⟨_, hc⟩
        · cases hc
        · cases hc
          exact h

/-- C23. For a target that is not the wildcard,
`kms_agnostic_bin2_find_tee_for_caps` returns the first tee of the cache, in
the order of its values, whose effective caps (current caps, or allowed caps
when there are no current caps) intersect the target; it returns NULL exactly
when no cached tee has such caps; a tee that reports no caps at all is never
returned. -/
theorem find_tee_for_caps_first_match (env : Env Caps) (s : KmsAgnosticBin2 Caps)
    (caps : Caps) (hany : env.gst_caps_is_any caps = false) :
    kms_agnostic_bin2_find_tee_for_caps env s caps = s.tees.find? (tee_matches env caps)
      ∧ (kms_agnostic_bin2_find_tee_for_caps env s caps = none
          ↔ ∀ t ∈ s.tees, ¬ ∃ c,
              (env.gst_pad_get_current_caps t.name = some c
                ∨ (env.gst_pad_get_current_caps t.name = none
                    ∧ env.gst_pad_get_allowed_caps t.name = some c))
              ∧ env.gst_caps_can_intersect caps c = true)
      ∧ (∀ t, env.gst_pad_get_current_caps t.name = none →
          env.gst_pad_get_allowed_caps t.name = none →
          kms_agnostic_bin2_find_tee_for_caps env s caps ≠ some t) := by
  have hfind : kms_agnostic_bin2_find_tee_for_caps env s caps
      = s.tees.find? (tee_matches env caps) := by
    unfold kms_agnostic_bin2_find_tee_for_caps
    simp only [hany, Bool.false_eq_true, if_false]
    exact find_tee_loop_eq_find env caps s.tees
  refine ⟨hfind, ?_, ?_⟩
  · rw [hfind, List.find?_eq_none]
    constructor
    · intro h t ht hm
      exact h t ht ((tee_matches_iff env caps t).mpr hm)
    · intro h t ht hm
      exact h t ht ((tee_matches_iff env caps t).mp hm)
  · intro t hcur hall hres
    rw [hfind] at hres
    have hm := List.find?_some hres
    obtain ⟨c, hc, _⟩ := (tee_matches_iff env caps t).mp hm
    rcases hc with hc | ⟨_, hc⟩
    · rw [hcur] at hc
      cases hc
    · rw [hall] at hc
      cases hc

/-- C23 at a concrete state: the cache of `one_port_processed` holds the tees 5
(VP8), 10 (raw video) and 17 (Theora); the lookup for Theora returns tee 17 and
the lookup for H.264 returns NULL. -/
theorem find_tee_for_caps_first_match_witness :
    kms_agnostic_bin2_find_tee_for_caps video_env one_port_processed
        (SimpleCaps.formats [Format.theora]) = some { name := 17, kind := ElementKind.tee }
      ∧ kms_agnostic_bin2_find_tee_for_caps video_env one_port_processed
          (SimpleCaps.formats [Format.h264]) = none
      ∧ kms_agnostic_bin2_find_tee_for_caps video_env one_port_processed
          (SimpleCaps.formats [Format.theora])
          = one_port_processed.tees.find?
              (tee_matches video_env (SimpleCaps.formats [Format.theora])) :=
  ⟨rfl, rfl,
   (find_tee_for_caps_first_match video_env one_port_processed
      (SimpleCaps.formats [Format.theora]) rfl).1⟩

/-! ### Decoder discovery -/

theorem decoder_factory_for_caps_eq (env : Env Caps) (caps raw_caps : Caps) :
    decoder_factory_for_caps env caps raw_caps
      = env.decoder_list.find? (decoder_qualifies env caps raw_caps) := by
  unfold decoder_factory_for_caps gst_element_factory_list_filter
  dsimp only
  rw [List.filter_filter, select_factory_filter]
  congr 1
  funext f
  unfold decoder_qualifies
  rw [Bool.and_comm (f.static_pad_templates.any
    (fun t => t.1 == GstPadDirection.GST_PAD_SRC && env.gst_caps_can_intersect raw_caps t.2))]

/-- C24. `create_decoder_for_caps` makes its element from the first factory of
the registry's decoder list that qualifies (sink caps intersecting the source
format, src caps intersecting the raw target, two pad templates) and returns
NULL exactly when no factory of the list qualifies; the factory chosen is a
function of the registry, the source format and the target alone, the same
for every state of the router. -/
theorem create_decoder_for_caps_first_match (env : Env Caps) (caps raw_caps : Caps) :
    decoder_factory_for_caps env caps raw_caps
        = env.decoder_list.find? (decoder_qualifies env caps raw_caps)
      ∧ (∀ s : KmsAgnosticBin2 Caps,
          (create_decoder_for_caps env s caps raw_caps).1
            = (env.decoder_list.find? (decoder_qualifies env caps raw_caps)).map
                (fun f => { name := s.element_seq, kind := ElementKind.created f }))
      ∧ (∀ s : KmsAgnosticBin2 Caps,
          (create_decoder_for_caps env s caps raw_caps).1 = none
            ↔ ∀ f ∈ env.decoder_list, decoder_qualifies env caps raw_caps f = false)
      ∧ (∀ s1 s2 : KmsAgnosticBin2 Caps,
          (create_decoder_for_caps env s1 caps raw_caps).1.map (fun e => e.kind)
            = (create_decoder_for_caps env s2 caps raw_caps).1.map (fun e => e.kind)) := by
  have hcreate : ∀ s : KmsAgnosticBin2 Caps,
      (create_decoder_for_caps env s caps raw_caps).1
        = (env.decoder_list.find? (decoder_qualifies env caps raw_caps)).map
            (fun f => { name := s.element_seq, kind := ElementKind.created f }) := by
    intro s
    unfold create_decoder_for_caps
    rw [decoder_factory_for_caps_eq]
    cases env.decoder_list.find? (decoder_qualifies env caps raw_caps) <;> rfl
  refine ⟨decoder_factory_for_caps_eq env caps raw_caps, hcreate, ?_, ?_⟩
  · intro s
    rw [hcreate s, Option.map_eq_none', List.find?_eq_none]
    constructor
    · intro h f hf
      simpa using h f hf
    · intro h f hf
      simp [h f hf]
  · intro s1 s2
    rw [hcreate s1, hcreate s2]
    cases env.decoder_list.find? (decoder_qualifies env caps raw_caps) <;> rfl

/-! ### The terminals of the selected factories -/

theorem templates_count (l : List (GstPadDirection × Caps)) :
    (l.filter (fun t => t.1 == GstPadDirection.GST_PAD_SINK)).length
      + (l.filter (fun t => t.1 == GstPadDirection.GST_PAD_SRC)).length = l.length := by
  induction l with
  | nil => rfl
  | cons t rest ih =>
    obtain ⟨d, c⟩ := t
    cases d <;> simp [List.filter_cons] <;> omega

theorem templates_any_count (l : List (GstPadDirection × Caps)) (d : GstPadDirection)
    (q : GstPadDirection × Caps → Bool) (h : l.any (fun t => t.1 == d && q t) = true) :
    1 ≤ (l.filter (fun t => t.1 == d)).length := by
  rw [List.any_eq_true] at h
  obtain ⟨t, ht, hp⟩ := h
  have hd : (t.1 == d) = true := by
    rw [Bool.and_eq_true] at hp
    exact hp.1
  have hmem : t ∈ l.filter (fun t => t.1 == d) := List.mem_filter.mpr ⟨ht, hd⟩
  exact List.length_pos_of_mem hmem

theorem encoder_factory_for_caps_eq (env : Env Caps) (caps : Caps) :
    encoder_factory_for_caps env caps
      = env.encoder_list.find? (fun f =>
          f.static_pad_templates.any
              (fun t => t.1 == GstPadDirection.GST_PAD_SRC && env.gst_caps_can_intersect caps t.2)
            && gst_element_factory_get_num_pad_templates f == 2) := by
  unfold encoder_factory_for_caps gst_element_factory_list_filter
  rw [select_factory_filter]

/-- C25 as stated fails: `two_src_encoder` has two output terminals and no input
terminal, and `create_encoder_for_caps` selects it for Theora;
`parser_with_two_sinks` has two input terminals and no output terminal, and
`create_parser_for_caps` selects it for VP8. -/
theorem selected_factory_terminals_counterexample :
    encoder_factory_for_caps odd_factories_env (SimpleCaps.formats [Format.theora])
        = some two_src_encoder
      ∧ sink_templates two_src_encoder = 0 ∧ src_templates two_src_encoder = 2
      ∧ parser_factory_for_caps odd_factories_env (SimpleCaps.formats [Format.vp8])
          = some parser_with_two_sinks
      ∧ sink_templates parser_with_two_sinks = 2 ∧ src_templates parser_with_two_sinks = 0 :=
  ⟨rfl, rfl, rfl, rfl, rfl, rfl⟩

/-- C25, amended. A factory selected by `create_decoder_for_caps` has exactly
one input terminal and one output terminal.  A factory selected by
`create_encoder_for_caps` has exactly two terminals, one of them at least an
output; a factory selected by `create_parser_for_caps` has exactly two
terminals, one of them at least an input.  So an encoder or parser that has
both an input and an output has one of each, and no factory with another
number of terminals than two is selected. -/
theorem selected_factory_terminals (env : Env Caps) (caps raw_caps : Caps)
    (f : GstElementFactory Caps) :
    (decoder_factory_for_caps env caps raw_caps = some f →
        sink_templates f = 1 ∧ src_templates f = 1)
      ∧ (encoder_factory_for_caps env caps = some f →
          sink_templates f + src_templates f = 2 ∧ 1 ≤ src_templates f)
      ∧ (parser_factory_for_caps env caps = some f →
          sink_templates f + src_templates f = 2 ∧ 1 ≤ sink_templates f) := by
  have hsum : sink_templates f + src_templates f
      = gst_element_factory_get_num_pad_templates f := templates_count f.static_pad_templates
  refine ⟨?_, ?_, ?_⟩
  · intro h
    rw [decoder_factory_for_caps_eq] at h
    have hq := List.find?_some h
    unfold decoder_qualifies at hq
    simp only [Bool.and_eq_true, beq_iff_eq] at hq
    obtain ⟨⟨h1, h2⟩, h3⟩ := hq
    have a1 : 1 ≤ sink_templates f :=
      templates_any_count f.static_pad_templates GstPadDirection.GST_PAD_SINK
        (fun t => env.gst_caps_can_intersect caps t.2)
        (by simpa [List.any_eq_true] using h1)
    have a2 : 1 ≤ src_templates f :=
      templates_any_count f.static_pad_templates GstPadDirection.GST_PAD_SRC
        (fun t => env.gst_caps_can_intersect raw_caps t.2)
        (by simpa [List.any_eq_true] using h2)
    omega
  · intro h
    rw [encoder_factory_for_caps_eq] at h
    have hq := List.find?_some h
    simp only [Bool.and_eq_true, beq_iff_eq] at hq
    obtain ⟨h1, h3⟩ := hq
    have a2 : 1 ≤ src_templates f :=
      templates_any_count f.static_pad_templates GstPadDirection.GST_PAD_SRC
        (fun t => env.gst_caps_can_intersect caps t.2)
        (by simpa [List.any_eq_true] using h1)
    omega
  · intro h
    rw [parser_factory_for_caps_eq] at h
    have hq := List.find?_some h
    unfold parser_qualifies at hq
    simp only [Bool.and_eq_true, beq_iff_eq] at hq
    obtain ⟨h1, h3⟩ := hq
    have a1 : 1 ≤ sink_templates f :=
      templates_any_count f.static_pad_templates GstPadDirection.GST_PAD_SINK
        (fun t => env.gst_caps_can_intersect caps t.2)
        (by simpa [List.any_eq_true] using h1)
    omega

/-- C25, amended, at concrete factories: the decoder selected for VP8 and the
encoder selected for Theora in `video_env`. -/
theorem selected_factory_terminals_witness :
    (sink_templates vp8dec = 1 ∧ src_templates vp8dec = 1)
      ∧ (sink_templates theoraenc + src_templates theoraenc = 2
          ∧ 1 ≤ src_templates theoraenc) :=
  ⟨(selected_factory_terminals video_env (SimpleCaps.formats [Format.vp8])
      (SimpleCaps.formats [Format.raw_video]) vp8dec).1 rfl,
   (selected_factory_terminals video_env (SimpleCaps.formats [Format.theora])
      (SimpleCaps.formats [Format.raw_video]) theoraenc).2.1 rfl⟩

/-! ### The composition of the branches -/

/-- C26 as stated fails: for the port that asks for raw video on the VP8 input,
`kms_agnostic_bin2_link_pad` builds the decode branch and then, in
`kms_agnostic_bin2_link_to_tee`, a branch of three elements for the raw target:
a queue (element 13), a videorate (element 15) and a videoconvert (element
14), linked in this order behind the raw tee (element 10); the port's target is
the videoconvert. -/
theorem branch_composition_counterexample :
    is_raw_caps video_env (SimpleCaps.formats [Format.raw_video]) = true
      ∧ kms_agnostic_bin2_link_pad video_env raw_port 0 raw_video_peer
          = Except.ok raw_port_linked
      ∧ raw_port_linked.children.drop 13
          = [{ name := 13, kind := ElementKind.queue },
             { name := 14, kind := ElementKind.videoconvert },
             { name := 15, kind := ElementKind.videorate }]
      ∧ raw_port_linked.links.drop 12 = [(13, 15), (15, 14), (10, 13)]
      ∧ gst_ghost_pad_get_target raw_port_linked 0 = some 14 :=
  ⟨rfl, rfl, by decide, by decide, by decide⟩

/-- C26, amended. The branch `kms_agnostic_bin2_link_to_tee` builds between a tee
and a port consists, for a raw target that is not the wildcard, of a queue, a
rate element and a convert element of the target's media kind, linked in this
order, the convert element being the port's target; for every other target it
consists of the queue only.  The encode branch
`kms_agnostic_bin2_create_tee_for_caps` builds behind the raw tee for an encoded
target with an encoder consists, in this order, of a queue, a rate element, a
convert element of the target's media kind and the encoder, followed by the new
tee with its queue and fakesink.  The media kind is audio when the target
intersects the audio caps and video otherwise. -/
theorem branch_composition (env : Env Caps) (s : KmsAgnosticBin2 Caps) (pad : Nat)
    (tee : GstElement Caps) (caps : Caps) :
    ((!env.gst_caps_is_any caps && is_raw_caps env caps) = true →
        (kms_agnostic_bin2_link_to_tee env s pad tee caps).children = s.children ++
            [{ name := s.element_seq, kind := ElementKind.queue },
             { name := s.element_seq + 1,
               kind := if env.gst_caps_can_intersect caps env.static_audio_caps
                 then ElementKind.audioconvert else ElementKind.videoconvert },
             { name := s.element_seq + 2,
               kind := if env.gst_caps_can_intersect caps env.static_audio_caps
                 then ElementKind.audiorate else ElementKind.videorate }]
          ∧ (kms_agnostic_bin2_link_to_tee env s pad tee caps).links = s.links ++
              [(s.element_seq, s.element_seq + 2), (s.element_seq + 2, s.element_seq + 1),
               (tee.name, s.element_seq)]
          ∧ (kms_agnostic_bin2_link_to_tee env s pad tee caps).src_pads
              = (gst_ghost_pad_set_target s pad (some (s.element_seq + 1))).src_pads)
      ∧ ((!env.gst_caps_is_any caps && is_raw_caps env caps) = false →
          (kms_agnostic_bin2_link_to_tee env s pad tee caps).children = s.children ++
              [{ name := s.element_seq, kind := ElementKind.queue }]
            ∧ (kms_agnostic_bin2_link_to_tee env s pad tee caps).links = s.links ++
                [(tee.name, s.element_seq)]
            ∧ (kms_agnostic_bin2_link_to_tee env s pad tee caps).src_pads
                = (gst_ghost_pad_set_target s pad (some s.element_seq)).src_pads)
      ∧ (∀ (raw_tee : GstElement Caps) (s1 : KmsAgnosticBin2 Caps)
            (f : GstElementFactory Caps),
          kms_agnostic_bin2_get_or_create_raw_tee env s caps = Except.ok (some raw_tee, s1) →
          is_raw_caps env caps = false →
          encoder_factory_for_caps env caps = some f →
          ∃ s', kms_agnostic_bin2_create_tee_for_caps env s caps
              = Except.ok (some { name := s1.element_seq + 4, kind := ElementKind.tee }, s')
            ∧ s'.children = s1.children ++
                [{ name := s1.element_seq + 1, kind := ElementKind.queue },
                 { name := s1.element_seq + 2,
                   kind := if env.gst_caps_can_intersect caps env.static_audio_caps
                     then ElementKind.audiorate else ElementKind.videorate },
                 { name := s1.element_seq + 3,
                   kind := if env.gst_caps_can_intersect caps env.static_audio_caps
                     then ElementKind.audioconvert else ElementKind.videoconvert },
                 { name := s1.element_seq, kind := ElementKind.created f },
                 { name := s1.element_seq + 4, kind := ElementKind.tee },
                 { name := s1.element_seq + 5, kind := ElementKind.queue },
                 { name := s1.element_seq + 6, kind := ElementKind.fakesink }]
            ∧ s'.links = s1.links ++
                [(s1.element_seq + 1, s1.element_seq + 2),
                 (s1.element_seq + 2, s1.element_seq + 3),
                 (s1.element_seq + 3, s1.element_seq), (s1.element_seq, s1.element_seq + 4),
                 (s1.element_seq + 4, s1.element_seq + 5),
                 (s1.element_seq + 5, s1.element_seq + 6),
                 (raw_tee.name, s1.element_seq + 1)]) := by
  refine ⟨?_, ?_, ?_⟩
  · intro h
    unfold kms_agnostic_bin2_link_to_tee
    dsimp only
    rw [if_pos h]
    simp [gst_element_factory_make, create_rate_for_caps, create_convert_for_caps,
      gst_bin_add_many, gst_element_link_many, link_queue_to_tee, gst_ghost_pad_set_target,
      chain_links, Nat.add_assoc]
  · intro h
    have hn : ¬ ((!env.gst_caps_is_any caps && is_raw_caps env caps) = true) := by simp [h]
    unfold kms_agnostic_bin2_link_to_tee
    dsimp only
    rw [if_neg hn]
    simp [gst_element_factory_make, gst_bin_add_many, link_queue_to_tee,
      gst_ghost_pad_set_target]
  · intro raw_tee s1 f hraw hencoded hencoder
    have hr : ¬ (is_raw_caps env caps = true) := by simp [hencoded]
    unfold kms_agnostic_bin2_create_tee_for_caps
    rw [hraw]
    dsimp only
    rw [if_neg hr]
    unfold create_encoder_for_caps
    simp only [hencoder, gst_element_factory_make, create_rate_for_caps, create_convert_for_caps,
      gst_bin_add_many, gst_element_link_many, link_queue_to_tee]
    refine ⟨_, rfl, ?_, ?_⟩
    · simp
    · simp [chain_links, Nat.add_assoc]

/-- C26, amended, at concrete calls on `one_port_processed`: the branch for raw
video behind the raw tee (element 10) is queue, videorate, videoconvert; the
branch for Theora behind the Theora tee (element 17) is the queue alone. -/
theorem branch_composition_witness :
    ((kms_agnostic_bin2_link_to_tee video_env one_port_processed 0
          { name := 10, kind := ElementKind.tee } (SimpleCaps.formats [Format.raw_video])).children
        = one_port_processed.children ++
            [{ name := 21, kind := ElementKind.queue },
             { name := 22, kind := ElementKind.videoconvert },
             { name := 23, kind := ElementKind.videorate }]
      ∧ (kms_agnostic_bin2_link_to_tee video_env one_port_processed 0
          { name := 10, kind := ElementKind.tee } (SimpleCaps.formats [Format.raw_video])).links
        = one_port_processed.links ++ [(21, 23), (23, 22), (10, 21)]
      ∧ (kms_agnostic_bin2_link_to_tee video_env one_port_processed 0
          { name := 10, kind := ElementKind.tee } (SimpleCaps.formats [Format.raw_video])).src_pads
        = (gst_ghost_pad_set_target one_port_processed 0 (some 22)).src_pads)
      ∧ ((kms_agnostic_bin2_link_to_tee video_env one_port_processed 0
            { name := 17, kind := ElementKind.tee } (SimpleCaps.formats [Format.theora])).children
          = one_port_processed.children ++ [{ name := 21, kind := ElementKind.queue }]
        ∧ (kms_agnostic_bin2_link_to_tee video_env one_port_processed 0
            { name := 17, kind := ElementKind.tee } (SimpleCaps.formats [Format.theora])).links
          = one_port_processed.links ++ [(17, 21)]
        ∧ (kms_agnostic_bin2_link_to_tee video_env one_port_processed 0
            { name := 17, kind := ElementKind.tee } (SimpleCaps.formats [Format.theora])).src_pads
          = (gst_ghost_pad_set_target one_port_processed 0 (some 21)).src_pads) :=
  ⟨(branch_composition video_env one_port_processed 0 { name := 10, kind := ElementKind.tee }
      (SimpleCaps.formats [Format.raw_video])).1 rfl,
   (branch_composition video_env one_port_processed 0 { name := 17, kind := ElementKind.tee }
      (SimpleCaps.formats [Format.theora])).2.1 rfl⟩

/-! ### Reconfigure events at the tees -/

/-- C27 as stated fails: a reconfigure event on a src pad of the raw tee (raw
caps) is dropped by `tee_src_probe` and no key unit is requested, because
`send_force_key_unit_event` returns at once for raw caps. -/
theorem tee_src_probe_counterexample :
    tee_src_probe video_env raw_tee_src_pad true (GstPadProbeData.event GstEvent.reconfigure)
      = (GstPadProbeReturn.GST_PAD_PROBE_DROP, none) :=
  rfl

/-- C27, amended. A reconfigure event seen by `tee_src_probe` as a blocking probe
is dropped; the drop comes with a key unit request on the pad exactly when the
pad has caps (its current caps, or its allowed caps when it has no current
caps) and they are not raw.  Every other event, buffer or buffer list is passed
on (`GST_PAD_PROBE_PASS`) and nothing is requested; called without the block
flag the probe returns `GST_PAD_PROBE_OK` and requests nothing. -/
theorem tee_src_probe_drops_reconfigure (env : Env Caps) (pad : GstPad Caps) :
    tee_src_probe env pad true (GstPadProbeData.event GstEvent.reconfigure)
        = (GstPadProbeReturn.GST_PAD_PROBE_DROP, send_force_key_unit_event env pad)
      ∧ ((send_force_key_unit_event env pad).isSome = true
          ↔ ∃ c, (pad.current_caps = some c
                  ∨ (pad.current_caps = none ∧ pad.allowed_caps = some c))
              ∧ is_raw_caps env c = false)
      ∧ (∀ info, info ≠ GstPadProbeData.event GstEvent.reconfigure →
          tee_src_probe env pad true info = (GstPadProbeReturn.GST_PAD_PROBE_PASS, none))
      ∧ (∀ info,
          tee_src_probe env pad false info = (GstPadProbeReturn.GST_PAD_PROBE_OK, none)) := by
  refine ⟨rfl, ?_, ?_, fun _ => rfl⟩
  · unfold send_force_key_unit_event
    cases hcur : pad.current_caps with
    | some c =>
      dsimp only
      by_cases hr : is_raw_caps env c = true
      · rw [if_pos hr]
        constructor
        · intro h
          cases h
        · rintro ⟨c', hc, hraw⟩
          rcases hc with hc | ⟨hc, _⟩
          · cases hc
            rw [hr] at hraw
            cases hraw
          · cases hc
      · rw [if_neg hr]
        constructor
        · intro _
          exact ⟨c, Or.inl rfl, by simpa using hr⟩
        · intro _
          split <;> rfl
    | none =>
      dsimp only
      cases hall : pad.allowed_caps with
      | none =>
        dsimp only
        constructor
        · intro h
          cases h
        · rintro ⟨c', hc, _⟩
          rcases hc with hc | ⟨_, hc⟩ <;> cases hc
      | some c =>
        dsimp only
        by_cases hr : is_raw_caps env c = true
        · rw [if_pos hr]
          constructor
          · intro h
            cases h
          · rintro ⟨c', hc, hraw⟩
            rcases hc with hc | ⟨_, hc⟩
            · cases hc
            · cases hc
              rw [hr] at hraw
              cases hraw
        · rw [if_neg hr]
          constructor
          · intro _
            exact ⟨c, Or.inr ⟨rfl, rfl⟩, by simpa using hr⟩
          · intro _
            split <;> rfl
  · intro info hne
    unfold tee_src_probe
    cases info with
    | buffer => rfl
    | buffer_list => rfl
    | event e =>
      cases e with
      | reconfigure => exact absurd rfl hne
      | caps c => rfl
      | gap => rfl
      | other => rfl

/-- C27, amended, at a concrete pad: a reconfigure event on a src pad of the
Theora tee is dropped and a key unit is requested with `gst_pad_send_event`. -/
theorem tee_src_probe_drops_reconfigure_witness :
    tee_src_probe video_env theora_tee_src_pad true (GstPadProbeData.event GstEvent.reconfigure)
        = (GstPadProbeReturn.GST_PAD_PROBE_DROP, some ForceKeyUnit.gst_pad_send_event)
      ∧ tee_src_probe video_env theora_tee_src_pad true GstPadProbeData.buffer
        = (GstPadProbeReturn.GST_PAD_PROBE_PASS, none) :=
  ⟨(tee_src_probe_drops_reconfigure video_env theora_tee_src_pad).1,
   (tee_src_probe_drops_reconfigure video_env theora_tee_src_pad).2.2.1 _
     (fun h => by cases h)⟩

/-! ### The gate is armed only while work is pending -/

/-- C28. In every state the router reaches from `kms_agnostic_bin2_init` (by
enqueue requests, worker steps that return, format-change notifications and
the other operations of `Step`), an armed flow gate comes with a non-empty
mutation queue. -/
theorem armed_gate_has_work (env : Env Caps) (s : KmsAgnosticBin2 Caps)
    (h : Reachable env s) : s.block_probe ≠ 0 → s.pads_to_link ≠ [] := by
  induction h with
  | init =>
    intro h
    exact absurd rfl h
  | step s s' _ hstep ih =>
    rcases step_enqueues env s s' hstep with ⟨a, ha⟩ | hw
    · intro harmed
      by_cases hacc : a = []
      · rw [ha.same hacc] at harmed
        rw [ha.pads_to_link, hacc, List.append_nil]
        exact ih harmed
      · rw [ha.pads_to_link]
        intro hq
        exact hacc (List.append_eq_nil.mp hq).2
    · obtain ⟨hq, _, hempty, _⟩ := process_pad_loop_effect env s s' hw
      intro harmed hnil
      rw [hq] at hnil
      exact harmed (hempty hnil)

/-- C28 at a concrete state: the gate of `one_port_queued` is armed and its
queue holds the port. -/
theorem armed_gate_has_work_witness :
    one_port_queued.block_probe = 3 ∧ one_port_queued.pads_to_link ≠ [] :=
  ⟨by decide, armed_gate_has_work video_env one_port_queued one_port_queued_reachable
    (by decide)⟩

/-! ### The recorded previous format -/

theorem build_input_tee_last_caps (env : Env Caps) (s : KmsAgnosticBin2 Caps) (caps : Caps) :
    (build_input_tee env s caps).last_caps = s.last_caps := by
  simp [build_input_tee, gst_element_factory_make, create_parser_for_caps, gst_bin_add_many,
    gst_element_link_many]

theorem vp8_notified_reachable : Reachable video_env vp8_notified :=
  Reachable.step _ _ Reachable.init
    (Step.sink_caps_probe _ _ (GstEvent.caps (some (SimpleCaps.formats [Format.vp8])))
      GstPadProbeReturn.GST_PAD_PROBE_OK rfl)

/-- C29. For a caps event with non-null caps on a reachable router,
`kms_agnostic_bin2_sink_caps_probe` returns and `last_caps` is the new caps
afterwards, reconfiguration or not.  So the next event is tested against this
event's caps: once raw caps `raw` have been notified, the event for `new_caps`
that follows changes `last_caps` only, whatever format `old_caps` was notified
(and configured) before. -/
theorem sink_caps_probe_records_last_caps (env : Env Caps) (s : KmsAgnosticBin2 Caps)
    (new_caps : Caps) (hs : Reachable env s) :
    (∃ s', kms_agnostic_bin2_sink_caps_probe env s (GstEvent.caps (some new_caps))
          = Except.ok (GstPadProbeReturn.GST_PAD_PROBE_OK, s')
        ∧ s'.last_caps = some new_caps)
      ∧ ∀ old_caps raw, s.last_caps = some old_caps → is_raw_caps env raw = true →
          kms_agnostic_bin2_sink_caps_probe env s (GstEvent.caps (some raw))
              = Except.ok (GstPadProbeReturn.GST_PAD_PROBE_OK, { s with last_caps := some raw })
            ∧ kms_agnostic_bin2_sink_caps_probe env { s with last_caps := some raw }
                (GstEvent.caps (some new_caps))
              = Except.ok (GstPadProbeReturn.GST_PAD_PROBE_OK,
                  { s with last_caps := some new_caps }) := by
  have hw := reachable_graph_wf env s hs
  have hconf : ∃ s',
      probe_return GstPadProbeReturn.GST_PAD_PROBE_OK
        (kms_agnostic_bin2_configure_input_tee env { s with last_caps := some new_caps } new_caps)
        = Except.ok (GstPadProbeReturn.GST_PAD_PROBE_OK, s')
      ∧ s'.last_caps = some new_caps := by
    obtain ⟨s1, h1⟩ :=
      disconnect_previous_input_tee_returns { s with last_caps := some new_caps } hw.input
    obtain ⟨l, rfl, _⟩ := disconnect_previous_input_tee_links _ s1 h1
    unfold kms_agnostic_bin2_configure_input_tee probe_return
    rw [h1]
    exact ⟨_, rfl, build_input_tee_last_caps env _ new_caps⟩
  constructor
  · unfold kms_agnostic_bin2_sink_caps_probe
    dsimp only
    split
    · split
      · exact hconf
      · exact ⟨_, rfl, rfl⟩
    · exact hconf
  · intro old_caps raw hold hraw
    constructor
    · unfold kms_agnostic_bin2_sink_caps_probe
      simp [hold, hraw]
    · unfold kms_agnostic_bin2_sink_caps_probe
      simp [hraw]

/-- C29 at the run of the example: VP8, then raw video, then H.264 on the new
router.  H.264 does not intersect VP8 and neither is raw, yet only the first
event configures the input: after the third the input tee is still the one
built for VP8 (element 5), no element has been added, and `last_caps` is
H.264. -/
theorem sink_caps_probe_records_last_caps_witness :
    SimpleCaps.can_intersect (SimpleCaps.formats [Format.h264])
        (SimpleCaps.formats [Format.vp8]) = false
      ∧ vp8_notified.current_tee = some { name := 5, kind := ElementKind.tee }
      ∧ vp8_notified.element_seq = 8
      ∧ vp8_raw_h264_notified.current_tee = some { name := 5, kind := ElementKind.tee }
      ∧ vp8_raw_h264_notified.element_seq = 8
      ∧ vp8_raw_h264_notified.last_caps = some (SimpleCaps.formats [Format.h264])
      ∧ kms_agnostic_bin2_sink_caps_probe video_env vp8_notified
            (GstEvent.caps (some (SimpleCaps.formats [Format.raw_video])))
          = Except.ok (GstPadProbeReturn.GST_PAD_PROBE_OK,
              { vp8_notified with last_caps := some (SimpleCaps.formats [Format.raw_video]) })
      ∧ kms_agnostic_bin2_sink_caps_probe video_env
            { vp8_notified with last_caps := some (SimpleCaps.formats [Format.raw_video]) }
            (GstEvent.caps (some (SimpleCaps.formats [Format.h264])))
          = Except.ok (GstPadProbeReturn.GST_PAD_PROBE_OK,
              { vp8_notified with last_caps := some (SimpleCaps.formats [Format.h264]) }) :=
  ⟨rfl, by decide, by decide, by decide, by decide, by decide,
   (sink_caps_probe_records_last_caps video_env vp8_notified (SimpleCaps.formats [Format.h264])
      vp8_notified_reachable).2 (SimpleCaps.formats [Format.vp8])
      (SimpleCaps.formats [Format.raw_video]) rfl rfl⟩

/-! ### The pad queries of a media element -/

/-- C22. The pad queries with a description, `getMediaSrcs (mediaType,
description)` and `getMediaSinks (mediaType, description)`, are the queries by
type when the description is empty (the same pads and the same effect on the
element) and return the empty list, leaving the element alone, when it is not;
the queries by type return exactly one pad for `AUDIO` and exactly one for
`VIDEO`, of that media type when the element had to create it. -/
theorem pad_query_by_description (self : MediaElementImpl) (mediaType : MediaType)
    (description : String) :
    (description = "" →
        self.getMediaSrcs_mediaType_description mediaType description
          = self.getMediaSrcs_mediaType mediaType
        ∧ self.getMediaSinks_mediaType_description mediaType description
          = self.getMediaSinks_mediaType mediaType)
      ∧ (description ≠ "" →
          self.getMediaSrcs_mediaType_description mediaType description = ([], self)
          ∧ self.getMediaSinks_mediaType_description mediaType description = ([], self))
      ∧ (self.getMediaSrcs_mediaType MediaType.AUDIO).1.length = 1
      ∧ (self.getMediaSrcs_mediaType MediaType.VIDEO).1.length = 1
      ∧ (self.getMediaSinks_mediaType MediaType.AUDIO).1.length = 1
      ∧ (self.getMediaSinks_mediaType MediaType.VIDEO).1.length = 1
      ∧ (self.audioMediaSrc = none →
          (self.getMediaSrcs_mediaType MediaType.AUDIO).1.map (fun p => p.mediaType)
            = [MediaType.AUDIO])
      ∧ (self.videoMediaSrc = none →
          (self.getMediaSrcs_mediaType MediaType.VIDEO).1.map (fun p => p.mediaType)
            = [MediaType.VIDEO]) := by
  refine ⟨?_, ?_, rfl, rfl, rfl, rfl, ?_, ?_⟩
  · intro h
    subst h
    exact ⟨rfl, rfl⟩
  · intro h
    have hb : (description == "") = false := by simpa using h
    unfold MediaElementImpl.getMediaSrcs_mediaType_description
      MediaElementImpl.getMediaSinks_mediaType_description
    rw [hb]
    exact ⟨rfl, rfl⟩
  · intro h
    simp [MediaElementImpl.getMediaSrcs_mediaType, MediaElementImpl.getOrCreateAudioMediaSrc, h]
  · intro h
    simp [MediaElementImpl.getMediaSrcs_mediaType, MediaElementImpl.getOrCreateVideoMediaSrc, h]

/-- C22 at a new element, with the description of the test
(`src/tests/server/mediaElement.cpp`): one pad for the empty description, none
for `"test"`. -/
theorem pad_query_by_description_witness :
    (new_media_element.getMediaSinks_mediaType_description MediaType.AUDIO "").1.length = 1
      ∧ (new_media_element.getMediaSinks_mediaType_description MediaType.AUDIO "test").1.length
          = 0
      ∧ (new_media_element.getMediaSinks_mediaType_description MediaType.VIDEO "").1.length = 1
      ∧ (new_media_element.getMediaSinks_mediaType_description MediaType.VIDEO "test").1.length
          = 0 := by
  have h := pad_query_by_description new_media_element MediaType.AUDIO "test"
  have h' := pad_query_by_description new_media_element MediaType.VIDEO "test"
  refine ⟨rfl, ?_, rfl, ?_⟩
  · rw [(h.2.1 (by decide)).2]
    rfl
  · rw [(h'.2.1 (by decide)).2]
    rfl

/-! ### Connecting a media source -/

/-- C30. `MediaSourceImpl::connect` throws `CONNECT_ERROR` exactly when a request
pad was obtained and the sink's `linkPad` refused it; then the connected sinks
are unchanged and the pad has been released.  When `linkPad` accepts, nothing
is thrown, the sink is appended once to the connected sinks and no pad is
released.  When no pad is obtained nothing is thrown, the connected sinks are
unchanged and the connection waits for the signal `agnosticbin-added`. -/
theorem connect_error_iff (self : MediaSourceImpl) (sink : Nat) (pad : Option Nat)
    (linkPad : Bool) :
    ((self.connect sink pad linkPad).1 = some KurentoException.CONNECT_ERROR
        ↔ (∃ p, pad = some p) ∧ linkPad = false)
      ∧ (∀ p, pad = some p → linkPad = false →
          (self.connect sink pad linkPad).2.connectedSinks = self.connectedSinks
            ∧ (self.connect sink pad linkPad).2.released_pads = self.released_pads ++ [p]
            ∧ (self.connect sink pad linkPad).2.agnosticbin_added = self.agnosticbin_added)
      ∧ (∀ p, pad = some p → linkPad = true →
          (self.connect sink pad linkPad).1 = none
            ∧ (self.connect sink pad linkPad).2.connectedSinks = self.connectedSinks ++ [sink]
            ∧ (self.connect sink pad linkPad).2.released_pads = self.released_pads
            ∧ (self.connect sink pad linkPad).2.agnosticbin_added = self.agnosticbin_added)
      ∧ (pad = none →
          (self.connect sink pad linkPad).1 = none
            ∧ (self.connect sink pad linkPad).2.connectedSinks = self.connectedSinks
            ∧ (self.connect sink pad linkPad).2.released_pads = self.released_pads
            ∧ (self.connect sink pad linkPad).2.agnosticbin_added
                = self.agnosticbin_added ++ [sink]) := by
  cases pad with
  | none =>
    refine ⟨?_, ?_, ?_, ?_⟩
    · constructor
      · intro h
        cases h
      · rintro ⟨⟨p, hp⟩, _⟩
        cases hp
    · intro p hp
      cases hp
    · intro p hp
      cases hp
    · intro _
      exact ⟨rfl, rfl, rfl, rfl⟩
  | some q =>
    cases linkPad with
    | true =>
      refine ⟨?_, ?_, ?_, ?_⟩
      · constructor
        · intro h
          cases h
        · rintro ⟨_, h⟩
          cases h
      · intro p _ h
        cases h
      · intro p _ _
        exact ⟨rfl, rfl, rfl, rfl⟩
      · intro h
        cases h
    | false =>
      refine ⟨?_, ?_, ?_, ?_⟩
      · constructor
        · intro _
          exact ⟨⟨q, rfl⟩, rfl⟩
        · intro _
          rfl
      · intro p hp _
        cases hp
        exact ⟨rfl, rfl, rfl⟩
      · intro p _ h
        cases h
      · intro h
        cases h

/-- C30 at a concrete source with one connected sink: the refused connection of
sink 2 on pad 7 throws and releases the pad; the accepted one appends sink 2;
without a pad the connection is put off. -/
theorem connect_error_iff_witness :
    one_sink_source.connect 2 (some 7) false
        = (some KurentoException.CONNECT_ERROR,
            { connectedSinks := [1], agnosticbin_added := [], released_pads := [7] })
      ∧ one_sink_source.connect 2 (some 7) true
        = (none, { connectedSinks := [1, 2], agnosticbin_added := [], released_pads := [] })
      ∧ one_sink_source.connect 2 none true
        = (none, { connectedSinks := [1], agnosticbin_added := [2], released_pads := [] })
      ∧ ((one_sink_source.connect 2 (some 7) false).1 = some KurentoException.CONNECT_ERROR
          ↔ (∃ p, some 7 = some p) ∧ false = false) :=
  ⟨rfl, rfl, rfl, (connect_error_iff one_sink_source 2 (some 7) false).1⟩

end KmsCore
